import Mathlib

/-!
# Railway ticket backend: reservation and inventory consistency

A shallow embedding of the order, ticket and route-search code of the backend
(`internal/models`, `internal/database`, `internal/repository`,
`internal/handlers`) and the properties of it that are settled here.

Modelling conventions.

* The PostgreSQL store is a record of tables (lists of rows, in insertion
  order) plus the two `BIGSERIAL` sequences the modelled inserts draw from.
  A statement acts on the store exactly as its SQL text and the table
  definitions of `database.go` say: primary keys, `UNIQUE`, `REFERENCES`
  and `ON DELETE CASCADE` are modelled; there is no transaction anywhere in
  the code, so every statement commits on its own.
* Rows have the Go field types of `models.go` (`int64` is `Int`, a nullable
  pointer is `Option`), with one exception: a row of `routes` keeps the
  nullable `train_id` of `database.go` (`RouteRow`), because deleting a
  train sets it to `NULL`.  The other nullable columns that are read into a
  plain Go field are written from such a field by every insert and are never
  emptied: the rows they refer to are never deleted, or take the row with
  them.
* An amount in a `DECIMAL(10, 2)` column is counted in hundredths, as an
  `Int`.  An amount held by the Go code is a `float64`, modelled by
  `Float64`: the amount of a request can have any number of decimals, and
  the store rounds it when it is written.
* A statement can also fail for reasons outside the store contents (lost
  connection, timeout).  `Faults` says, for every statement whose failure
  changes the status a handler answers or what it writes, whether it fails
  that way in the run considered.
  Reads whose error the handlers discard (`x, _ := ...`) only shape the
  response text and are taken not to fail that way.
* A statement can fail on the store contents too: `Scan` cannot put the
  `NULL` of `routes.train_id`, left behind by a deleted train, into the
  `int64` of `models.Route`.  The checked reads of a route answer that
  error; the reads whose error is discarded go on with the struct the scan
  left behind.
* The clock readings a handler takes are collected in `Clock`; one request
  reads the clock at one instant.  Timestamps are exact integers.
-/

namespace Railway

/-! ## Rows (`internal/models/models.go`) -/

structure User where
  id : Int
  email : String
  passwordHash : String
  role : String
  deriving DecidableEq, Repr

structure Passenger where
  id : Int
  userID : Int
  firstName : String
  lastName : String
  passportData : String
  deriving DecidableEq, Repr

structure Train where
  id : Int
  number : String
  type : String
  deriving DecidableEq, Repr

structure Carriage where
  id : Int
  trainID : Int
  number : Int
  type : String
  deriving DecidableEq, Repr

structure Seat where
  id : Int
  carriageID : Int
  number : Int
  deriving DecidableEq, Repr

structure Station where
  id : Int
  name : String
  city : String
  deriving DecidableEq, Repr

/-- Row of `routes`.  `train_id` is nullable: `ON DELETE SET NULL` empties
it when the train is deleted. -/
structure RouteRow where
  id : Int
  name : String
  trainID : Option Int
  price : Int
  deriving DecidableEq, Repr

/-- A finite Go `float64` amount (`Price`, `TotalAmount`), kept as the decimal
number its shortest text denotes, `digits / 10 ^ scale`.  That text is what
`lib/pq` sends to the store for a `float64` argument and what
`encoding/json` writes, and reading it back gives the same `float64`.  Two
records with the same quotient denote the same `float64`; negative zero is
not told apart from zero. -/
structure Float64 where
  digits : Int
  scale : Nat
  deriving DecidableEq, Repr

namespace Float64

/-- The `float64` scanned from a `DECIMAL(10, 2)` column that holds `h`
hundredths: the store sends the text with two decimals and the nearest
`float64` prints as the same number. -/
def ofHundredths (h : Int) : Float64 := ⟨h, 2⟩

/-- What a `DECIMAL(10, 2)` column keeps of the number, in hundredths: the
store rounds a `numeric` to the two decimals of the column, a tie away from
zero. -/
def toHundredths (x : Float64) : Int :=
  let q := (2 * (x.digits.natAbs * 100) + 10 ^ x.scale) / (2 * 10 ^ x.scale)
  if x.digits < 0 then -(q : Int) else (q : Int)

/-- Two records denote the same number. -/
def same (x y : Float64) : Prop := x.digits * 10 ^ y.scale = y.digits * 10 ^ x.scale

instance (x y : Float64) : Decidable (same x y) :=
  inferInstanceAs (Decidable (x.digits * 10 ^ y.scale = y.digits * 10 ^ x.scale))

end Float64

/-- The Go struct `models.Route`, which `Scan` fills from a row of `routes`:
its `TrainID` is an `int64`. -/
structure Route where
  id : Int
  name : String
  trainID : Int
  price : Float64
  deriving DecidableEq, Repr

/-- Value of a `TIME` column: a time of day.  Fractions of a second are left
out: neither layout the handlers print (`RFC3339`, `15:04`) shows them. -/
structure TimeOfDay where
  hour : Nat
  minute : Nat
  second : Nat
  deriving DecidableEq, Repr

structure RouteStation where
  routeID : Int
  stationID : Int
  arrivalTime : Option TimeOfDay
  departureTime : Option TimeOfDay
  stopOrder : Int
  deriving DecidableEq, Repr

/-- Row of `orders`.  `createdAt` is the store's timestamp in microseconds. -/
structure Order where
  id : Int
  userID : Int
  routeID : Option Int
  createdAt : Int
  status : String
  totalAmount : Int
  deriving DecidableEq, Repr

/-- Row of `tickets`.  `departureDate` is a `DATE`, kept as a day count. -/
structure Ticket where
  id : Int
  orderID : Int
  seatID : Option Int
  passengerID : Option Int
  departureDate : Int
  price : Int
  ticketNumber : String
  status : String
  deriving DecidableEq, Repr

/-! ## The store (`internal/database/database.go`) -/

structure Store where
  users : List User
  passengers : List Passenger
  trains : List Train
  carriages : List Carriage
  seats : List Seat
  stations : List Station
  routes : List RouteRow
  routeStations : List RouteStation
  orders : List Order
  tickets : List Ticket
  /-- next value of the sequence behind `orders.id` -/
  orderSeq : Int
  /-- next value of the sequence behind `tickets.id` -/
  ticketSeq : Int
  deriving DecidableEq, Repr

inductive DbError where
  /-- the statement did not reach the store or its answer was lost -/
  | storage
  /-- the store refused the statement (key, uniqueness, reference, range) -/
  | constraint
  /-- `Scan` met a column value the Go variable cannot hold (`NULL` for an
  `int64`) -/
  | scan
  deriving DecidableEq, Repr

/-- Which statements fail for a reason outside the store contents. -/
structure Faults where
  seatGetByID : Bool
  routeGetByID : Bool
  orderCreate : Bool
  passengerGetByUserID : Bool
  ticketCreate : Bool
  orderGetByID : Bool
  orderDelete : Bool
  orderUpdate : Bool
  orderDeleteExpiredPending : Bool
  routeSearch : Bool
  orderGetByUserID : Bool
  orderGetAll : Bool
  userGetByEmail : Bool
  deriving DecidableEq, Repr

/-- The run in which no statement fails for an outside reason. -/
def noFaults : Faults :=
  ⟨false, false, false, false, false, false, false, false, false, false, false, false,
    false⟩

/-- Clock readings taken while a request is served. -/
structure Clock where
  /-- `time.Now().Unix()` -/
  unix : Int
  /-- `time.Now().Year()`, `.Month()`, `.Day()` -/
  year : Nat
  month : Nat
  day : Nat
  /-- the calendar date of `time.Now()` as a day count -/
  dayNumber : Int
  /-- `NOW()` / `CURRENT_TIMESTAMP` of the store, in microseconds -/
  dbNow : Int
  deriving DecidableEq, Repr

/-- A value fits `DECIMAL(10, 2)`: fewer than ten digits in hundredths. -/
def decimalFits (amount : Int) : Bool :=
  decide (-(10 : Int) ^ 10 < amount) && decide (amount < (10 : Int) ^ 10)

/-- A value fits `VARCHAR(50)`. -/
def varchar50 (v : String) : Bool := decide (v.length ≤ 50)

/-- A nullable reference holds: it is `NULL` or the id of a row. -/
def references (ids : List Int) (ref : Option Int) : Bool :=
  match ref with
  | none => true
  | some id => ids.contains id

/-! ## Repositories (`internal/repository`) -/

namespace seatRepository

/-- `SELECT ... FROM seats WHERE id = $1`; `nil, nil` when there is no row. -/
def GetByID (s : Store) (fail : Bool) (id : Int) : Except DbError (Option Seat) :=
  if fail then .error .storage else .ok (s.seats.find? (fun x => x.id == id))

/-- `SELECT ... FROM seats WHERE carriage_id = $1 ORDER BY number`. -/
def GetByCarriageID (s : Store) (carriageID : Int) : List Seat :=
  (s.seats.filter (fun x => x.carriageID == carriageID)).insertionSort
    (fun a b => a.number ≤ b.number)

/-- `SELECT COUNT(*) FROM tickets WHERE seat_id = $1 AND departure_date = $2
AND status = 'ACTIVE'`, answered as `count == 0`.  The date argument is the
`DATE` the store reads the string as. -/
def IsAvailable (s : Store) (fail : Bool) (seatID : Int) (date : Int) :
    Except DbError Bool :=
  if fail then .error .storage
  else
    let count := (s.tickets.filter (fun t =>
      t.seatID == some seatID && t.departureDate == date && t.status == "ACTIVE")).length
    .ok (count == 0)

end seatRepository

namespace routeRepository

/-- `Scan(&route.ID, &route.Name, &route.TrainID, &route.Price)` on a row of
`routes`: the columns are stored in order, and a `NULL` `train_id`, which an
`int64` cannot hold, ends the scan with an error. -/
def scan (row : RouteRow) : Except DbError Route :=
  match row.trainID with
  | some trainID => .ok ⟨row.id, row.name, trainID, Float64.ofHundredths row.price⟩
  | none => .error .scan

/-- The struct a scan leaves behind, with or without an error: the columns
before a `NULL` `train_id` are stored, `TrainID` and `Price` stay zero. -/
def scanned (row : RouteRow) : Route :=
  match row.trainID with
  | some trainID => ⟨row.id, row.name, trainID, Float64.ofHundredths row.price⟩
  | none => ⟨row.id, row.name, 0, ⟨0, 0⟩⟩

/-- `SELECT id, name, train_id, price FROM routes WHERE id = $1`, scanned;
`nil, nil` when there is no row, the error of the scan when it fails. -/
def GetByID (s : Store) (fail : Bool) (id : Int) : Except DbError (Option Route) :=
  if fail then .error .storage
  else
    match s.routes.find? (fun x => x.id == id) with
    | none => .ok none
    | some row =>
      match scan row with
      | .error e => .error e
      | .ok route => .ok (some route)

/-- The rows of the five-table join of `Search` before `DISTINCT`: one row
per route `r`, stop `rs1` at station `s1` and stop `rs2` at station `s2` that
satisfy the join and `WHERE` conditions. -/
def searchRows (s : Store) (fromCity toCity : String) : List RouteRow :=
  s.routes.flatMap fun r =>
  s.routeStations.flatMap fun rs1 =>
  s.stations.flatMap fun s1 =>
  s.routeStations.flatMap fun rs2 =>
  s.stations.flatMap fun s2 =>
    if r.id == rs1.routeID && rs1.stationID == s1.id && r.id == rs2.routeID
        && rs2.stationID == s2.id && s1.city == fromCity && s2.city == toCity
        && decide (rs1.stopOrder < rs2.stopOrder)
    then [r] else []

/-- The `rows.Next()` loop of `Search`: every row is scanned and appended; the
first scan that fails ends the loop and its error is returned with no route. -/
def scanRows : List RouteRow → Except DbError (List Route)
  | [] => .ok []
  | row :: rest =>
    match scan row with
    | .error e => .error e
    | .ok route =>
      match scanRows rest with
      | .error e => .error e
      | .ok routes => .ok (route :: routes)

/-- `SELECT DISTINCT r.id, r.name, r.train_id, r.price FROM routes r INNER JOIN
... WHERE s1.city = $1 AND s2.city = $2 AND rs1.stop_order < rs2.stop_order`,
each row scanned into a `models.Route`.  The `date` argument is not part of
the query. -/
def Search (s : Store) (fail : Bool) (fromCity toCity _date : String) :
    Except DbError (List Route) :=
  if fail then .error .storage else scanRows (searchRows s fromCity toCity).dedup

/-- `SELECT ... FROM route_stations WHERE route_id = $1 ORDER BY stop_order`. -/
def GetStations (s : Store) (routeID : Int) : List RouteStation :=
  (s.routeStations.filter (fun rs => rs.routeID == routeID)).insertionSort
    (fun a b => a.stopOrder ≤ b.stopOrder)

end routeRepository

namespace trainRepository

/-- `SELECT id, number, type FROM trains WHERE id = $1`. -/
def GetByID (s : Store) (id : Int) : Option Train :=
  s.trains.find? (fun x => x.id == id)

end trainRepository

namespace carriageRepository

/-- `SELECT ... FROM carriages WHERE id = $1`. -/
def GetByID (s : Store) (id : Int) : Option Carriage :=
  s.carriages.find? (fun x => x.id == id)

/-- `SELECT ... FROM carriages WHERE train_id = $1 ORDER BY number`. -/
def GetByTrainID (s : Store) (trainID : Int) : List Carriage :=
  (s.carriages.filter (fun x => x.trainID == trainID)).insertionSort
    (fun a b => a.number ≤ b.number)

end carriageRepository

namespace stationRepository

/-- `SELECT id, name, city FROM stations WHERE id = $1`. -/
def GetByID (s : Store) (id : Int) : Option Station :=
  s.stations.find? (fun x => x.id == id)

end stationRepository

namespace userRepository

/-- `SELECT ... FROM users WHERE email = $1` read with `QueryRow`: the first
row, `nil, nil` when there is none. -/
def GetByEmail (s : Store) (fail : Bool) (email : String) : Except DbError (Option User) :=
  if fail then .error .storage else .ok (s.users.find? (fun u => u.email == email))

end userRepository

namespace passengerRepository

/-- `SELECT ... FROM passengers WHERE user_id = $1` read with `QueryRow`: the
first row, `nil, nil` when there is none. -/
def GetByUserID (s : Store) (fail : Bool) (userID : Int) :
    Except DbError (Option Passenger) :=
  if fail then .error .storage else .ok (s.passengers.find? (fun p => p.userID == userID))

end passengerRepository

namespace orderRepository

/-- The checks of the store on a new row of `orders`: the id is not taken,
the user exists, the route exists when there is one, and the values fit
their columns. -/
def accepts (s : Store) (order : Order) : Bool :=
  s.orders.all (fun o => o.id != order.id)
    && s.users.any (fun u => u.id == order.userID)
    && references (s.routes.map (fun r => r.id)) order.routeID
    && varchar50 order.status && decimalFits order.totalAmount

/-- `INSERT INTO orders (user_id, route_id, status, total_amount) VALUES (...)
RETURNING id, created_at`.  The id comes from the sequence, which moves on
even when the row is refused; `created_at` is the store's clock; the amount
is rounded to the two decimals of the column before the range check.  The
result is the row written: the Go struct keeps the amount it was given. -/
def Create (s : Store) (fail : Bool) (dbNow : Int) (userID : Int)
    (routeID : Option Int) (status : String) (totalAmount : Float64) :
    Except DbError Order × Store :=
  if fail then (.error .storage, s)
  else if accepts s ⟨s.orderSeq, userID, routeID, dbNow, status, totalAmount.toHundredths⟩ then
    (.ok ⟨s.orderSeq, userID, routeID, dbNow, status, totalAmount.toHundredths⟩,
      { s with
        orderSeq := s.orderSeq + 1
        orders := s.orders ++
          [⟨s.orderSeq, userID, routeID, dbNow, status, totalAmount.toHundredths⟩] })
  else (.error .constraint, { s with orderSeq := s.orderSeq + 1 })

/-- `SELECT ... FROM orders WHERE id = $1`; `nil, nil` when there is no row. -/
def GetByID (s : Store) (fail : Bool) (id : Int) : Except DbError (Option Order) :=
  if fail then .error .storage else .ok (s.orders.find? (fun o => o.id == id))

/-- `SELECT ... FROM orders WHERE user_id = $1 ORDER BY created_at DESC`. -/
def GetByUserID (s : Store) (fail : Bool) (userID : Int) : Except DbError (List Order) :=
  if fail then .error .storage
  else .ok ((s.orders.filter (fun o => o.userID == userID)).insertionSort
    (fun a b => b.createdAt ≤ a.createdAt))

/-- `SELECT ... FROM orders ORDER BY created_at DESC`. -/
def GetAll (s : Store) (fail : Bool) : Except DbError (List Order) :=
  if fail then .error .storage
  else .ok (s.orders.insertionSort (fun a b => b.createdAt ≤ a.createdAt))

/-- `UPDATE orders SET status = $1, total_amount = $2 WHERE id = $3`. -/
def Update (s : Store) (fail : Bool) (order : Order) : Except DbError Unit × Store :=
  if fail then (.error .storage, s)
  else if varchar50 order.status && decimalFits order.totalAmount then
    (.ok (), { s with orders := s.orders.map (fun o =>
      if o.id == order.id then
        { o with status := order.status, totalAmount := order.totalAmount }
      else o) })
  else (.error .constraint, s)

/-- `DELETE FROM orders WHERE id = $1`; the tickets of the order go with it
(`order_id ... REFERENCES orders(id) ON DELETE CASCADE`). -/
def Delete (s : Store) (fail : Bool) (id : Int) : Except DbError Unit × Store :=
  if fail then (.error .storage, s)
  else (.ok (), { s with
    orders := s.orders.filter (fun o => o.id != id)
    tickets := s.tickets.filter (fun t => t.orderID != id) })

/-- The `WHERE` clause of `DeleteExpiredPending`:
`status = 'PENDING' AND created_at < NOW() - INTERVAL '1 minute' * $1`. -/
def expiredPending (dbNow : Int) (maxAgeMinutes : Int) (o : Order) : Bool :=
  o.status == "PENDING" && decide (o.createdAt < dbNow - 60000000 * maxAgeMinutes)

/-- `DELETE FROM orders WHERE status = 'PENDING' AND created_at < NOW() -
INTERVAL '1 minute' * $1`, with the cascade to `tickets`. -/
def DeleteExpiredPending (s : Store) (fail : Bool) (dbNow : Int) (maxAgeMinutes : Int) :
    Except DbError Unit × Store :=
  if fail then (.error .storage, s)
  else (.ok (), { s with
    orders := s.orders.filter (fun o => !expiredPending dbNow maxAgeMinutes o)
    tickets := s.tickets.filter (fun t =>
      !(s.orders.any (fun o => o.id == t.orderID && expiredPending dbNow maxAgeMinutes o))) })

end orderRepository

namespace ticketRepository

/-- The checks of the store on a new row of `tickets`: the id and the ticket
number are not taken, the order exists, the seat and the passenger exist when
there is one, and the values fit their columns. -/
def accepts (s : Store) (ticket : Ticket) : Bool :=
  s.tickets.all (fun t => t.id != ticket.id)
    && s.tickets.all (fun t => t.ticketNumber != ticket.ticketNumber)
    && s.orders.any (fun o => o.id == ticket.orderID)
    && references (s.seats.map (fun x => x.id)) ticket.seatID
    && references (s.passengers.map (fun x => x.id)) ticket.passengerID
    && varchar50 ticket.ticketNumber && varchar50 ticket.status && decimalFits ticket.price

/-- `INSERT INTO tickets (order_id, seat_id, passenger_id, departure_date,
price, ticket_number, status) VALUES (...) RETURNING id`.  The id comes from
the sequence, which moves on even when the row is refused; the price is
rounded to the two decimals of the column before the range check.  The
result is the row written: the Go struct keeps the price it was given. -/
def Create (s : Store) (fail : Bool) (orderID : Int) (seatID passengerID : Option Int)
    (departureDate : Int) (price : Float64) (ticketNumber status : String) :
    Except DbError Ticket × Store :=
  if fail then (.error .storage, s)
  else if accepts s
      ⟨s.ticketSeq, orderID, seatID, passengerID, departureDate, price.toHundredths,
        ticketNumber, status⟩ then
    (.ok ⟨s.ticketSeq, orderID, seatID, passengerID, departureDate, price.toHundredths,
        ticketNumber, status⟩,
      { s with
        ticketSeq := s.ticketSeq + 1
        tickets := s.tickets ++
          [⟨s.ticketSeq, orderID, seatID, passengerID, departureDate, price.toHundredths,
            ticketNumber, status⟩] })
  else (.error .constraint, { s with ticketSeq := s.ticketSeq + 1 })

/-- `SELECT ... FROM tickets WHERE order_id = $1 ORDER BY id`. -/
def GetByOrderID (s : Store) (orderID : Int) : List Ticket :=
  (s.tickets.filter (fun t => t.orderID == orderID)).insertionSort
    (fun a b => a.id ≤ b.id)

end ticketRepository

/-! ## Tokens (`pkg/auth/auth.go`)

The tokens are made and read by the package `golang-jwt/jwt/v5`.  Of a token
the model keeps what `GenerateToken` puts in and what `ValidateToken` gets
out: the signing method, the four claims as the JSON numbers and string
written, and the key under which the signature was computed.  A signature is
taken to verify under that key and under no other.  `jwt.Parse` reads the
claims into `MapClaims`, where every JSON number is a `float64`. -/

/-- The number of binary digits of `n`, counted up to `fuel` digits. -/
def bitLength : Nat → Nat → Nat
  | 0, _ => 0
  | fuel + 1, n => if n = 0 then 0 else bitLength fuel (n / 2) + 1

/-- The `float64` nearest to an integer, ties to the even significand, for
integers of at most 64 binary digits (every `int64`): exact below 2^53 in
absolute value, else rounded to 53 significant bits. -/
def float64OfInt (n : Int) : Int :=
  let a := n.natAbs
  if a < 2 ^ 53 then n
  else
    let drop := bitLength 64 a - 53
    let q := a / 2 ^ drop
    let r := a % 2 ^ drop
    let half := 2 ^ (drop - 1)
    let q1 := if half < r ∨ (r = half ∧ q % 2 = 1) then q + 1 else q
    if n < 0 then -((q1 * 2 ^ drop : Nat) : Int) else ((q1 * 2 ^ drop : Nat) : Int)

/-- Go `int64(x)` of an integral `float64`: the value when an `int64` holds it;
otherwise the language leaves the result to the implementation, and the
lowest `int64` is what amd64 yields. -/
def int64OfFloat (x : Int) : Int :=
  if -(2 : Int) ^ 63 ≤ x ∧ x < (2 : Int) ^ 63 then x else -(2 : Int) ^ 63

structure Token where
  /-- the `alg` of the header -/
  alg : String
  /-- claim `user_id` -/
  userID : Int
  /-- claim `role` -/
  role : String
  /-- claim `exp`, seconds -/
  exp : Int
  /-- claim `iat`, seconds -/
  iat : Int
  /-- the key the signature was computed under -/
  key : String
  deriving DecidableEq, Repr

structure Claims where
  userID : Int
  role : String
  deriving DecidableEq, Repr

namespace AuthService

/-- `GenerateToken`: claims `user_id`, `role`, `exp` seven days after now and
`iat`, signed with `HS256` under the secret. -/
def GenerateToken (secret : String) (unix : Int) (userID : Int) (role : String) : Token :=
  { alg := "HS256", userID := userID, role := role, exp := unix + 60 * 60 * 24 * 7
    iat := unix, key := secret }

/-- `ValidateToken`: the key function refuses a method that is not HMAC;
`jwt.Parse` refuses a signature that does not verify under the secret and a
token whose `exp` is not after now; the claims answered are `user_id`, read
as a `float64` and converted with `int64(...)`, and `role`. -/
def ValidateToken (secret : String) (unix : Int) (token : Token) : Except String Claims :=
  if !(token.alg == "HS256" || token.alg == "HS384" || token.alg == "HS512") then
    .error "unexpected signing method"
  else if token.key != secret then .error "signature is invalid"
  else if !decide (unix < float64OfInt token.exp) then .error "token is expired"
  else .ok ⟨int64OfFloat (float64OfInt token.userID), token.role⟩

end AuthService

/-- What the handlers take from imported packages: the `email` rule of the
request validator and `bcrypt.CompareHashAndPassword` (hash, password). -/
structure Library where
  emailValid : String → Bool
  passwordMatches : String → String → Bool

/-! ## Requests and responses (`internal/handlers/dto.go`) -/

structure LoginRequest where
  email : String
  password : String
  deriving DecidableEq, Repr

structure RouteSearchResponse where
  routeID : Int
  trainNumber : String
  departureTime : String
  arrivalTime : String
  price : Float64
  availableSeats : Nat
  deriving DecidableEq, Repr

structure CreateOrderRequest where
  routeID : Int
  seatID : Int
  price : Float64
  passengerID : Option Int
  deriving DecidableEq, Repr

structure TicketResponse where
  id : Int
  ticketNumber : String
  seatNumber : Option Int
  carriageNumber : Option Int
  price : Float64
  deriving DecidableEq, Repr

/-- The order view.  `createdAt` stands for the RFC 3339 text of the creation
instant, which is exact to the second. -/
structure OrderResponse where
  id : Int
  userID : Int
  routeID : Option Int
  routeName : String
  trainNumber : String
  trainType : String
  departureCity : String
  arrivalCity : String
  departureTime : String
  arrivalTime : String
  createdAt : Int
  status : String
  totalAmount : Float64
  tickets : List TicketResponse
  deriving DecidableEq, Repr

structure PaymentRequest where
  cardNumber : String
  expiryDate : String
  cvv : String
  deriving DecidableEq, Repr

structure PaymentResponse where
  status : String
  transactionID : String
  deriving DecidableEq, Repr

/-- What a handler writes as the response body. -/
inductive Body where
  /-- no body (`c.Status`) -/
  | empty
  /-- `gin.H` with the single key `error` -/
  | error (message : String)
  /-- `gin.H` with the text of the binding error under `error` -/
  | bindError
  /-- the route summaries: a JSON array, or `null` for a `nil` slice (`none`) -/
  | routes (items : Option (List RouteSearchResponse))
  | order (view : OrderResponse)
  | payment (receipt : PaymentResponse)
  /-- the order views: a JSON array, or `null` for a `nil` slice (`none`) -/
  | orders (items : Option (List OrderResponse))
  /-- `gin.H` with the single key `token` -/
  | token (value : Token)
  deriving DecidableEq, Repr

structure Response where
  status : Nat
  body : Body
  deriving DecidableEq, Repr

/-! ## Helpers of the handlers -/

/-- Decimal text of `n`, padded with zeros to `width` digits. -/
def pad (width n : Nat) : String :=
  let digits := toString n
  String.mk (List.replicate (width - digits.length) '0') ++ digits

/-- `time.Date(year, month, day, h, m, s, _, time.UTC).Format(time.RFC3339)`. -/
def formatRFC3339 (year month day : Nat) (t : TimeOfDay) : String :=
  pad 4 year ++ "-" ++ pad 2 month ++ "-" ++ pad 2 day ++ "T"
    ++ pad 2 t.hour ++ ":" ++ pad 2 t.minute ++ ":" ++ pad 2 t.second ++ "Z"

/-- `t.Format("15:04")`. -/
def formatHHMM (t : TimeOfDay) : String :=
  pad 2 t.hour ++ ":" ++ pad 2 t.minute

/-- Value of a run of decimal digits; `none` if empty or not all digits. -/
def parseDigits (cs : List Char) : Option Nat :=
  if cs.isEmpty then none
  else cs.foldlM (fun acc c =>
    if c.isDigit then some (acc * 10 + (c.toNat - 48)) else none) 0

/-- `strconv.ParseInt(text, 10, 64)`: an optional sign, decimal digits, and
a value in the range of `int64`; `none` stands for a parse error. -/
def ParseInt (text : String) : Option Int :=
  let parsed : Option Int :=
    match text.toList with
    | '-' :: rest => (parseDigits rest).map (fun n => -(n : Int))
    | '+' :: rest => (parseDigits rest).map (fun n => (n : Int))
    | cs => (parseDigits cs).map (fun n => (n : Int))
  match parsed with
  | some v => if -(2 : Int) ^ 63 ≤ v ∧ v < (2 : Int) ^ 63 then some v else none
  | none => none

/-- `c.ShouldBindJSON(&req)` for `CreateOrderRequest`: `none` is a body that
does not decode; `binding:"required"` refuses a zero route, seat or price. -/
def bindCreateOrder (body : Option CreateOrderRequest) : Option CreateOrderRequest :=
  match body with
  | none => none
  | some req =>
    if req.routeID != 0 && req.seatID != 0 && req.price.digits != 0 then some req else none

/-- `c.ShouldBindJSON(&req)` for `PaymentRequest`: every field is required,
so an empty string is refused. -/
def bindPayment (body : Option PaymentRequest) : Option PaymentRequest :=
  match body with
  | none => none
  | some req =>
    if req.cardNumber != "" && req.expiryDate != "" && req.cvv != "" then some req
    else none

/-- The route block the order handlers repeat for a route they hold: route
name, train number and type, city and `15:04` departure time of the first
stop, city and arrival time of the last stop when there is more than one. -/
def routeBlock (s : Store) (route : Route) :
    String × String × String × String × String × String × String :=
  let train := trainRepository.GetByID s route.trainID
  let trainNumber := match train with | some t => t.number | none => ""
  let trainType := match train with | some t => t.type | none => ""
  let routeStations := routeRepository.GetStations s route.id
  match routeStations.head? with
  | none => (route.name, trainNumber, trainType, "", "", "", "")
  | some first =>
    let departureCity :=
      match stationRepository.GetByID s first.stationID with
      | some st => st.city
      | none => ""
    let departureTime :=
      match first.departureTime with
      | some t => formatHHMM t
      | none => ""
    if 1 < routeStations.length then
      match routeStations.getLast? with
      | none => (route.name, trainNumber, trainType, departureCity, "", departureTime, "")
      | some last =>
        let arrivalCity :=
          match stationRepository.GetByID s last.stationID with
          | some st => st.city
          | none => ""
        let arrivalTime :=
          match last.arrivalTime with
          | some t => formatHHMM t
          | none => ""
        (route.name, trainNumber, trainType, departureCity, arrivalCity,
          departureTime, arrivalTime)
    else (route.name, trainNumber, trainType, departureCity, "", departureTime, "")

/-- The route block of a stored order: empty when the order has no route or
the route is gone.  The error of `Route.GetByID` is discarded here, so the
block is built from the struct the scan left behind. -/
def routeInfo (s : Store) (routeID : Option Int) :
    String × String × String × String × String × String × String :=
  match routeID with
  | none => ("", "", "", "", "", "", "")
  | some rid =>
    match s.routes.find? (fun x => x.id == rid) with
    | none => ("", "", "", "", "", "", "")
    | some row => routeBlock s (routeRepository.scanned row)

/-- The ticket entry the order handlers build for a stored ticket. -/
def ticketView (s : Store) (t : Ticket) : TicketResponse :=
  let seat : Option Seat :=
    match t.seatID with
    | some sid => s.seats.find? (fun x => x.id == sid)
    | none => none
  let seatNumber : Option Int := seat.map (fun x => x.number)
  let carriageNumber : Option Int :=
    match seat with
    | some x => (carriageRepository.GetByID s x.carriageID).map (fun c => c.number)
    | none => none
  ⟨t.id, t.ticketNumber, seatNumber, carriageNumber, Float64.ofHundredths t.price⟩

/-- The `OrderResponse` literal of the order handlers, from an order, the
`TotalAmount` the Go struct of the order holds, its route block and its
ticket entries. -/
def orderResponse (o : Order) (totalAmount : Float64)
    (info : String × String × String × String × String × String × String)
    (tickets : List TicketResponse) : OrderResponse :=
  { id := o.id, userID := o.userID, routeID := o.routeID
    routeName := info.1, trainNumber := info.2.1, trainType := info.2.2.1
    departureCity := info.2.2.2.1, arrivalCity := info.2.2.2.2.1
    departureTime := info.2.2.2.2.2.1, arrivalTime := info.2.2.2.2.2.2
    createdAt := o.createdAt / 1000000, status := o.status
    totalAmount := totalAmount, tickets := tickets }

/-- Go `append` on a slice that may be `nil` (`none`). -/
def goAppend {α : Type} (slice : Option (List α)) (x : α) : Option (List α) :=
  match slice with
  | none => some [x]
  | some xs => some (xs ++ [x])

/-- `c.ShouldBindJSON(&req)` for `LoginRequest`: both fields are required and
the email must pass the `email` rule. -/
def bindLogin (lib : Library) (body : Option LoginRequest) : Option LoginRequest :=
  match body with
  | none => none
  | some req =>
    if req.email != "" && lib.emailValid req.email && req.password != "" then some req
    else none

/-- The view the listing handlers and `GetOrder` build for a stored order:
its ticket entries in id order and its route block. -/
def orderEntry (s : Store) (order : Order) : OrderResponse :=
  orderResponse order (Float64.ofHundredths order.totalAmount) (routeInfo s order.routeID)
    ((ticketRepository.GetByOrderID s order.id).map (ticketView s))

/-- The `responses` slice of the listing handlers after their loop: `nil`
(`none`) until the first `append`. -/
def orderResponses (s : Store) (orders : List Order) : Option (List OrderResponse) :=
  orders.foldl (fun acc order => goAppend acc (orderEntry s order)) none

/-! ## Handlers (`internal/handlers/handlers.go`) -/

namespace Handlers

/-- `fmt.Sprintf("TK-%d-%d", order.ID, time.Now().Unix())`. -/
def ticketNumber (orderID unix : Int) : String :=
  "TK-" ++ toString orderID ++ "-" ++ toString unix

/-- The "determine passenger ID" block of `CreateOrder`: the id of the
request if there is one, else the id of the profile found for the user.  When
the lookup fails the code still holds the zero-valued struct it passed to
`Scan`, so the id is 0. -/
def resolvePassenger (s : Store) (fail : Bool) (userID : Int) (requested : Option Int) :
    Option Int :=
  match requested with
  | some pid => some pid
  | none =>
    match passengerRepository.GetByUserID s fail userID with
    | .ok (some passenger) => some passenger.id
    | .ok none => none
    | .error _ => some 0

/-- Body of the loop of `SearchRoutes`: the summary of one route found.  The
timestamps combine the calendar date of `time.Now()` with the departure time
of the first stop and, when there is more than one stop, the arrival time of
the last stop; the seat count runs over all carriages of the train. -/
def routeSummary (s : Store) (clk : Clock) (route : Route) : RouteSearchResponse :=
  let train := trainRepository.GetByID s route.trainID
  let routeStations := routeRepository.GetStations s route.id
  let departureTime :=
    match routeStations.head? with
    | none => ""
    | some first =>
      match first.departureTime with
      | some depTime => formatRFC3339 clk.year clk.month clk.day depTime
      | none => ""
  let arrivalTime :=
    if 1 < routeStations.length then
      match routeStations.getLast? with
      | none => ""
      | some last =>
        match last.arrivalTime with
        | some arrTime => formatRFC3339 clk.year clk.month clk.day arrTime
        | none => ""
    else ""
  let availableSeats := (carriageRepository.GetByTrainID s route.trainID).foldl
    (fun acc carriage => acc + (seatRepository.GetByCarriageID s carriage.id).length) 0
  let trainNumber := match train with | some t => t.number | none => ""
  ⟨route.id, trainNumber, departureTime, arrivalTime, route.price, availableSeats⟩

/-- The `responses` slice of `SearchRoutes` after its loop: `nil` (`none`)
until the first `append`. -/
def searchResponses (s : Store) (clk : Clock) (routes : List Route) :
    Option (List RouteSearchResponse) :=
  routes.foldl (fun acc route => goAppend acc (routeSummary s clk route)) none

/-- `GET /routes/search`.  The text of the 500 answer is followed in the code
by the text of the error. -/
def SearchRoutes (s : Store) (f : Faults) (clk : Clock) (fromCity toCity date : String) :
    Response :=
  if fromCity == "" || toCity == "" || date == "" then
    ⟨400, .error "from_city, to_city, and date are required"⟩
  else
    match routeRepository.Search s f.routeSearch fromCity toCity date with
    | .error _ => ⟨500, .error "Failed to search routes"⟩
    | .ok routes =>
      match searchResponses s clk routes with
      | none => ⟨200, .routes (some [])⟩
      | some responses => ⟨200, .routes (some responses)⟩

/-- `POST /orders` for the authenticated user `userID`. -/
def CreateOrder (s : Store) (f : Faults) (clk : Clock) (userID : Int)
    (body : Option CreateOrderRequest) : Response × Store :=
  match bindCreateOrder body with
  | none => (⟨400, .bindError⟩, s)
  | some req =>
    match seatRepository.GetByID s f.seatGetByID req.seatID with
    | .error _ => (⟨400, .error "Seat not found"⟩, s)
    | .ok none => (⟨400, .error "Seat not found"⟩, s)
    | .ok (some seat) =>
      match routeRepository.GetByID s f.routeGetByID req.routeID with
      | .error _ => (⟨400, .error "Route not found"⟩, s)
      | .ok none => (⟨400, .error "Route not found"⟩, s)
      | .ok (some route) =>
        match orderRepository.Create s f.orderCreate clk.dbNow userID (some route.id)
            "PENDING" req.price with
        | (.error _, s1) => (⟨500, .error "Failed to create order"⟩, s1)
        | (.ok order, s1) =>
          let passengerID :=
            resolvePassenger s1 f.passengerGetByUserID userID req.passengerID
          match ticketRepository.Create s1 f.ticketCreate order.id (some req.seatID)
              passengerID (clk.dayNumber + 1) req.price (ticketNumber order.id clk.unix)
              "ACTIVE" with
          | (.error _, s2) => (⟨500, .error "Failed to create ticket"⟩, s2)
          | (.ok ticket, s2) =>
            let carriage := carriageRepository.GetByID s2 seat.carriageID
            (⟨201, .order (orderResponse order req.price (routeBlock s2 route)
              [⟨ticket.id, ticket.ticketNumber, some seat.number,
                carriage.map (fun c => c.number), req.price⟩])⟩, s2)

/-- `DELETE /orders/:id` for the authenticated user `userID`. -/
def DeleteOrder (s : Store) (f : Faults) (userID : Int) (idParam : String) :
    Response × Store :=
  match ParseInt idParam with
  | none => (⟨400, .error "Invalid order ID"⟩, s)
  | some orderID =>
    match orderRepository.GetByID s f.orderGetByID orderID with
    | .error _ => (⟨404, .error "Order not found"⟩, s)
    | .ok none => (⟨404, .error "Order not found"⟩, s)
    | .ok (some order) =>
      if order.userID != userID then (⟨403, .error "Access denied"⟩, s)
      else if order.status != "PENDING" then
        (⟨400, .error "Only unpaid orders can be deleted"⟩, s)
      else
        match orderRepository.Delete s f.orderDelete orderID with
        | (.error _, s1) => (⟨500, .error "Failed to delete order"⟩, s1)
        | (.ok _, s1) => (⟨204, .empty⟩, s1)

/-- `GET /orders/:id` for the authenticated user `userID`. -/
def GetOrder (s : Store) (f : Faults) (userID : Int) (idParam : String) :
    Response × Store :=
  match ParseInt idParam with
  | none => (⟨400, .error "Invalid order ID"⟩, s)
  | some orderID =>
    match orderRepository.GetByID s f.orderGetByID orderID with
    | .error _ => (⟨404, .error "Order not found"⟩, s)
    | .ok none => (⟨404, .error "Order not found"⟩, s)
    | .ok (some order) =>
      if order.userID != userID then (⟨403, .error "Access denied"⟩, s)
      else
        let tickets := ticketRepository.GetByOrderID s order.id
        (⟨200, .order (orderResponse order (Float64.ofHundredths order.totalAmount)
          (routeInfo s order.routeID) (tickets.map (ticketView s)))⟩, s)

/-- `POST /orders/:id/pay` for the authenticated user `userID`. -/
def PayOrder (s : Store) (f : Faults) (clk : Clock) (userID : Int) (idParam : String)
    (body : Option PaymentRequest) : Response × Store :=
  match ParseInt idParam with
  | none => (⟨400, .error "Invalid order ID"⟩, s)
  | some orderID =>
    match bindPayment body with
    | none => (⟨400, .bindError⟩, s)
    | some _ =>
      match orderRepository.GetByID s f.orderGetByID orderID with
      | .error _ => (⟨404, .error "Order not found"⟩, s)
      | .ok none => (⟨404, .error "Order not found"⟩, s)
      | .ok (some order) =>
        if order.userID != userID then (⟨403, .error "Access denied"⟩, s)
        else
          match orderRepository.Update s f.orderUpdate { order with status := "PAID" } with
          | (.error _, s1) => (⟨500, .error "Failed to update order"⟩, s1)
          | (.ok _, s1) =>
            (⟨200, .payment ⟨"PAID",
              "TXN-" ++ toString orderID ++ "-" ++ toString clk.unix⟩⟩, s1)

/-- `GET /orders` for the authenticated user `userID`. -/
def GetOrders (s : Store) (f : Faults) (userID : Int) : Response × Store :=
  match orderRepository.GetByUserID s f.orderGetByUserID userID with
  | .error _ => (⟨500, .error "Failed to get orders"⟩, s)
  | .ok orders => (⟨200, .orders (orderResponses s orders)⟩, s)

/-- `GET /admin/orders`. -/
def GetAllOrders (s : Store) (f : Faults) : Response × Store :=
  match orderRepository.GetAll s f.orderGetAll with
  | .error _ => (⟨500, .error "Failed to get orders"⟩, s)
  | .ok orders => (⟨200, .orders (orderResponses s orders)⟩, s)

/-- `POST /auth/login`.  Signing with `HS256` under a byte key does not fail,
so the 500 of the code is not reached. -/
def Login (s : Store) (f : Faults) (clk : Clock) (lib : Library) (secret : String)
    (body : Option LoginRequest) : Response × Store :=
  match bindLogin lib body with
  | none => (⟨400, .bindError⟩, s)
  | some req =>
    match userRepository.GetByEmail s f.userGetByEmail req.email with
    | .error _ => (⟨401, .error "Invalid email or password"⟩, s)
    | .ok none => (⟨401, .error "Invalid email or password"⟩, s)
    | .ok (some user) =>
      if !lib.passwordMatches user.passwordHash req.password then
        (⟨401, .error "Invalid email or password"⟩, s)
      else
        (⟨200, .token (AuthService.GenerateToken secret clk.unix user.id user.role)⟩, s)

end Handlers

/-! ## Sequences of calls and the properties studied -/

/-- One call on the store, with the run it happens in. -/
inductive Call where
  | createOrder (f : Faults) (clk : Clock) (userID : Int) (body : Option CreateOrderRequest)
  | deleteOrder (f : Faults) (userID : Int) (idParam : String)
  | payOrder (f : Faults) (clk : Clock) (userID : Int) (idParam : String)
      (body : Option PaymentRequest)
  | deleteExpiredPending (f : Faults) (clk : Clock) (maxAgeMinutes : Int)

/-- The store after one call. -/
def step (s : Store) : Call → Store
  | .createOrder f clk userID body => (Handlers.CreateOrder s f clk userID body).2
  | .deleteOrder f userID idParam => (Handlers.DeleteOrder s f userID idParam).2
  | .payOrder f clk userID idParam body => (Handlers.PayOrder s f clk userID idParam body).2
  | .deleteExpiredPending f clk maxAgeMinutes =>
    (orderRepository.DeleteExpiredPending s f.orderDeleteExpiredPending clk.dbNow
      maxAgeMinutes).2

/-- The store after a finite sequence of calls. -/
def run (s : Store) (calls : List Call) : Store := calls.foldl step s

/-- The `ACTIVE` tickets that reference a seat on a departure date. -/
def activeTickets (s : Store) (seatID : Int) (date : Int) : List Ticket :=
  s.tickets.filter (fun t =>
    t.seatID == some seatID && t.departureDate == date && t.status == "ACTIVE")

/-- Seat-slot invariant: no seat and departure date is referenced by more than
one `ACTIVE` ticket. -/
def SeatSlotInvariant (s : Store) : Prop :=
  ∀ seatID date, (activeTickets s seatID date).length ≤ 1

/-- Every ticket references a stored order. -/
def TicketsHaveOrders (s : Store) : Prop :=
  ∀ t ∈ s.tickets, ∃ o ∈ s.orders, o.id = t.orderID

/-- Primary key of `orders`: no two rows share an id. -/
def OrdersKeyed (s : Store) : Prop :=
  ∀ a ∈ s.orders, ∀ b ∈ s.orders, a.id = b.id → a = b

/-- A route connects two cities: it has a stop in the first and a later stop
in the second. -/
def Connects (s : Store) (r : RouteRow) (fromCity toCity : String) : Prop :=
  ∃ rs1 ∈ s.routeStations, ∃ s1 ∈ s.stations, ∃ rs2 ∈ s.routeStations, ∃ s2 ∈ s.stations,
    rs1.routeID = r.id ∧ rs1.stationID = s1.id ∧ s1.city = fromCity ∧
    rs2.routeID = r.id ∧ rs2.stationID = s2.id ∧ s2.city = toCity ∧
    rs1.stopOrder < rs2.stopOrder

/-- The stops of a route: its rows of `route_stations`. -/
def stopsOf (s : Store) (routeID : Int) : List RouteStation :=
  s.routeStations.filter (fun rs => rs.routeID == routeID)

/-- The timestamp text of a stop time on the calendar date of the clock: empty
when the stop has no such time. -/
def stamp (clk : Clock) (t : Option TimeOfDay) : String :=
  match t with
  | some time => formatRFC3339 clk.year clk.month clk.day time
  | none => ""

/-- What `CreateOrder` needs to go through: a request that binds, no outside
failure of its checked statements, an existing seat, an existing route that
scans (it has a train), and two inserts the store accepts.  Nothing here
looks at the tickets already held for the seat. -/
def Admissible (s : Store) (f : Faults) (clk : Clock) (userID : Int)
    (req : CreateOrderRequest) : Prop :=
  req.routeID ≠ 0 ∧ req.seatID ≠ 0 ∧ req.price.digits ≠ 0 ∧
  f.seatGetByID = false ∧ f.routeGetByID = false ∧ f.orderCreate = false ∧
  f.ticketCreate = false ∧
  (∃ x ∈ s.seats, x.id = req.seatID) ∧ (∃ r ∈ s.routes, r.id = req.routeID) ∧
  (∀ r ∈ s.routes, r.id = req.routeID → r.trainID ≠ none) ∧
  (∀ o ∈ s.orders, o.id ≠ s.orderSeq) ∧ (∃ u ∈ s.users, u.id = userID) ∧
  decimalFits req.price.toHundredths = true ∧
  (∀ t ∈ s.tickets, t.id ≠ s.ticketSeq) ∧
  (∀ t ∈ s.tickets, t.ticketNumber ≠ Handlers.ticketNumber s.orderSeq clk.unix) ∧
  references (s.passengers.map (fun p => p.id))
    (Handlers.resolvePassenger s f.passengerGetByUserID userID req.passengerID) = true ∧
  varchar50 (Handlers.ticketNumber s.orderSeq clk.unix) = true

/-- The row `CreateOrder` writes to `orders`. -/
def createdOrder (s : Store) (clk : Clock) (userID : Int) (req : CreateOrderRequest) : Order :=
  ⟨s.orderSeq, userID, some req.routeID, clk.dbNow, "PENDING", req.price.toHundredths⟩

/-- The row `CreateOrder` writes to `tickets`. -/
def createdTicket (s : Store) (f : Faults) (clk : Clock) (userID : Int)
    (req : CreateOrderRequest) : Ticket :=
  ⟨s.ticketSeq, s.orderSeq, some req.seatID,
    Handlers.resolvePassenger s f.passengerGetByUserID userID req.passengerID,
    clk.dayNumber + 1, req.price.toHundredths, Handlers.ticketNumber s.orderSeq clk.unix,
    "ACTIVE"⟩

/-- The store once `CreateOrder` has written both rows: the two rows are
appended and the two sequences have moved on by one. -/
def storeAfterCreate (s : Store) (f : Faults) (clk : Clock) (userID : Int)
    (req : CreateOrderRequest) : Store :=
  { s with
    orderSeq := s.orderSeq + 1
    ticketSeq := s.ticketSeq + 1
    orders := s.orders ++ [createdOrder s clk userID req]
    tickets := s.tickets ++ [createdTicket s f clk userID req] }

/-- The store once `PayOrder` has updated the order with the given id: its
status is `PAID`. -/
def storeAfterPay (s : Store) (o : Order) : Store :=
  { s with orders := s.orders.map (fun x =>
      if x.id == o.id then { x with status := "PAID", totalAmount := o.totalAmount } else x) }

/-- The value a list of decimal digits denotes, read after the value `init`. -/
def digitsValue (cs : List Char) (init : Nat) : Nat :=
  cs.foldl (fun acc c => 10 * acc + (c.toNat - 48)) init

/-! ## Sample data -/

/-- A catalog with the train 703Б from Минск (departure 08:00) to Брест
(arrival 12:30), two seats, two users, and no order yet. -/
def sampleStore : Store :=
  { users := [⟨1, "anna@example.org", "x", "PASSENGER"⟩,
              ⟨2, "boris@example.org", "y", "PASSENGER"⟩]
    passengers := [⟨1, 1, "Anna", "A", ""⟩, ⟨2, 2, "Boris", "B", ""⟩]
    trains := [⟨1, "703Б", "express"⟩]
    carriages := [⟨1, 1, 1, "coupe"⟩]
    seats := [⟨1, 1, 1⟩, ⟨2, 1, 2⟩]
    stations := [⟨1, "Минск-Пассажирский", "Минск"⟩, ⟨2, "Брест-Центральный", "Брест"⟩]
    routes := [⟨1, "Минск - Брест", some 1, 2000⟩]
    routeStations := [⟨1, 1, none, some ⟨8, 0, 0⟩, 1⟩, ⟨1, 2, some ⟨12, 30, 0⟩, none, 2⟩]
    orders := []
    tickets := []
    orderSeq := 1
    ticketSeq := 1 }

/-- A reading of the clock on 2026-11-04 (day 20761 of the Unix era). -/
def sampleClock : Clock :=
  { unix := 1793786400, year := 2026, month := 11, day := 4, dayNumber := 20761
    dbNow := 1793786400000000 }

/-- The sample store once user 1 holds seat 1 for 2026-11-05 under the
`PENDING` order 1. -/
def heldStore : Store :=
  { sampleStore with
    orders := [⟨1, 1, some 1, 1793786400000000, "PENDING", 2000⟩]
    tickets := [⟨1, 1, some 1, some 1, 20762, 2000, "TK-1-1793786400", "ACTIVE"⟩]
    orderSeq := 2
    ticketSeq := 2 }

/-- The held store once order 1 is paid. -/
def paidStore : Store :=
  { heldStore with orders := [⟨1, 1, some 1, 1793786400000000, "PAID", 2000⟩] }

/-- The held store with order 1 marked `CANCELLED`. -/
def cancelledStore : Store :=
  { heldStore with orders := [⟨1, 1, some 1, 1793786400000000, "CANCELLED", 2000⟩] }

/-- A catalog with two trains: route 1 runs train 1, and seat 7 stands in
carriage 2, which belongs to train 2. -/
def twoTrainStore : Store :=
  { sampleStore with
    trains := [⟨1, "703Б", "express"⟩, ⟨2, "868Щ", "regional"⟩]
    carriages := [⟨1, 1, 1, "coupe"⟩, ⟨2, 2, 1, "seated"⟩]
    seats := [⟨1, 1, 1⟩, ⟨2, 1, 2⟩, ⟨7, 2, 1⟩] }

/-- The sample store once train 1 is deleted: its carriages and their seats
are gone with it and route 1 is left with no train. -/
def trainlessStore : Store :=
  { sampleStore with
    trains := []
    carriages := []
    seats := []
    routes := [⟨1, "Минск - Брест", none, 2000⟩] }

/-- A library in which every email passes and a password matches the hash
that is the password preceded by `h:`. -/
def sampleLibrary : Library :=
  { emailValid := fun _ => true
    passwordMatches := fun hash password => hash == "h:" ++ password }

/-! ## Theorems -/

/-! ### Inserts and the outcomes of `CreateOrder` -/

/-- The three ways the insert into `orders` ends. -/
theorem orderCreate_eq (s : Store) (fail : Bool) (dbNow userID : Int) (routeID : Option Int)
    (status : String) (total : Float64) :
    orderRepository.Create s fail dbNow userID routeID status total = (.error .storage, s) ∨
    orderRepository.Create s fail dbNow userID routeID status total
      = (.error .constraint, { s with orderSeq := s.orderSeq + 1 }) ∨
    (fail = false ∧
      orderRepository.accepts s ⟨s.orderSeq, userID, routeID, dbNow, status, total.toHundredths⟩ = true ∧
      orderRepository.Create s fail dbNow userID routeID status total
      = (.ok ⟨s.orderSeq, userID, routeID, dbNow, status, total.toHundredths⟩,
          { s with
            orderSeq := s.orderSeq + 1
            orders := s.orders ++ [⟨s.orderSeq, userID, routeID, dbNow, status, total.toHundredths⟩] })) := by
  unfold orderRepository.Create
  by_cases hf : fail = true
  · simp [hf]
  · by_cases ha : orderRepository.accepts s ⟨s.orderSeq, userID, routeID, dbNow, status, total.toHundredths⟩ = true
    · simp [hf, ha]
    · simp [hf, ha]

/-- The three ways the insert into `tickets` ends. -/
theorem ticketCreate_eq (s : Store) (fail : Bool) (orderID : Int) (seatID passengerID : Option Int)
    (date : Int) (price : Float64) (number status : String) :
    ticketRepository.Create s fail orderID seatID passengerID date price number status
      = (.error .storage, s) ∨
    ticketRepository.Create s fail orderID seatID passengerID date price number status
      = (.error .constraint, { s with ticketSeq := s.ticketSeq + 1 }) ∨
    (fail = false ∧
      ticketRepository.accepts s
        ⟨s.ticketSeq, orderID, seatID, passengerID, date, price.toHundredths, number, status⟩ = true ∧
      ticketRepository.Create s fail orderID seatID passengerID date price number status
      = (.ok ⟨s.ticketSeq, orderID, seatID, passengerID, date, price.toHundredths, number, status⟩,
          { s with
            ticketSeq := s.ticketSeq + 1
            tickets := s.tickets ++
              [⟨s.ticketSeq, orderID, seatID, passengerID, date, price.toHundredths, number, status⟩] })) := by
  unfold ticketRepository.Create
  by_cases hf : fail = true
  · simp [hf]
  · by_cases ha : ticketRepository.accepts s
        ⟨s.ticketSeq, orderID, seatID, passengerID, date, price.toHundredths, number, status⟩ = true
    · simp [hf, ha]
    · simp [hf, ha]

/-- A scan that succeeds stores every column of the row. -/
theorem scan_ok {row : RouteRow} {route : Route} (h : routeRepository.scan row = .ok route) :
    row.trainID = some route.trainID ∧ route.id = row.id ∧ route.name = row.name ∧
      route.price = Float64.ofHundredths row.price ∧ routeRepository.scanned row = route := by
  unfold routeRepository.scan at h
  unfold routeRepository.scanned
  cases ht : row.trainID with
  | none => rw [ht] at h; simp at h
  | some trainID =>
    rw [ht] at h
    simp only [Except.ok.injEq] at h
    subst h
    exact ⟨rfl, rfl, rfl, rfl, rfl⟩

/-- A scan succeeds exactly on a row that has a train. -/
theorem scan_of_train {row : RouteRow} {trainID : Int} (h : row.trainID = some trainID) :
    routeRepository.scan row = .ok ⟨row.id, row.name, trainID, Float64.ofHundredths row.price⟩ := by
  unfold routeRepository.scan
  rw [h]

/-- A scan fails on a row without a train. -/
theorem scan_of_no_train {row : RouteRow} (h : row.trainID = none) :
    routeRepository.scan row = .error .scan := by
  unfold routeRepository.scan
  rw [h]

/-- A route the lookup answers is the scan of the stored row with that id. -/
theorem routeGetByID_some {s : Store} {fail : Bool} {id : Int} {route : Route}
    (h : routeRepository.GetByID s fail id = .ok (some route)) :
    fail = false ∧ route.id = id ∧
      ∃ row ∈ s.routes, row.id = id ∧ s.routes.find? (fun x => x.id == id) = some row ∧
        routeRepository.scan row = .ok route := by
  unfold routeRepository.GetByID at h
  cases fail with
  | true => simp at h
  | false =>
    simp only [Bool.false_eq_true, if_false] at h
    cases hfind : s.routes.find? (fun x => x.id == id) with
    | none => rw [hfind] at h; simp at h
    | some row =>
      rw [hfind] at h
      dsimp only at h
      have hrow : row.id = id := by simpa using List.find?_some hfind
      cases hscan : routeRepository.scan row with
      | error e => rw [hscan] at h; simp at h
      | ok r =>
        rw [hscan] at h
        simp only [Except.ok.injEq, Option.some.injEq] at h
        subst h
        exact ⟨rfl, by rw [(scan_ok hscan).2.1, hrow], row, List.mem_of_find?_eq_some hfind,
          hrow, rfl, hscan⟩

/-- The four ways `CreateOrder` ends: a 400 that leaves the store as it was,
a refused order insert, a refused ticket insert after the order row was
written, and a 201 with both rows written. -/
theorem CreateOrder_outcome (s : Store) (f : Faults) (clk : Clock) (userID : Int)
    (body : Option CreateOrderRequest) :
    (∃ m, Handlers.CreateOrder s f clk userID body = (⟨400, m⟩, s)) ∨
    (∃ s1, Handlers.CreateOrder s f clk userID body
        = (⟨500, .error "Failed to create order"⟩, s1) ∧
      s1.orders = s.orders ∧ s1.tickets = s.tickets) ∨
    (∃ req route s2, bindCreateOrder body = some req ∧
      (∃ row ∈ s.routes, routeRepository.scan row = .ok route) ∧
      route.id = req.routeID ∧
      Handlers.CreateOrder s f clk userID body
        = (⟨500, .error "Failed to create ticket"⟩, s2) ∧
      s2.orders = s.orders ++ [⟨s.orderSeq, userID, some route.id, clk.dbNow, "PENDING", req.price.toHundredths⟩] ∧
      s2.tickets = s.tickets) ∨
    (∃ req seat route, bindCreateOrder body = some req ∧
      seat ∈ s.seats ∧ seat.id = req.seatID ∧
      (∃ row ∈ s.routes, routeRepository.scan row = .ok route) ∧ route.id = req.routeID ∧
      ∃ view, Handlers.CreateOrder s f clk userID body
        = (⟨201, .order view⟩,
          { s with
            orderSeq := s.orderSeq + 1
            ticketSeq := s.ticketSeq + 1
            orders := s.orders ++
              [⟨s.orderSeq, userID, some route.id, clk.dbNow, "PENDING", req.price.toHundredths⟩]
            tickets := s.tickets ++
              [⟨s.ticketSeq, s.orderSeq, some req.seatID,
                Handlers.resolvePassenger s f.passengerGetByUserID userID req.passengerID,
                clk.dayNumber + 1, req.price.toHundredths, Handlers.ticketNumber s.orderSeq clk.unix,
                "ACTIVE"⟩] })) := by
  unfold Handlers.CreateOrder
  cases hb : bindCreateOrder body with
  | none => exact Or.inl ⟨_, rfl⟩
  | some req =>
    dsimp only
    cases hs : seatRepository.GetByID s f.seatGetByID req.seatID with
    | error e => exact Or.inl ⟨_, rfl⟩
    | ok so =>
      cases so with
      | none => exact Or.inl ⟨_, rfl⟩
      | some seat =>
        dsimp only
        cases hr : routeRepository.GetByID s f.routeGetByID req.routeID with
        | error e => exact Or.inl ⟨_, rfl⟩
        | ok ro =>
          cases ro with
          | none => exact Or.inl ⟨_, rfl⟩
          | some route =>
            dsimp only
            have hseat : seat ∈ s.seats ∧ seat.id = req.seatID := by
              unfold seatRepository.GetByID at hs
              split at hs
              · simp at hs
              · simp only [Except.ok.injEq] at hs
                exact ⟨List.mem_of_find?_eq_some hs, by simpa using List.find?_some hs⟩
            have hroute : (∃ row ∈ s.routes, routeRepository.scan row = .ok route) ∧
                route.id = req.routeID := by
              obtain ⟨_, hrid, row, hrow, _, _, hscan⟩ := routeGetByID_some hr
              exact ⟨⟨row, hrow, hscan⟩, hrid⟩
            right
            rcases orderCreate_eq s f.orderCreate clk.dbNow userID (some route.id) "PENDING"
              req.price with h | h | ⟨_, _, h⟩
            · left; exact ⟨s, by rw [h], rfl, rfl⟩
            · left; exact ⟨{ s with orderSeq := s.orderSeq + 1 }, by rw [h], rfl, rfl⟩
            · right
              rw [h]
              dsimp only
              generalize hs1 : ({ s with
                  orderSeq := s.orderSeq + 1
                  orders := s.orders ++
                    [⟨s.orderSeq, userID, some route.id, clk.dbNow, "PENDING", req.price.toHundredths⟩] }
                  : Store) = s1
              have ho : s1.orders = s.orders ++
                  [⟨s.orderSeq, userID, some route.id, clk.dbNow, "PENDING", req.price.toHundredths⟩] := by
                rw [← hs1]
              have ht : s1.tickets = s.tickets := by rw [← hs1]
              rcases ticketCreate_eq s1 f.ticketCreate s.orderSeq (some req.seatID)
                (Handlers.resolvePassenger s1 f.passengerGetByUserID userID req.passengerID)
                (clk.dayNumber + 1) req.price (Handlers.ticketNumber s.orderSeq clk.unix)
                "ACTIVE" with h2 | h2 | ⟨_, _, h2⟩
              · left
                exact ⟨req, route, s1, rfl, hroute.1, hroute.2, by rw [h2], ho, ht⟩
              · left
                exact ⟨req, route, { s1 with ticketSeq := s1.ticketSeq + 1 }, rfl, hroute.1,
                  hroute.2, by rw [h2], ho, ht⟩
              · right
                refine ⟨req, seat, route, rfl, hseat.1, hseat.2, hroute.1, hroute.2, ?_⟩
                rw [h2]
                subst hs1
                exact ⟨_, rfl⟩

/-! ### C1: the seat-slot invariant -/

/-- C1 (fails on the code): the sample store satisfies the seat-slot invariant,
and after two `CreateOrder` calls for seat 1 it does not: seat 1 carries two
`ACTIVE` tickets for the same departure date. -/
theorem C1_seat_slot_invariant_broken :
    SeatSlotInvariant sampleStore ∧
    ¬ SeatSlotInvariant (run sampleStore
      [.createOrder noFaults sampleClock 1 (some ⟨1, 1, ⟨2000, 2⟩, none⟩),
       .createOrder noFaults sampleClock 2 (some ⟨1, 1, ⟨2000, 2⟩, none⟩)]) := by
  constructor
  · intro seatID date
    simp [activeTickets, sampleStore]
  · intro h
    have h2 := h 1 20762
    revert h2
    decide

/-- The seat-slot invariant survives the removal of tickets. -/
theorem SeatSlotInvariant_of_sublist {s s2 : Store} (h : s2.tickets.Sublist s.tickets)
    (hinv : SeatSlotInvariant s) : SeatSlotInvariant s2 := by
  intro seatID date
  have := hinv seatID date
  unfold activeTickets at *
  exact le_trans (List.Sublist.length_le (List.Sublist.filter _ h)) this

/-- The store after `DeleteOrder` is the store before, or the store after the
`DELETE` statement. -/
theorem DeleteOrder_store (s : Store) (f : Faults) (userID : Int) (idParam : String) :
    (Handlers.DeleteOrder s f userID idParam).2 = s ∨
    ∃ oid, (Handlers.DeleteOrder s f userID idParam).2
      = (orderRepository.Delete s f.orderDelete oid).2 := by
  unfold Handlers.DeleteOrder
  cases ParseInt idParam with
  | none => exact Or.inl rfl
  | some oid =>
    dsimp only
    cases orderRepository.GetByID s f.orderGetByID oid with
    | error e => exact Or.inl rfl
    | ok found =>
      cases found with
      | none => exact Or.inl rfl
      | some order =>
        dsimp only
        by_cases h1 : (order.userID != userID) = true
        · rw [if_pos h1]; exact Or.inl rfl
        · rw [if_neg h1]
          by_cases h2 : (order.status != "PENDING") = true
          · rw [if_pos h2]; exact Or.inl rfl
          · rw [if_neg h2]
            right
            refine ⟨oid, ?_⟩
            rcases orderRepository.Delete s f.orderDelete oid with ⟨r, s1⟩
            cases r <;> rfl

/-- The store after `PayOrder` is the store before, or the store after the
`UPDATE` statement. -/
theorem PayOrder_store (s : Store) (f : Faults) (clk : Clock) (userID : Int)
    (idParam : String) (body : Option PaymentRequest) :
    (Handlers.PayOrder s f clk userID idParam body).2 = s ∨
    ∃ order, (Handlers.PayOrder s f clk userID idParam body).2
      = (orderRepository.Update s f.orderUpdate order).2 := by
  unfold Handlers.PayOrder
  cases ParseInt idParam with
  | none => exact Or.inl rfl
  | some oid =>
    dsimp only
    cases bindPayment body with
    | none => exact Or.inl rfl
    | some req =>
      dsimp only
      cases orderRepository.GetByID s f.orderGetByID oid with
      | error e => exact Or.inl rfl
      | ok found =>
        cases found with
        | none => exact Or.inl rfl
        | some order =>
          dsimp only
          by_cases h1 : (order.userID != userID) = true
          · rw [if_pos h1]; exact Or.inl rfl
          · rw [if_neg h1]
            right
            refine ⟨{ order with status := "PAID" }, ?_⟩
            rcases orderRepository.Update s f.orderUpdate { order with status := "PAID" }
              with ⟨r, s1⟩
            cases r <;> rfl

/-- Deleting an order only removes tickets. -/
theorem orderDelete_tickets_sublist (s : Store) (fail : Bool) (oid : Int) :
    (orderRepository.Delete s fail oid).2.tickets.Sublist s.tickets := by
  unfold orderRepository.Delete
  split
  · exact List.Sublist.refl _
  · exact List.filter_sublist _

/-- Updating an order leaves the tickets as they were. -/
theorem orderUpdate_tickets (s : Store) (fail : Bool) (order : Order) :
    (orderRepository.Update s fail order).2.tickets = s.tickets := by
  unfold orderRepository.Update
  split
  · rfl
  · split <;> rfl

/-- The expiry sweep only removes tickets. -/
theorem DeleteExpiredPending_tickets_sublist (s : Store) (fail : Bool) (dbNow T : Int) :
    (orderRepository.DeleteExpiredPending s fail dbNow T).2.tickets.Sublist s.tickets := by
  unfold orderRepository.DeleteExpiredPending
  split
  · exact List.Sublist.refl _
  · exact List.filter_sublist _

/-- Every call other than `CreateOrder` keeps the seat-slot invariant. -/
theorem step_preserves_invariant (s : Store) (c : Call)
    (hc : ∀ f clk userID body, c ≠ .createOrder f clk userID body)
    (hinv : SeatSlotInvariant s) : SeatSlotInvariant (step s c) := by
  cases c with
  | createOrder f clk userID body => exact absurd rfl (hc f clk userID body)
  | deleteOrder f userID idParam =>
    refine SeatSlotInvariant_of_sublist ?_ hinv
    show (Handlers.DeleteOrder s f userID idParam).2.tickets.Sublist s.tickets
    rcases DeleteOrder_store s f userID idParam with h | ⟨oid, h⟩
    · rw [h]
    · rw [h]; exact orderDelete_tickets_sublist s _ oid
  | payOrder f clk userID idParam body =>
    refine SeatSlotInvariant_of_sublist ?_ hinv
    show (Handlers.PayOrder s f clk userID idParam body).2.tickets.Sublist s.tickets
    rcases PayOrder_store s f clk userID idParam body with h | ⟨order, h⟩
    · rw [h]
    · rw [h, orderUpdate_tickets]
  | deleteExpiredPending f clk T =>
    exact SeatSlotInvariant_of_sublist (DeleteExpiredPending_tickets_sublist s _ _ _) hinv

/-! ### C2: the admission check -/

/-- C2 (fails on the code): in a store where seat 1 already has an `ACTIVE`
ticket for the date `CreateOrder` computes, so that `IsAvailable` answers
false, `CreateOrder` for seat 1 answers 201 and adds an order row and a second
`ACTIVE` ticket for the seat and date. -/
theorem C2_no_admission_check :
    seatRepository.IsAvailable heldStore false 1 (sampleClock.dayNumber + 1) = .ok false ∧
    (Handlers.CreateOrder heldStore noFaults sampleClock 2
      (some ⟨1, 1, ⟨2000, 2⟩, none⟩)).1.status = 201 ∧
    (Handlers.CreateOrder heldStore noFaults sampleClock 2
      (some ⟨1, 1, ⟨2000, 2⟩, none⟩)).2.orders
      = heldStore.orders ++ [⟨2, 2, some 1, 1793786400000000, "PENDING", 2000⟩] ∧
    (Handlers.CreateOrder heldStore noFaults sampleClock 2
      (some ⟨1, 1, ⟨2000, 2⟩, none⟩)).2.tickets
      = heldStore.tickets ++
        [⟨2, 2, some 1, some 2, 20762, 2000, "TK-2-1793786400", "ACTIVE"⟩] := by
  refine ⟨rfl, by decide, by decide, by decide⟩

/-! ### C3: partial commits -/

/-- C3 (counterexample): when the ticket insert fails after the order insert
succeeded, by a storage failure or because the store refuses the row (here a
passenger id that does not exist), `CreateOrder` answers 500 and the store
keeps the new order without a ticket; it is not the store before the call. -/
theorem C3_order_without_ticket :
    Handlers.CreateOrder sampleStore { noFaults with ticketCreate := true } sampleClock 1
        (some ⟨1, 1, ⟨2000, 2⟩, none⟩)
      = (⟨500, .error "Failed to create ticket"⟩,
        { sampleStore with
          orders := [⟨1, 1, some 1, 1793786400000000, "PENDING", 2000⟩]
          orderSeq := 2 }) ∧
    Handlers.CreateOrder sampleStore noFaults sampleClock 1 (some ⟨1, 1, ⟨2000, 2⟩, some 99⟩)
      = (⟨500, .error "Failed to create ticket"⟩,
        { sampleStore with
          orders := [⟨1, 1, some 1, 1793786400000000, "PENDING", 2000⟩]
          orderSeq := 2
          ticketSeq := 2 }) ∧
    (Handlers.CreateOrder sampleStore noFaults sampleClock 1
      (some ⟨1, 1, ⟨2000, 2⟩, some 99⟩)).2 ≠ sampleStore := by
  refine ⟨by decide, by decide, by decide⟩

/-- C3 (amended): `CreateOrder` ends in one of four ways.  With 201 the store
has gained the new order and its ticket, and nothing else; with 400 the store
is as it was; with 500 "Failed to create order" no order and no ticket row was
added; with 500 "Failed to create ticket" no ticket row was added and the new
`PENDING` order of the caller stays in the store. -/
theorem C3_commit_outcomes (s : Store) (f : Faults) (clk : Clock) (userID : Int)
    (body : Option CreateOrderRequest) :
    ((Handlers.CreateOrder s f clk userID body).1.status = 201 ∧
      ∃ order ticket,
        (Handlers.CreateOrder s f clk userID body).2.orders = s.orders ++ [order] ∧
        (Handlers.CreateOrder s f clk userID body).2.tickets = s.tickets ++ [ticket] ∧
        ticket.orderID = order.id) ∨
    ((Handlers.CreateOrder s f clk userID body).1.status = 400 ∧
      (Handlers.CreateOrder s f clk userID body).2 = s) ∨
    ((Handlers.CreateOrder s f clk userID body).1 = ⟨500, .error "Failed to create order"⟩ ∧
      (Handlers.CreateOrder s f clk userID body).2.orders = s.orders ∧
      (Handlers.CreateOrder s f clk userID body).2.tickets = s.tickets) ∨
    ((Handlers.CreateOrder s f clk userID body).1 = ⟨500, .error "Failed to create ticket"⟩ ∧
      (Handlers.CreateOrder s f clk userID body).2.tickets = s.tickets ∧
      ∃ order, (Handlers.CreateOrder s f clk userID body).2.orders = s.orders ++ [order] ∧
        order.id = s.orderSeq ∧ order.userID = userID ∧ order.status = "PENDING") := by
  rcases CreateOrder_outcome s f clk userID body with
    ⟨m, h⟩ | ⟨s1, h, h1, h2⟩ | ⟨req, route, s2, _, _, _, h, h1, h2⟩ |
    ⟨req, seat, route, _, _, _, _, _, view, h⟩
  · right; left
    rw [h]; exact ⟨rfl, rfl⟩
  · right; right; left
    rw [h]; exact ⟨rfl, h1, h2⟩
  · right; right; right
    rw [h]; exact ⟨rfl, h2, _, h1, rfl, rfl, rfl⟩
  · left
    rw [h]; exact ⟨rfl, _, _, rfl, rfl, rfl⟩

/-! ### C4: calls for the same seat -/

/-- C4 (fails on the code): two `CreateOrder` calls for seat 1 served one after
the other, which is one of the interleavings of two calls, both answer 201, and
seat 1 then carries an `ACTIVE` ticket of order 1 and one of order 2 for the
same departure date. -/
theorem C4_serial_calls_both_succeed :
    (Handlers.CreateOrder sampleStore noFaults sampleClock 1
      (some ⟨1, 1, ⟨2000, 2⟩, none⟩)).1.status = 201 ∧
    (Handlers.CreateOrder
      (Handlers.CreateOrder sampleStore noFaults sampleClock 1 (some ⟨1, 1, ⟨2000, 2⟩, none⟩)).2
      noFaults sampleClock 2 (some ⟨1, 1, ⟨2000, 2⟩, none⟩)).1.status = 201 ∧
    (activeTickets
      (Handlers.CreateOrder
        (Handlers.CreateOrder sampleStore noFaults sampleClock 1 (some ⟨1, 1, ⟨2000, 2⟩, none⟩)).2
        noFaults sampleClock 2 (some ⟨1, 1, ⟨2000, 2⟩, none⟩)).2
      1 (sampleClock.dayNumber + 1)).map (fun t => t.orderID) = [1, 2] := by
  refine ⟨by decide, by decide, by decide⟩

/-! ### C5: cancelling releases the slot -/

/-- With the primary key of `orders`, the lookup by id finds a stored order. -/
theorem orderGetByID_of_mem {s : Store} {o : Order} (hkey : OrdersKeyed s)
    (hmem : o ∈ s.orders) :
    orderRepository.GetByID s false o.id = .ok (some o) := by
  unfold orderRepository.GetByID
  simp only [Bool.false_eq_true, if_false]
  cases hfind : s.orders.find? (fun x => x.id == o.id) with
  | none =>
    have := List.find?_eq_none.mp hfind o hmem
    simp at this
  | some x =>
    have hx : x ∈ s.orders := List.mem_of_find?_eq_some hfind
    have hid : x.id = o.id := by simpa using List.find?_some hfind
    rw [hkey x hx o hmem hid]

/-- `DeleteOrder` by the owner of a `PENDING` order answers 204 and removes the
order and its tickets. -/
theorem DeleteOrder_pending_owner {s : Store} {f : Faults} {userID : Int} {idParam : String}
    {o : Order} (hkey : OrdersKeyed s) (hmem : o ∈ s.orders)
    (hid : ParseInt idParam = some o.id) (hown : o.userID = userID)
    (hpend : o.status = "PENDING") (hget : f.orderGetByID = false)
    (hdel : f.orderDelete = false) :
    Handlers.DeleteOrder s f userID idParam
      = (⟨204, .empty⟩,
        { s with
          orders := s.orders.filter (fun x => x.id != o.id)
          tickets := s.tickets.filter (fun t => t.orderID != o.id) }) := by
  unfold Handlers.DeleteOrder
  rw [hid]
  dsimp only
  rw [hget, orderGetByID_of_mem hkey hmem]
  dsimp only
  simp [hown, hpend, orderRepository.Delete, hdel]

/-- An admissible request is served with 201 and both rows are written. -/
theorem CreateOrder_admissible {s : Store} {f : Faults} {clk : Clock} {userID : Int}
    {req : CreateOrderRequest} (h : Admissible s f clk userID req) :
    ∃ view, Handlers.CreateOrder s f clk userID (some req)
      = (⟨201, .order view⟩,
        { s with
          orderSeq := s.orderSeq + 1
          ticketSeq := s.ticketSeq + 1
          orders := s.orders ++
            [⟨s.orderSeq, userID, some req.routeID, clk.dbNow, "PENDING", req.price.toHundredths⟩]
          tickets := s.tickets ++
            [⟨s.ticketSeq, s.orderSeq, some req.seatID,
              Handlers.resolvePassenger s f.passengerGetByUserID userID req.passengerID,
              clk.dayNumber + 1, req.price.toHundredths, Handlers.ticketNumber s.orderSeq clk.unix,
              "ACTIVE"⟩] }) := by
  obtain ⟨h1, h2, h3, hf1, hf2, hf3, hf4, ⟨seat, hseat, hseatid⟩, ⟨route, hroute, hrouteid⟩,
    htrain, hofresh, ⟨u, hu, huid⟩, hprice, htfresh, hnum, hpass, hlen⟩ := h
  have hbind : bindCreateOrder (some req) = some req := by
    simp [bindCreateOrder, h1, h2, h3]
  have hs : ∃ seat', seatRepository.GetByID s f.seatGetByID req.seatID = .ok (some seat') := by
    unfold seatRepository.GetByID
    rw [hf1]
    cases hfind : s.seats.find? (fun x => x.id == req.seatID) with
    | none =>
      have := List.find?_eq_none.mp hfind seat hseat
      simp [hseatid] at this
    | some x => exact ⟨x, by simp⟩
  have hr : ∃ route', routeRepository.GetByID s f.routeGetByID req.routeID = .ok (some route')
      ∧ route'.id = req.routeID := by
    unfold routeRepository.GetByID
    rw [hf2]
    cases hfind : s.routes.find? (fun x => x.id == req.routeID) with
    | none =>
      have := List.find?_eq_none.mp hfind route hroute
      simp [hrouteid] at this
    | some x =>
      have hxid : x.id = req.routeID := by simpa using List.find?_some hfind
      cases hx : x.trainID with
      | none => exact absurd hx (htrain x (List.mem_of_find?_eq_some hfind) hxid)
      | some trainID =>
        refine ⟨⟨x.id, x.name, trainID, Float64.ofHundredths x.price⟩, ?_, hxid⟩
        simp [scan_of_train hx]
  obtain ⟨seat', hs⟩ := hs
  obtain ⟨route', hr, hrid⟩ := hr
  have hacc : orderRepository.accepts s
      ⟨s.orderSeq, userID, some route'.id, clk.dbNow, "PENDING", req.price.toHundredths⟩ = true := by
    have hv : varchar50 "PENDING" = true := by decide
    have hroute' : ∃ a ∈ s.routes, a.id = route'.id := ⟨route, hroute, by rw [hrouteid, hrid]⟩
    have huser : ∃ a ∈ s.users, a.id = userID := ⟨u, hu, huid⟩
    simp [orderRepository.accepts, references, hv, hprice, hroute', huser]
    exact hofresh
  have hacc2 : ticketRepository.accepts
      { s with
        orderSeq := s.orderSeq + 1
        orders := s.orders ++
          [⟨s.orderSeq, userID, some route'.id, clk.dbNow, "PENDING", req.price.toHundredths⟩] }
      ⟨s.ticketSeq, s.orderSeq, some req.seatID,
        Handlers.resolvePassenger s f.passengerGetByUserID userID req.passengerID,
        clk.dayNumber + 1, req.price.toHundredths, Handlers.ticketNumber s.orderSeq clk.unix, "ACTIVE"⟩
      = true := by
    have hv : varchar50 "ACTIVE" = true := by decide
    have hseat' : references (s.seats.map (fun x => x.id)) (some req.seatID) = true := by
      simp only [references, List.contains_eq_any_beq, List.any_eq_true, List.mem_map]
      exact ⟨seat.id, ⟨seat, hseat, rfl⟩, by simp [hseatid]⟩
    simp only [ticketRepository.accepts, hv, hprice, hlen, hpass, hseat', Bool.and_true,
      Bool.and_eq_true, List.all_eq_true, List.any_eq_true, bne_iff_ne, ne_eq, beq_iff_eq]
    exact ⟨⟨htfresh, hnum⟩, _, List.mem_append_right _ (List.mem_singleton.mpr rfl), rfl⟩
  unfold Handlers.CreateOrder
  rw [hbind]
  dsimp only
  rw [hs]
  dsimp only
  rw [hr]
  dsimp only
  unfold orderRepository.Create
  rw [hf3, if_neg (by decide), if_pos hacc]
  dsimp only
  unfold ticketRepository.Create
  rw [hf4, if_neg (by decide)]
  dsimp only
  have hrp : Handlers.resolvePassenger
      { s with
        orderSeq := s.orderSeq + 1
        orders := s.orders ++
          [⟨s.orderSeq, userID, some route'.id, clk.dbNow, "PENDING", req.price.toHundredths⟩] }
      f.passengerGetByUserID userID req.passengerID
      = Handlers.resolvePassenger s f.passengerGetByUserID userID req.passengerID := rfl
  rw [hrp, if_pos hacc2, hrid]
  exact ⟨_, rfl⟩

/-- Once the tickets of an order are gone, a slot that only they held has no
`ACTIVE` ticket. -/
theorem activeTickets_filter_tickets (s : Store) (oid : Int) (seatID date : Int) (s2 : Store)
    (h2 : s2.tickets = s.tickets.filter (fun t => t.orderID != oid))
    (hall : ∀ t ∈ activeTickets s seatID date, t.orderID = oid) :
    activeTickets s2 seatID date = [] := by
  unfold activeTickets at *
  rw [h2, List.filter_filter, List.filter_eq_nil_iff]
  intro t ht hcond
  simp only [Bool.and_eq_true, bne_iff_ne, ne_eq] at hcond
  have := hall t (List.mem_filter.mpr ⟨ht, by simpa using hcond.1⟩)
  exact hcond.2 this

/-- C5: when the owner of a stored `PENDING` order O asks to delete it and the
lookup and the delete do not fail, `DeleteOrder` answers 204, the store then
holds neither O nor a ticket of O, and for every seat and date whose `ACTIVE`
tickets all belonged to O, `IsAvailable` answers true and every admissible
`CreateOrder` for the seat answers 201 and writes an `ACTIVE` ticket for it. -/
theorem C5_cancel_releases_slot (s : Store) (f : Faults) (userID : Int) (idParam : String)
    (o : Order) (hkey : OrdersKeyed s) (hmem : o ∈ s.orders)
    (hid : ParseInt idParam = some o.id) (hown : o.userID = userID)
    (hpend : o.status = "PENDING") (hget : f.orderGetByID = false)
    (hdel : f.orderDelete = false) :
    (Handlers.DeleteOrder s f userID idParam).1 = ⟨204, .empty⟩ ∧
    (∀ x ∈ (Handlers.DeleteOrder s f userID idParam).2.orders, x.id ≠ o.id) ∧
    (∀ t ∈ (Handlers.DeleteOrder s f userID idParam).2.tickets, t.orderID ≠ o.id) ∧
    ∀ seatID date, (∀ t ∈ activeTickets s seatID date, t.orderID = o.id) →
      seatRepository.IsAvailable (Handlers.DeleteOrder s f userID idParam).2 false seatID date
        = .ok true ∧
      ∀ g clk user req, req.seatID = seatID →
        Admissible (Handlers.DeleteOrder s f userID idParam).2 g clk user req →
        (Handlers.CreateOrder (Handlers.DeleteOrder s f userID idParam).2 g clk user
          (some req)).1.status = 201 ∧
        ∃ t ∈ (Handlers.CreateOrder (Handlers.DeleteOrder s f userID idParam).2 g clk user
            (some req)).2.tickets,
          t.seatID = some seatID ∧ t.departureDate = clk.dayNumber + 1 ∧ t.status = "ACTIVE" := by
  rw [DeleteOrder_pending_owner hkey hmem hid hown hpend hget hdel]
  refine ⟨rfl, ?_, ?_, ?_⟩
  · intro x hx
    simpa using (List.mem_filter.mp hx).2
  · intro t ht
    simpa using (List.mem_filter.mp ht).2
  · intro seatID date hall
    constructor
    · have := activeTickets_filter_tickets s o.id seatID date
        { s with
          orders := s.orders.filter (fun x => x.id != o.id)
          tickets := s.tickets.filter (fun t => t.orderID != o.id) } rfl hall
      unfold activeTickets at this
      unfold seatRepository.IsAvailable
      simp only [Bool.false_eq_true, if_false]
      rw [this]
      rfl
    · intro g clk user req hseat hadm
      obtain ⟨view, h⟩ := CreateOrder_admissible hadm
      rw [h]
      refine ⟨rfl, _, List.mem_append_right _ (List.mem_singleton.mpr rfl), ?_, rfl, rfl⟩
      simp [hseat]

/-- C5 at the sample data: user 1 reserves seat 1, cancels, and reserves seat 1
again. -/
theorem C5_reserve_cancel_reserve :
    (Handlers.CreateOrder sampleStore noFaults sampleClock 1 (some ⟨1, 1, ⟨2000, 2⟩, none⟩)).2
      = heldStore ∧
    (Handlers.DeleteOrder heldStore noFaults 1 "1").1 = ⟨204, .empty⟩ ∧
    seatRepository.IsAvailable (Handlers.DeleteOrder heldStore noFaults 1 "1").2 false 1 20762
      = .ok true ∧
    (Handlers.CreateOrder (Handlers.DeleteOrder heldStore noFaults 1 "1").2 noFaults sampleClock
      1 (some ⟨1, 1, ⟨2000, 2⟩, none⟩)).1.status = 201 := by
  have h := C5_cancel_releases_slot heldStore noFaults 1 "1"
    ⟨1, 1, some 1, 1793786400000000, "PENDING", 2000⟩
    (by unfold OrdersKeyed; decide) (by decide) (by decide) rfl rfl rfl rfl
  have h2 := h.2.2.2 1 20762 (by decide)
  exact ⟨by decide, h.1, h2.1,
    (h2.2 noFaults sampleClock 1 ⟨1, 1, ⟨2000, 2⟩, none⟩ rfl (by unfold Admissible; decide)).1⟩

/-! ### C6: the match set of the route search -/

/-- A route is among the joined rows exactly when it is stored and connects the
two cities. -/
theorem mem_searchRows (s : Store) (fromCity toCity : String) (r : RouteRow) :
    r ∈ routeRepository.searchRows s fromCity toCity ↔
      r ∈ s.routes ∧ Connects s r fromCity toCity := by
  unfold routeRepository.searchRows Connects
  simp only [List.mem_flatMap]
  constructor
  · rintro ⟨r', hr', rs1, h1, s1, hs1, rs2, h2, s2, hs2, hmem⟩
    split at hmem
    · rename_i hc
      simp only [Bool.and_eq_true, beq_iff_eq, decide_eq_true_eq] at hc
      simp only [List.mem_singleton] at hmem
      subst hmem
      obtain ⟨⟨⟨⟨⟨⟨c1, c2⟩, c3⟩, c4⟩, c5⟩, c6⟩, c7⟩ := hc
      exact ⟨hr', rs1, h1, s1, hs1, rs2, h2, s2, hs2, c1.symm, c2, c5, c3.symm, c4, c6, c7⟩
    · simp at hmem
  · rintro ⟨hr, rs1, h1, s1, hs1, rs2, h2, s2, hs2, c1, c2, c3, c4, c5, c6, c7⟩
    refine ⟨r, hr, rs1, h1, s1, hs1, rs2, h2, s2, hs2, ?_⟩
    rw [if_pos]
    · exact List.mem_singleton.mpr rfl
    · simp only [Bool.and_eq_true, beq_iff_eq, decide_eq_true_eq]
      exact ⟨⟨⟨⟨⟨⟨c1.symm, c2⟩, c4.symm⟩, c5⟩, c3⟩, c6⟩, c7⟩

/-- The struct a scan leaves behind has the id of the row. -/
theorem scanned_id (row : RouteRow) : (routeRepository.scanned row).id = row.id := by
  unfold routeRepository.scanned
  cases row.trainID <;> rfl

/-- Rows that have a train are told apart by their scans. -/
theorem scanned_injective {a b : RouteRow} (ha : a.trainID ≠ none) (hb : b.trainID ≠ none)
    (h : routeRepository.scanned a = routeRepository.scanned b) : a = b := by
  obtain ⟨ai, an, at_, ap⟩ := a
  obtain ⟨bi, bn, bt, bp⟩ := b
  cases at_ with
  | none => exact absurd rfl ha
  | some x =>
    cases bt with
    | none => exact absurd rfl hb
    | some y =>
      simp only [routeRepository.scanned, Float64.ofHundredths, Route.mk.injEq,
        Float64.mk.injEq, and_true] at h
      obtain ⟨h1, h2, h3, h4⟩ := h
      subst h1 h2 h3 h4
      rfl

/-- The loop of `Search` over rows that all have a train answers their scans,
in order. -/
theorem scanRows_of_trains (rows : List RouteRow) (h : ∀ row ∈ rows, row.trainID ≠ none) :
    routeRepository.scanRows rows = .ok (rows.map routeRepository.scanned) := by
  induction rows with
  | nil => rfl
  | cons row rest ih =>
    cases ht : row.trainID with
    | none => exact absurd ht (h row (List.mem_cons_self _ _))
    | some trainID =>
      simp only [routeRepository.scanRows, scan_of_train ht,
        ih (fun r hr => h r (List.mem_cons_of_mem _ hr)), List.map_cons,
        routeRepository.scanned, ht]

/-- The loop of `Search` over rows one of which has no train answers the
error of the scan. -/
theorem scanRows_of_no_train (rows : List RouteRow) (h : ∃ row ∈ rows, row.trainID = none) :
    routeRepository.scanRows rows = .error .scan := by
  induction rows with
  | nil =>
    obtain ⟨_, hm, _⟩ := h
    simp at hm
  | cons row rest ih =>
    cases ht : row.trainID with
    | none => simp only [routeRepository.scanRows, scan_of_no_train ht]
    | some trainID =>
      have hrest : ∃ r ∈ rest, r.trainID = none := by
        obtain ⟨r, hm, hr⟩ := h
        rcases List.mem_cons.mp hm with h1 | h1
        · subst h1
          rw [ht] at hr
          simp at hr
        · exact ⟨r, h1, hr⟩
      simp only [routeRepository.scanRows, scan_of_train ht, ih hrest]

/-- `Route.Search` when no statement fails for an outside reason: the scans
of the connecting routes when each of them has a train, the error of the scan
when one of them has none. -/
theorem Search_cases (s : Store) (fromCity toCity date : String) :
    ((∀ row ∈ s.routes, Connects s row fromCity toCity → row.trainID ≠ none) →
      routeRepository.Search s false fromCity toCity date
        = .ok ((routeRepository.searchRows s fromCity toCity).dedup.map
            routeRepository.scanned)) ∧
    ((∃ row ∈ s.routes, Connects s row fromCity toCity ∧ row.trainID = none) →
      routeRepository.Search s false fromCity toCity date = .error .scan) := by
  unfold routeRepository.Search
  simp only [Bool.false_eq_true, if_false]
  constructor
  · intro h
    apply scanRows_of_trains
    intro row hrow
    rw [List.mem_dedup, mem_searchRows] at hrow
    exact h row hrow.1 hrow.2
  · rintro ⟨row, hrow, hconn, hnone⟩
    apply scanRows_of_no_train
    exact ⟨row, by rw [List.mem_dedup, mem_searchRows]; exact ⟨hrow, hconn⟩, hnone⟩

/-- The match set of `Route.Search` on a catalog in which every route that
connects the two cities has a train: a route occurs exactly once in the
answer if and only if it is the scan of a stored route with a stop in the
departure city and a stop of higher stop order in the arrival city; no route
occurs twice; and a route all of whose stops in the arrival city come no
later than its stops in the departure city does not occur. -/
theorem search_match_set (s : Store) (fromCity toCity date : String)
    (htrains : ∀ row ∈ s.routes, Connects s row fromCity toCity → row.trainID ≠ none) :
    ∃ found, routeRepository.Search s false fromCity toCity date = .ok found ∧
      (∀ r, found.count r = 1 ↔
        ∃ row ∈ s.routes, Connects s row fromCity toCity ∧ routeRepository.scan row = .ok r) ∧
      (∀ r, found.count r ≤ 1) ∧
      (∀ r, (∀ rs1 ∈ s.routeStations, ∀ s1 ∈ s.stations, ∀ rs2 ∈ s.routeStations,
          ∀ s2 ∈ s.stations,
          rs1.routeID = r.id → rs1.stationID = s1.id → s1.city = fromCity →
          rs2.routeID = r.id → rs2.stationID = s2.id → s2.city = toCity →
          rs2.stopOrder ≤ rs1.stopOrder) → found.count r = 0) := by
  have hrows : ∀ row, row ∈ (routeRepository.searchRows s fromCity toCity).dedup ↔
      row ∈ s.routes ∧ Connects s row fromCity toCity := by
    intro row
    rw [List.mem_dedup]
    exact mem_searchRows s fromCity toCity row
  have hnd : ((routeRepository.searchRows s fromCity toCity).dedup.map
      routeRepository.scanned).Nodup := by
    apply List.Nodup.map_on _ (List.nodup_dedup _)
    intro a ha b hb hab
    rw [hrows] at ha hb
    exact scanned_injective (htrains a ha.1 ha.2) (htrains b hb.1 hb.2) hab
  have hmem : ∀ r, r ∈ (routeRepository.searchRows s fromCity toCity).dedup.map
      routeRepository.scanned ↔
      ∃ row ∈ s.routes, Connects s row fromCity toCity ∧ routeRepository.scan row = .ok r := by
    intro r
    rw [List.mem_map]
    constructor
    · rintro ⟨row, hrow, rfl⟩
      rw [hrows] at hrow
      cases ht : row.trainID with
      | none => exact absurd ht (htrains row hrow.1 hrow.2)
      | some trainID =>
        refine ⟨row, hrow.1, hrow.2, ?_⟩
        rw [scan_of_train ht]
        simp [routeRepository.scanned, ht]
    · rintro ⟨row, hrow, hconn, hscan⟩
      exact ⟨row, (hrows row).mpr ⟨hrow, hconn⟩, (scan_ok hscan).2.2.2.2⟩
  refine ⟨_, (Search_cases s fromCity toCity date).1 htrains, ?_, ?_, ?_⟩
  · intro r
    rw [← hmem r]
    constructor
    · intro h
      exact List.count_pos_iff.mp (by omega)
    · exact List.count_eq_one_of_mem hnd
  · intro r
    exact List.nodup_iff_count_le_one.mp hnd r
  · intro r hall
    rw [List.count_eq_zero, hmem r]
    rintro ⟨row, _, ⟨rs1, h1, s1, hs1, rs2, h2, s2, hs2, c1, c2, c3, c4, c5, c6, c7⟩, hscan⟩
    have hid := (scan_ok hscan).2.1
    have := hall rs1 h1 s1 hs1 rs2 h2 s2 hs2 (by rw [hid, c1]) c2 c3 (by rw [hid, c4]) c5 c6
    omega

/-- C6 (fails on the code): once train 1 of the sample store is deleted, route
1 still has its stop in Минск (order 1) before its stop in Брест (order 2),
yet `Route.Search` from Минск to Брест answers the error of the scan instead
of the route, and `SearchRoutes` answers 500; before the train was deleted
the same search answered route 1. -/
theorem C6_search_fails_without_train :
    (∃ row ∈ trainlessStore.routes, row.id = 1 ∧ Connects trainlessStore row "Минск" "Брест") ∧
    routeRepository.Search trainlessStore false "Минск" "Брест" "2026-12-01"
      = .error .scan ∧
    (Handlers.SearchRoutes trainlessStore noFaults sampleClock "Минск" "Брест"
      "2026-12-01").status = 500 ∧
    routeRepository.Search sampleStore false "Минск" "Брест" "2026-12-01"
      = .ok [⟨1, "Минск - Брест", 1, ⟨2000, 2⟩⟩] := by
  refine ⟨?_, rfl, by decide, rfl⟩
  unfold Connects
  decide

/-! ### C7: a search without a connecting route -/

/-- The loop of `SearchRoutes` from a slice that is not `nil`. -/
theorem searchResponses_some (s : Store) (clk : Clock) (routes : List Route)
    (acc : List RouteSearchResponse) :
    routes.foldl (fun acc route => goAppend acc (Handlers.routeSummary s clk route)) (some acc)
      = some (acc ++ routes.map (Handlers.routeSummary s clk)) := by
  induction routes generalizing acc with
  | nil => simp
  | cons r rest ih =>
    rw [List.foldl_cons]
    have hstep : goAppend (some acc) (Handlers.routeSummary s clk r)
        = some (acc ++ [Handlers.routeSummary s clk r]) := rfl
    rw [hstep, ih]
    simp

/-- After the `nil` check the responses are the summaries of the routes found,
in order. -/
theorem searchResponses_eq (s : Store) (clk : Clock) (routes : List Route) :
    (match Handlers.searchResponses s clk routes with
      | none => some []
      | some responses => some responses)
      = some (routes.map (Handlers.routeSummary s clk)) := by
  unfold Handlers.searchResponses
  cases routes with
  | nil => rfl
  | cons r rest =>
    rw [List.foldl_cons]
    have hstep : goAppend (none : Option (List RouteSearchResponse))
        (Handlers.routeSummary s clk r) = some [Handlers.routeSummary s clk r] := rfl
    rw [hstep, searchResponses_some]
    simp

/-- With its three parameters present and a search that does not fail, over
rows that all have a train, `SearchRoutes` answers 200 with the summaries of
the routes found. -/
theorem SearchRoutes_ok (s : Store) (f : Faults) (clk : Clock) (fromCity toCity date : String)
    (h1 : fromCity ≠ "") (h2 : toCity ≠ "") (h3 : date ≠ "") (hf : f.routeSearch = false)
    (htr : ∀ row ∈ (routeRepository.searchRows s fromCity toCity).dedup, row.trainID ≠ none) :
    Handlers.SearchRoutes s f clk fromCity toCity date
      = ⟨200, .routes (some ((routeRepository.searchRows s fromCity toCity).dedup.map
          (fun row => Handlers.routeSummary s clk (routeRepository.scanned row))))⟩ := by
  unfold Handlers.SearchRoutes routeRepository.Search
  have hc : (fromCity == "" || toCity == "" || date == "") = false := by
    simp [h1, h2, h3]
  rw [hc, hf, scanRows_of_trains _ htr]
  simp only [Bool.false_eq_true, if_false]
  have := searchResponses_eq s clk
    ((routeRepository.searchRows s fromCity toCity).dedup.map routeRepository.scanned)
  rw [List.map_map] at this
  split <;> rename_i heq <;> rw [heq] at this <;> simp only [Option.some.injEq] at this <;>
    rw [this] <;> rfl

/-- A `SearchRoutes` that answers 200 lists the summaries of the connecting
routes, in the order found. -/
theorem SearchRoutes_items {s : Store} {f : Faults} {clk : Clock}
    {fromCity toCity date : String} {items : List RouteSearchResponse}
    (h : Handlers.SearchRoutes s f clk fromCity toCity date = ⟨200, .routes (some items)⟩) :
    (∀ row ∈ (routeRepository.searchRows s fromCity toCity).dedup, row.trainID ≠ none) ∧
    items = (routeRepository.searchRows s fromCity toCity).dedup.map
      (fun row => Handlers.routeSummary s clk (routeRepository.scanned row)) := by
  have hc : (fromCity == "" || toCity == "" || date == "") = false := by
    cases hc : (fromCity == "" || toCity == "" || date == "") with
    | false => rfl
    | true =>
      unfold Handlers.SearchRoutes at h
      rw [hc] at h
      simp at h
  have hf : f.routeSearch = false := by
    cases hf : f.routeSearch with
    | false => rfl
    | true =>
      unfold Handlers.SearchRoutes routeRepository.Search at h
      rw [hc, hf] at h
      simp at h
  have htr : ∀ row ∈ (routeRepository.searchRows s fromCity toCity).dedup,
      row.trainID ≠ none := by
    by_contra hcon
    push_neg at hcon
    unfold Handlers.SearchRoutes routeRepository.Search at h
    rw [hc, hf, scanRows_of_no_train _ hcon] at h
    simp at h
  simp only [Bool.or_eq_false_iff, beq_eq_false_iff_ne, ne_eq] at hc
  rw [SearchRoutes_ok s f clk fromCity toCity date hc.1.1 hc.1.2 hc.2 hf htr] at h
  simp only [Response.mk.injEq, Body.routes.injEq, Option.some.injEq, true_and] at h
  exact ⟨htr, h.symm⟩

/-- C7: for non-empty `from_city`, `to_city` and `date`, when no stored route
connects the two cities and the search statement does not fail, `SearchRoutes`
answers 200 with the empty list (not `null`, not an error). -/
theorem C7_no_route_empty_list (s : Store) (f : Faults) (clk : Clock)
    (fromCity toCity date : String)
    (h1 : fromCity ≠ "") (h2 : toCity ≠ "") (h3 : date ≠ "") (hf : f.routeSearch = false)
    (hnone : ∀ r ∈ s.routes, ¬ Connects s r fromCity toCity) :
    Handlers.SearchRoutes s f clk fromCity toCity date = ⟨200, .routes (some [])⟩ := by
  have : (routeRepository.searchRows s fromCity toCity).dedup = [] := by
    rw [List.eq_nil_iff_forall_not_mem]
    intro r hr
    rw [List.mem_dedup, mem_searchRows] at hr
    exact hnone r hr.1 hr.2
  rw [SearchRoutes_ok s f clk fromCity toCity date h1 h2 h3 hf (by rw [this]; simp), this]
  rfl

/-- C7 at the sample data: no route runs from Брест to Минск. -/
theorem C7_no_route_empty_list_witness :
    Handlers.SearchRoutes sampleStore noFaults sampleClock "Брест" "Минск" "2026-12-01"
      = ⟨200, .routes (some [])⟩ :=
  C7_no_route_empty_list sampleStore noFaults sampleClock "Брест" "Минск" "2026-12-01"
    (by decide) (by decide) (by decide) rfl (by unfold Connects; decide)

/-! ### C8: the timestamps of a route summary -/

/-- `ORDER BY stop_order` yields the stops sorted by stop order. -/
theorem stops_sorted (l : List RouteStation) :
    (l.insertionSort (fun a b => a.stopOrder ≤ b.stopOrder)).Sorted
      (fun a b => a.stopOrder ≤ b.stopOrder) :=
  @List.sorted_insertionSort RouteStation (fun a b => a.stopOrder ≤ b.stopOrder) _
    ⟨fun a b => le_total a.stopOrder b.stopOrder⟩
    ⟨fun _ _ _ hab hbc => le_trans hab hbc⟩ l

/-- The first stop listed is a stop of lowest stop order. -/
theorem stops_head_lowest (l : List RouteStation) (first : RouteStation)
    (h : (l.insertionSort (fun a b => a.stopOrder ≤ b.stopOrder)).head? = some first) :
    first ∈ l ∧ ∀ x ∈ l, first.stopOrder ≤ x.stopOrder := by
  have hs := stops_sorted l
  have hp := List.perm_insertionSort (fun a b : RouteStation => a.stopOrder ≤ b.stopOrder) l
  cases hl : l.insertionSort (fun a b => a.stopOrder ≤ b.stopOrder) with
  | nil => rw [hl] at h; simp at h
  | cons a rest =>
    rw [hl] at h hs hp
    simp only [List.head?_cons, Option.some.injEq] at h
    subst h
    refine ⟨hp.subset (List.mem_cons_self _ _), ?_⟩
    intro x hx
    have hx' : x ∈ a :: rest := hp.symm.subset hx
    rcases List.mem_cons.mp hx' with h1 | h1
    · rw [h1]
    · exact List.rel_of_sorted_cons hs x h1

/-- The last stop listed is a stop of highest stop order. -/
theorem stops_last_highest (l : List RouteStation) (last : RouteStation)
    (h : (l.insertionSort (fun a b => a.stopOrder ≤ b.stopOrder)).getLast? = some last) :
    last ∈ l ∧ ∀ x ∈ l, x.stopOrder ≤ last.stopOrder := by
  have hs := stops_sorted l
  have hp := List.perm_insertionSort (fun a b : RouteStation => a.stopOrder ≤ b.stopOrder) l
  obtain ⟨init, hl⟩ : ∃ init, l.insertionSort (fun a b => a.stopOrder ≤ b.stopOrder)
      = init ++ [last] := by
    rcases List.eq_nil_or_concat (l.insertionSort (fun a b => a.stopOrder ≤ b.stopOrder))
      with h0 | ⟨init, b, h0⟩
    · rw [h0] at h; simp at h
    · rw [h0] at h
      rw [List.concat_eq_append, List.getLast?_concat] at h
      simp only [Option.some.injEq] at h
      exact ⟨init, by rw [h0, List.concat_eq_append, h]⟩
  rw [hl] at hs hp
  refine ⟨hp.subset (List.mem_append_right _ (List.mem_singleton.mpr rfl)), ?_⟩
  intro x hx
  have hx' : x ∈ init ++ [last] := hp.symm.subset hx
  rcases List.mem_append.mp hx' with h1 | h1
  · exact (List.pairwise_append.mp hs).2.2 x h1 last (List.mem_singleton.mpr rfl)
  · rw [List.mem_singleton.mp h1]

/-- The timestamps of a summary: both empty for a route without stops; else the
departure time of a stop of lowest order and, for more than one stop, the
arrival time of a stop of highest order, on the calendar date of the clock. -/
theorem routeSummary_times (s : Store) (clk : Clock) (route : Route) :
    (Handlers.routeSummary s clk route).routeID = route.id ∧
    ((stopsOf s route.id = [] ∧ (Handlers.routeSummary s clk route).departureTime = "" ∧
        (Handlers.routeSummary s clk route).arrivalTime = "") ∨
      ∃ first ∈ stopsOf s route.id, ∃ last ∈ stopsOf s route.id,
        (∀ x ∈ stopsOf s route.id,
          first.stopOrder ≤ x.stopOrder ∧ x.stopOrder ≤ last.stopOrder) ∧
        (Handlers.routeSummary s clk route).departureTime = stamp clk first.departureTime ∧
        (Handlers.routeSummary s clk route).arrivalTime
          = if 1 < (stopsOf s route.id).length then stamp clk last.arrivalTime else "") := by
  refine ⟨rfl, ?_⟩
  have hp := List.perm_insertionSort (fun a b : RouteStation => a.stopOrder ≤ b.stopOrder)
    (stopsOf s route.id)
  have hlen := hp.length_eq
  cases hl : (stopsOf s route.id).insertionSort (fun a b => a.stopOrder ≤ b.stopOrder) with
  | nil =>
    left
    rw [hl] at hp
    have hnil : stopsOf s route.id = [] := List.Perm.eq_nil hp.symm
    refine ⟨hnil, ?_, ?_⟩
    · unfold Handlers.routeSummary routeRepository.GetStations
      unfold stopsOf at hl
      simp only [hl, List.head?_nil]
    · unfold Handlers.routeSummary routeRepository.GetStations
      unfold stopsOf at hl
      simp only [hl, List.length_nil, List.getLast?_nil]
      simp
  | cons a rest =>
    right
    have hhead : ((stopsOf s route.id).insertionSort
        (fun a b => a.stopOrder ≤ b.stopOrder)).head? = some a := by rw [hl]; rfl
    obtain ⟨b, hlast⟩ : ∃ b, ((stopsOf s route.id).insertionSort
        (fun a b => a.stopOrder ≤ b.stopOrder)).getLast? = some b := by
      rw [hl]
      exact ⟨(a :: rest).getLast (List.cons_ne_nil _ _), List.getLast?_eq_getLast _ _⟩
    obtain ⟨hfm, hfl⟩ := stops_head_lowest _ a hhead
    obtain ⟨hlm, hll⟩ := stops_last_highest _ b hlast
    refine ⟨a, hfm, b, hlm, fun x hx => ⟨hfl x hx, hll x hx⟩, ?_, ?_⟩
    · unfold Handlers.routeSummary routeRepository.GetStations
      unfold stopsOf at hhead
      simp only [hhead]
      unfold stamp
      cases a.departureTime <;> rfl
    · unfold Handlers.routeSummary routeRepository.GetStations
      unfold stopsOf at hlast hlen
      simp only [hlast, hlen]
      unfold stamp stopsOf
      cases b.arrivalTime <;> rfl

/-- C8 (amended): for every route summary `SearchRoutes` returns, whatever the
travel date of the request, `departureTime` is the timestamp formed from the
calendar date of the clock when the request is served and the departure time
of day of the first stop (lowest stop order), empty when that stop has none,
and `arrivalTime` is formed from the same date and the arrival time of day of
the last stop (highest stop order), empty when it has none or the route has a
single stop. -/
theorem C8_times_on_current_date (s : Store) (f : Faults) (clk : Clock)
    (fromCity toCity date : String) (items : List RouteSearchResponse)
    (h : Handlers.SearchRoutes s f clk fromCity toCity date = ⟨200, .routes (some items)⟩) :
    ∀ item ∈ items, ∃ route ∈ s.routes, Connects s route fromCity toCity ∧
      item.routeID = route.id ∧
      ((stopsOf s route.id = [] ∧ item.departureTime = "" ∧ item.arrivalTime = "") ∨
        ∃ first ∈ stopsOf s route.id, ∃ last ∈ stopsOf s route.id,
          (∀ x ∈ stopsOf s route.id,
            first.stopOrder ≤ x.stopOrder ∧ x.stopOrder ≤ last.stopOrder) ∧
          item.departureTime = stamp clk first.departureTime ∧
          item.arrivalTime
            = if 1 < (stopsOf s route.id).length then stamp clk last.arrivalTime else "") := by
  obtain ⟨_, hitems⟩ := SearchRoutes_items h
  intro item hitem
  rw [hitems] at hitem
  obtain ⟨row, hrow, rfl⟩ := List.mem_map.mp hitem
  rw [List.mem_dedup, mem_searchRows] at hrow
  have := routeSummary_times s clk (routeRepository.scanned row)
  rw [scanned_id] at this
  exact ⟨row, hrow.1, hrow.2, this.1, this.2⟩

/-- C8 (amended) at the sample data: Минск (order 1, 08:00) to Брест (order 2,
12:30), searched for 2030-01-01 on 2026-11-04, gives 08:00 and 12:30 on
2026-11-04. -/
theorem C8_times_on_current_date_witness :
    ∃ route ∈ sampleStore.routes, Connects sampleStore route "Минск" "Брест" ∧
      (1 : Int) = route.id ∧
      ((stopsOf sampleStore route.id = [] ∧ "2026-11-04T08:00:00Z" = "" ∧
          "2026-11-04T12:30:00Z" = "") ∨
        ∃ first ∈ stopsOf sampleStore route.id, ∃ last ∈ stopsOf sampleStore route.id,
          (∀ x ∈ stopsOf sampleStore route.id,
            first.stopOrder ≤ x.stopOrder ∧ x.stopOrder ≤ last.stopOrder) ∧
          "2026-11-04T08:00:00Z" = stamp sampleClock first.departureTime ∧
          "2026-11-04T12:30:00Z"
            = if 1 < (stopsOf sampleStore route.id).length then
                stamp sampleClock last.arrivalTime else "") :=
  C8_times_on_current_date sampleStore noFaults sampleClock "Минск" "Брест" "2030-01-01"
    [⟨1, "703Б", "2026-11-04T08:00:00Z", "2026-11-04T12:30:00Z", ⟨2000, 2⟩, 2⟩] (by decide)
    ⟨1, "703Б", "2026-11-04T08:00:00Z", "2026-11-04T12:30:00Z", ⟨2000, 2⟩, 2⟩
    (List.mem_singleton.mpr rfl)

/-- C8 (counterexample): the search for travel date 2030-01-01 served on
2026-11-04 answers the timestamps 2026-11-04T08:00:00Z and
2026-11-04T12:30:00Z, which are not 08:00 and 12:30 on 2030-01-01. -/
theorem C8_times_not_on_travel_date :
    Handlers.SearchRoutes sampleStore noFaults sampleClock "Минск" "Брест" "2030-01-01"
      = ⟨200, .routes (some
          [⟨1, "703Б", "2026-11-04T08:00:00Z", "2026-11-04T12:30:00Z", ⟨2000, 2⟩, 2⟩])⟩ ∧
    formatRFC3339 2030 1 1 ⟨8, 0, 0⟩ = "2030-01-01T08:00:00Z" ∧
    formatRFC3339 2030 1 1 ⟨12, 30, 0⟩ = "2030-01-01T12:30:00Z" ∧
    "2026-11-04T08:00:00Z" ≠ formatRFC3339 2030 1 1 ⟨8, 0, 0⟩ ∧
    "2026-11-04T12:30:00Z" ≠ formatRFC3339 2030 1 1 ⟨12, 30, 0⟩ := by
  refine ⟨by decide, by decide, by decide, by decide, by decide⟩

/-- C9: `DeleteExpiredPending` with threshold T minutes at store time `now`
reports no error and removes a stored order if and only if its status is
`PENDING` and its creation timestamp is earlier than `now` minus T minutes;
the orders that remain are rows of the store as they were, in particular
every `PAID` order and every order created at or after `now` minus T
minutes. -/
theorem C9_expiry_sweep_selection (s : Store) (dbNow maxAgeMinutes : Int) :
    (orderRepository.DeleteExpiredPending s false dbNow maxAgeMinutes).1 = .ok () ∧
    (∀ o ∈ s.orders,
      o ∉ (orderRepository.DeleteExpiredPending s false dbNow maxAgeMinutes).2.orders ↔
        o.status = "PENDING" ∧ o.createdAt < dbNow - 60000000 * maxAgeMinutes) ∧
    (orderRepository.DeleteExpiredPending s false dbNow maxAgeMinutes).2.orders.Sublist
      s.orders ∧
    (∀ o ∈ s.orders, o.status = "PAID" →
      o ∈ (orderRepository.DeleteExpiredPending s false dbNow maxAgeMinutes).2.orders) ∧
    (∀ o ∈ s.orders, dbNow - 60000000 * maxAgeMinutes ≤ o.createdAt →
      o ∈ (orderRepository.DeleteExpiredPending s false dbNow maxAgeMinutes).2.orders) := by
  have hexp : ∀ o : Order, orderRepository.expiredPending dbNow maxAgeMinutes o = true ↔
      o.status = "PENDING" ∧ o.createdAt < dbNow - 60000000 * maxAgeMinutes := by
    intro o
    simp [orderRepository.expiredPending]
  have hsnd : (orderRepository.DeleteExpiredPending s false dbNow maxAgeMinutes).2.orders
      = s.orders.filter (fun o => !orderRepository.expiredPending dbNow maxAgeMinutes o) := rfl
  rw [hsnd]
  refine ⟨rfl, ?_, List.filter_sublist _, ?_, ?_⟩
  · intro o ho
    rw [List.mem_filter, ← hexp o]
    simp [ho]
  · intro o ho hpaid
    rw [List.mem_filter]
    refine ⟨ho, ?_⟩
    have : ¬ orderRepository.expiredPending dbNow maxAgeMinutes o = true := by
      rw [hexp o, hpaid]
      simp
    simpa using this
  · intro o ho hage
    rw [List.mem_filter]
    refine ⟨ho, ?_⟩
    have : ¬ orderRepository.expiredPending dbNow maxAgeMinutes o = true := by
      rw [hexp o]
      omega
    simpa using this

/-! ### C10: ownership -/

/-- The three order handlers by the outcome of the lookup: all answer 404 when
it finds nothing; when it finds an order of another user all answer 403 and
leave the store as it was; when it finds an order none answers 404. -/
theorem order_handlers_on_lookup (s : Store) (f : Faults) (clk : Clock) (userID : Int)
    (idParam : String) (oid : Int) (pay : PaymentRequest)
    (hid : ParseInt idParam = some oid) (hget : f.orderGetByID = false)
    (hpay : bindPayment (some pay) = some pay) :
    (s.orders.find? (fun o => o.id == oid) = none →
      Handlers.GetOrder s f userID idParam = (⟨404, .error "Order not found"⟩, s) ∧
      Handlers.DeleteOrder s f userID idParam = (⟨404, .error "Order not found"⟩, s) ∧
      Handlers.PayOrder s f clk userID idParam (some pay)
        = (⟨404, .error "Order not found"⟩, s)) ∧
    (∀ o, s.orders.find? (fun o => o.id == oid) = some o →
      (o.userID ≠ userID →
        Handlers.GetOrder s f userID idParam = (⟨403, .error "Access denied"⟩, s) ∧
        Handlers.DeleteOrder s f userID idParam = (⟨403, .error "Access denied"⟩, s) ∧
        Handlers.PayOrder s f clk userID idParam (some pay)
          = (⟨403, .error "Access denied"⟩, s)) ∧
      (Handlers.GetOrder s f userID idParam).1.status ≠ 404 ∧
      (Handlers.DeleteOrder s f userID idParam).1.status ≠ 404 ∧
      (Handlers.PayOrder s f clk userID idParam (some pay)).1.status ≠ 404) := by
  constructor
  · intro hnone
    unfold Handlers.GetOrder Handlers.DeleteOrder Handlers.PayOrder orderRepository.GetByID
    rw [hid, hpay, hget]
    simp [hnone]
  · intro o hsome
    constructor
    · intro hother
      unfold Handlers.GetOrder Handlers.DeleteOrder Handlers.PayOrder orderRepository.GetByID
      rw [hid, hpay, hget]
      simp only [Bool.false_eq_true, if_false, hsome]
      simp [hother]
    · unfold Handlers.GetOrder Handlers.DeleteOrder Handlers.PayOrder orderRepository.GetByID
      rw [hid, hpay, hget]
      simp only [Bool.false_eq_true, if_false, hsome]
      refine ⟨?_, ?_, ?_⟩
      · split <;> simp
      · split
        · simp
        · split
          · simp
          · split <;> simp
      · split
        · simp
        · split <;> simp

/-- The three order handlers when the lookup fails: all answer 404 and leave
the store as it was, whatever the store holds. -/
theorem order_handlers_on_failed_lookup (s : Store) (f : Faults) (clk : Clock) (userID : Int)
    (idParam : String) (oid : Int) (pay : PaymentRequest)
    (hid : ParseInt idParam = some oid) (hget : f.orderGetByID = true)
    (hpay : bindPayment (some pay) = some pay) :
    Handlers.GetOrder s f userID idParam = (⟨404, .error "Order not found"⟩, s) ∧
    Handlers.DeleteOrder s f userID idParam = (⟨404, .error "Order not found"⟩, s) ∧
    Handlers.PayOrder s f clk userID idParam (some pay)
      = (⟨404, .error "Order not found"⟩, s) := by
  unfold Handlers.GetOrder Handlers.DeleteOrder Handlers.PayOrder orderRepository.GetByID
  rw [hid, hpay, hget]
  simp

/-- C10 (amended): for a request that parses and binds, `GetOrder`,
`DeleteOrder` and `PayOrder` by a user who does not own the stored order
answer 403 "Access denied" when the lookup of the order does not fail and 404
"Order not found" when it fails, and leave the store as it was in both cases;
each answers 404 exactly when the lookup fails or no order with the id is
stored. -/
theorem C10_ownership (s : Store) (f : Faults) (clk : Clock) (userID : Int)
    (idParam : String) (oid : Int) (pay : PaymentRequest)
    (hkey : OrdersKeyed s) (hid : ParseInt idParam = some oid)
    (hpay : bindPayment (some pay) = some pay) :
    (∀ o ∈ s.orders, o.id = oid → o.userID ≠ userID →
      (f.orderGetByID = false →
        Handlers.GetOrder s f userID idParam = (⟨403, .error "Access denied"⟩, s) ∧
        Handlers.DeleteOrder s f userID idParam = (⟨403, .error "Access denied"⟩, s) ∧
        Handlers.PayOrder s f clk userID idParam (some pay)
          = (⟨403, .error "Access denied"⟩, s)) ∧
      (f.orderGetByID = true →
        Handlers.GetOrder s f userID idParam = (⟨404, .error "Order not found"⟩, s) ∧
        Handlers.DeleteOrder s f userID idParam = (⟨404, .error "Order not found"⟩, s) ∧
        Handlers.PayOrder s f clk userID idParam (some pay)
          = (⟨404, .error "Order not found"⟩, s))) ∧
    ((Handlers.GetOrder s f userID idParam).1.status = 404 ↔
      f.orderGetByID = true ∨ ∀ o ∈ s.orders, o.id ≠ oid) ∧
    ((Handlers.DeleteOrder s f userID idParam).1.status = 404 ↔
      f.orderGetByID = true ∨ ∀ o ∈ s.orders, o.id ≠ oid) ∧
    ((Handlers.PayOrder s f clk userID idParam (some pay)).1.status = 404 ↔
      f.orderGetByID = true ∨ ∀ o ∈ s.orders, o.id ≠ oid) := by
  cases hget : f.orderGetByID with
  | true =>
    obtain ⟨h1, h2, h3⟩ :=
      order_handlers_on_failed_lookup s f clk userID idParam oid pay hid hget hpay
    refine ⟨?_, ?_, ?_, ?_⟩
    · intro o _ _ _
      exact ⟨fun hfalse => by simp at hfalse, fun _ => ⟨h1, h2, h3⟩⟩
    · rw [h1]; exact ⟨fun _ => Or.inl rfl, fun _ => rfl⟩
    · rw [h2]; exact ⟨fun _ => Or.inl rfl, fun _ => rfl⟩
    · rw [h3]; exact ⟨fun _ => Or.inl rfl, fun _ => rfl⟩
  | false =>
    obtain ⟨hnone, hsome⟩ :=
      order_handlers_on_lookup s f clk userID idParam oid pay hid hget hpay
    have hor : ∀ p : Prop, (false = true ∨ p) ↔ p := by
      intro p
      simp
    simp only [hor]
    cases hfind : s.orders.find? (fun o => o.id == oid) with
    | none =>
      have hno : ∀ o ∈ s.orders, o.id ≠ oid := by
        intro o ho
        have := List.find?_eq_none.mp hfind o ho
        simpa using this
      obtain ⟨h1, h2, h3⟩ := hnone hfind
      refine ⟨?_, ?_, ?_, ?_⟩
      · intro o ho hoid
        exact absurd hoid (hno o ho)
      · rw [h1]; exact ⟨fun _ => hno, fun _ => rfl⟩
      · rw [h2]; exact ⟨fun _ => hno, fun _ => rfl⟩
      · rw [h3]; exact ⟨fun _ => hno, fun _ => rfl⟩
    | some x =>
      have hx : x ∈ s.orders := List.mem_of_find?_eq_some hfind
      have hxid : x.id = oid := by simpa using List.find?_some hfind
      obtain ⟨h403, h1, h2, h3⟩ := hsome x hfind
      refine ⟨?_, ?_, ?_, ?_⟩
      · intro o ho hoid hother
        have : x = o := hkey x hx o ho (by rw [hxid, hoid])
        subst this
        exact ⟨fun _ => h403 hother, fun htrue => by simp at htrue⟩
      · exact ⟨fun h => absurd h h1, fun h => absurd hxid (h x hx)⟩
      · exact ⟨fun h => absurd h h2, fun h => absurd hxid (h x hx)⟩
      · exact ⟨fun h => absurd h h3, fun h => absurd hxid (h x hx)⟩

/-- C10 (amended) at the sample data: user 2 asks for order 1 of user 1, and
for the missing order 7. -/
theorem C10_ownership_witness :
    (Handlers.GetOrder heldStore noFaults 2 "1" = (⟨403, .error "Access denied"⟩, heldStore) ∧
      Handlers.DeleteOrder heldStore noFaults 2 "1"
        = (⟨403, .error "Access denied"⟩, heldStore) ∧
      Handlers.PayOrder heldStore noFaults sampleClock 2 "1" (some ⟨"4111", "12/30", "123"⟩)
        = (⟨403, .error "Access denied"⟩, heldStore)) ∧
    (Handlers.GetOrder heldStore noFaults 2 "7").1.status = 404 :=
  ⟨((C10_ownership heldStore noFaults sampleClock 2 "1" 1 ⟨"4111", "12/30", "123"⟩
      (by unfold OrdersKeyed; decide) (by decide) (by decide)).1
      ⟨1, 1, some 1, 1793786400000000, "PENDING", 2000⟩ (by decide) rfl (by decide)).1 rfl,
    (C10_ownership heldStore noFaults sampleClock 2 "7" 7 ⟨"4111", "12/30", "123"⟩
      (by unfold OrdersKeyed; decide) (by decide) (by decide)).2.1.mpr
      (Or.inr (by decide))⟩

/-- C10 (counterexample): order 1 of user 1 is stored, and when the lookup of
the order fails user 2 is answered 404 "Order not found" by all three
handlers, not 403. -/
theorem C10_failed_lookup_not_found :
    (∃ o ∈ heldStore.orders, o.id = 1 ∧ o.userID ≠ 2) ∧
    Handlers.GetOrder heldStore { noFaults with orderGetByID := true } 2 "1"
      = (⟨404, .error "Order not found"⟩, heldStore) ∧
    Handlers.DeleteOrder heldStore { noFaults with orderGetByID := true } 2 "1"
      = (⟨404, .error "Order not found"⟩, heldStore) ∧
    Handlers.PayOrder heldStore { noFaults with orderGetByID := true } sampleClock 2 "1"
      (some ⟨"4111", "12/30", "123"⟩) = (⟨404, .error "Order not found"⟩, heldStore) := by
  decide

/-! ### Lookups and the writes of the order handlers -/

/-- A body that binds is the request itself, with a route, a seat and a price
that are not zero. -/
theorem bindCreateOrder_some {body : Option CreateOrderRequest} {req : CreateOrderRequest}
    (h : bindCreateOrder body = some req) :
    body = some req ∧ req.routeID ≠ 0 ∧ req.seatID ≠ 0 ∧ req.price.digits ≠ 0 := by
  unfold bindCreateOrder at h
  cases body with
  | none => simp at h
  | some r =>
    dsimp only at h
    split at h
    · rename_i hc
      simp only [Option.some.injEq] at h
      subst h
      simp only [Bool.and_eq_true, bne_iff_ne, ne_eq] at hc
      exact ⟨rfl, hc.1.1, hc.1.2, hc.2⟩
    · simp at h

/-- A seat that the lookup finds is stored under the id asked for. -/
theorem seatGetByID_some {s : Store} {fail : Bool} {id : Int} {seat : Seat}
    (h : seatRepository.GetByID s fail id = .ok (some seat)) :
    fail = false ∧ seat ∈ s.seats ∧ seat.id = id := by
  unfold seatRepository.GetByID at h
  cases fail with
  | true => simp at h
  | false =>
    simp only [Bool.false_eq_true, if_false, Except.ok.injEq] at h
    exact ⟨rfl, List.mem_of_find?_eq_some h, by simpa using List.find?_some h⟩

/-- An order that the lookup finds is the first stored row with the id asked for. -/
theorem orderGetByID_some {s : Store} {fail : Bool} {id : Int} {o : Order}
    (h : orderRepository.GetByID s fail id = .ok (some o)) :
    fail = false ∧ o ∈ s.orders ∧ o.id = id ∧ s.orders.find? (fun x => x.id == id) = some o := by
  unfold orderRepository.GetByID at h
  cases fail with
  | true => simp at h
  | false =>
    simp only [Bool.false_eq_true, if_false, Except.ok.injEq] at h
    exact ⟨rfl, List.mem_of_find?_eq_some h, by simpa using List.find?_some h, h⟩

/-- A `CreateOrder` that answers 201 found the seat and the route, had both
inserts accepted, and answers the view of the two rows it wrote, with the
price as the request gave it. -/
theorem CreateOrder_created {s : Store} {f : Faults} {clk : Clock} {userID : Int}
    {body : Option CreateOrderRequest}
    (h : (Handlers.CreateOrder s f clk userID body).1.status = 201) :
    ∃ req seat route, body = some req ∧
      req.routeID ≠ 0 ∧ req.seatID ≠ 0 ∧ req.price.digits ≠ 0 ∧
      seatRepository.GetByID s f.seatGetByID req.seatID = .ok (some seat) ∧
      routeRepository.GetByID s f.routeGetByID req.routeID = .ok (some route) ∧
      f.orderCreate = false ∧
      orderRepository.accepts s (createdOrder s clk userID req) = true ∧
      f.ticketCreate = false ∧
      ticketRepository.accepts
        { s with orderSeq := s.orderSeq + 1
                 orders := s.orders ++ [createdOrder s clk userID req] }
        (createdTicket s f clk userID req) = true ∧
      Handlers.CreateOrder s f clk userID body
        = (⟨201, .order (orderResponse (createdOrder s clk userID req) req.price
            (routeBlock (storeAfterCreate s f clk userID req) route)
            [⟨s.ticketSeq, Handlers.ticketNumber s.orderSeq clk.unix, some seat.number,
              (carriageRepository.GetByID (storeAfterCreate s f clk userID req)
                seat.carriageID).map (fun c => c.number), req.price⟩])⟩,
          storeAfterCreate s f clk userID req) := by
  unfold Handlers.CreateOrder at h ⊢
  cases hb : bindCreateOrder body with
  | none => rw [hb] at h; simp at h
  | some req =>
    rw [hb] at h
    dsimp only at h ⊢
    obtain ⟨hbody, hq1, hq2, hq3⟩ := bindCreateOrder_some hb
    cases hs : seatRepository.GetByID s f.seatGetByID req.seatID with
    | error e => rw [hs] at h; simp at h
    | ok so =>
      cases so with
      | none => rw [hs] at h; simp at h
      | some seat =>
        rw [hs] at h
        dsimp only at h ⊢
        cases hr : routeRepository.GetByID s f.routeGetByID req.routeID with
        | error e => rw [hr] at h; simp at h
        | ok ro =>
          cases ro with
          | none => rw [hr] at h; simp at h
          | some route =>
            rw [hr] at h
            dsimp only at h ⊢
            have hrid := (routeGetByID_some hr).2.1
            rw [hrid] at h ⊢
            rcases orderCreate_eq s f.orderCreate clk.dbNow userID (some req.routeID) "PENDING"
              req.price with ho | ho | ⟨hf3, hacc, ho⟩
            · rw [ho] at h; simp at h
            · rw [ho] at h; simp at h
            · rw [ho] at h ⊢
              dsimp only at h ⊢
              have hrp : Handlers.resolvePassenger
                  { s with
                    orderSeq := s.orderSeq + 1
                    orders := s.orders ++
                      [⟨s.orderSeq, userID, some req.routeID, clk.dbNow, "PENDING", req.price.toHundredths⟩] }
                  f.passengerGetByUserID userID req.passengerID
                  = Handlers.resolvePassenger s f.passengerGetByUserID userID req.passengerID :=
                rfl
              rw [hrp] at h ⊢
              rcases ticketCreate_eq
                { s with
                  orderSeq := s.orderSeq + 1
                  orders := s.orders ++
                    [⟨s.orderSeq, userID, some req.routeID, clk.dbNow, "PENDING", req.price.toHundredths⟩] }
                f.ticketCreate s.orderSeq (some req.seatID)
                (Handlers.resolvePassenger s f.passengerGetByUserID userID req.passengerID)
                (clk.dayNumber + 1) req.price (Handlers.ticketNumber s.orderSeq clk.unix)
                "ACTIVE" with ht | ht | ⟨hf4, hacc2, ht⟩
              · rw [ht] at h; simp at h
              · rw [ht] at h; simp at h
              · rw [ht]
                exact ⟨req, seat, route, hbody, hq1, hq2, hq3, hs, hr, hf3, hacc, hf4, hacc2,
                  rfl⟩

/-- `DeleteOrder` leaves the store as it was, or answers 204 after removing a
`PENDING` order of the caller together with its tickets. -/
theorem DeleteOrder_cases (s : Store) (f : Faults) (userID : Int) (idParam : String) :
    (Handlers.DeleteOrder s f userID idParam).2 = s ∨
    ∃ order, ParseInt idParam = some order.id ∧ order ∈ s.orders ∧
      order.userID = userID ∧ order.status = "PENDING" ∧
      Handlers.DeleteOrder s f userID idParam
        = (⟨204, .empty⟩,
          { s with
            orders := s.orders.filter (fun x => x.id != order.id)
            tickets := s.tickets.filter (fun t => t.orderID != order.id) }) := by
  unfold Handlers.DeleteOrder
  cases hp : ParseInt idParam with
  | none => exact Or.inl rfl
  | some oid =>
    dsimp only
    cases hg : orderRepository.GetByID s f.orderGetByID oid with
    | error e => exact Or.inl rfl
    | ok found =>
      cases found with
      | none => exact Or.inl rfl
      | some order =>
        dsimp only
        obtain ⟨_, hmem, hoid, _⟩ := orderGetByID_some hg
        by_cases h1 : (order.userID != userID) = true
        · rw [if_pos h1]; exact Or.inl rfl
        · rw [if_neg h1]
          by_cases h2 : (order.status != "PENDING") = true
          · rw [if_pos h2]; exact Or.inl rfl
          · rw [if_neg h2]
            unfold orderRepository.Delete
            cases hd : f.orderDelete with
            | true => exact Or.inl rfl
            | false =>
              right
              refine ⟨order, by rw [hoid], hmem, by simpa using h1, by simpa using h2, ?_⟩
              simp only [Bool.false_eq_true, if_false]
              rw [hoid]

/-- `PayOrder` leaves the store as it was, or answers 200 after marking an order
of the caller `PAID`. -/
theorem PayOrder_cases (s : Store) (f : Faults) (clk : Clock) (userID : Int)
    (idParam : String) (body : Option PaymentRequest) :
    (Handlers.PayOrder s f clk userID idParam body).2 = s ∨
    ∃ order, ParseInt idParam = some order.id ∧ order ∈ s.orders ∧
      s.orders.find? (fun x => x.id == order.id) = some order ∧
      order.userID = userID ∧
      Handlers.PayOrder s f clk userID idParam body
        = (⟨200, .payment ⟨"PAID",
            "TXN-" ++ toString order.id ++ "-" ++ toString clk.unix⟩⟩,
          storeAfterPay s order) := by
  unfold Handlers.PayOrder
  cases hp : ParseInt idParam with
  | none => exact Or.inl rfl
  | some oid =>
    dsimp only
    cases hb : bindPayment body with
    | none => exact Or.inl rfl
    | some req =>
      dsimp only
      cases hg : orderRepository.GetByID s f.orderGetByID oid with
      | error e => exact Or.inl rfl
      | ok found =>
        cases found with
        | none => exact Or.inl rfl
        | some order =>
          dsimp only
          obtain ⟨_, hmem, hoid, hfind⟩ := orderGetByID_some hg
          by_cases h1 : (order.userID != userID) = true
          · rw [if_pos h1]; exact Or.inl rfl
          · rw [if_neg h1]
            unfold orderRepository.Update
            cases hd : f.orderUpdate with
            | true => exact Or.inl rfl
            | false =>
              simp only [Bool.false_eq_true, if_false]
              by_cases hfit : (varchar50 "PAID" && decimalFits order.totalAmount) = true
              · rw [if_pos hfit]
                right
                subst hoid
                exact ⟨order, rfl, hmem, hfind, by simpa using h1, rfl⟩
              · rw [if_neg hfit]
                exact Or.inl rfl

/-- With the primary key of `orders`, paying replaces the one row of the order
by the same row with status `PAID`. -/
theorem storeAfterPay_keyed {s : Store} {o : Order} (hkey : OrdersKeyed s) (hmem : o ∈ s.orders) :
    storeAfterPay s o
      = { s with orders := s.orders.map (fun x =>
          if x = o then { o with status := "PAID" } else x) } := by
  unfold storeAfterPay
  congr 1
  apply List.map_congr_left
  intro x hx
  by_cases hxo : x = o
  · subst hxo
    simp
  · have hid : x.id ≠ o.id := fun h => hxo (hkey x hx o hmem h)
    simp [hxo, hid]

/-! ### C11: cancellation only while `PENDING` -/

/-- C11: for a stored order O, `DeleteOrder` by its owner is answered with 400
"Only unpaid orders can be deleted" and leaves the store as it was whenever
the status of O is not `PENDING` (`PAID`, `CANCELLED` or any other), and O is
missing from the store after `DeleteOrder` only if the call named O, the
caller owns O and O was `PENDING`. -/
theorem C11_cancel_only_pending (s : Store) (f : Faults) (userID : Int) (idParam : String)
    (o : Order) (hkey : OrdersKeyed s) (hmem : o ∈ s.orders) :
    (ParseInt idParam = some o.id → f.orderGetByID = false → o.userID = userID →
      o.status ≠ "PENDING" →
      Handlers.DeleteOrder s f userID idParam
        = (⟨400, .error "Only unpaid orders can be deleted"⟩, s)) ∧
    (o ∉ (Handlers.DeleteOrder s f userID idParam).2.orders →
      ParseInt idParam = some o.id ∧ o.userID = userID ∧ o.status = "PENDING") := by
  constructor
  · intro hid hget hown hst
    unfold Handlers.DeleteOrder
    rw [hid]
    dsimp only
    rw [hget, orderGetByID_of_mem hkey hmem]
    dsimp only
    simp [hown, hst]
  · intro hgone
    rcases DeleteOrder_cases s f userID idParam with h | ⟨order, hid, hom, hown, hpend, h⟩
    · rw [h] at hgone
      exact absurd hmem hgone
    · rw [h] at hgone
      have hoid : o.id = order.id := by
        by_contra hne
        exact hgone (List.mem_filter.mpr ⟨hmem, by simpa using hne⟩)
      have : o = order := hkey o hmem order hom hoid
      subst this
      exact ⟨hid, hown, hpend⟩

/-- C11 at the sample data: user 1 asks to delete the paid order 1. -/
theorem C11_cancel_only_pending_witness :
    Handlers.DeleteOrder paidStore noFaults 1 "1"
      = (⟨400, .error "Only unpaid orders can be deleted"⟩, paidStore) :=
  (C11_cancel_only_pending paidStore noFaults 1 "1"
    ⟨1, 1, some 1, 1793786400000000, "PAID", 2000⟩ (by unfold OrdersKeyed; decide)
    (by decide)).1 (by decide) rfl rfl (by decide)

/-! ### C12: the status changes of an order -/

/-- C12 (counterexample): `PayOrder` by the owner of the `CANCELLED` order 1
answers 200 and leaves the order `PAID`. -/
theorem C12_cancelled_becomes_paid :
    Handlers.PayOrder cancelledStore noFaults sampleClock 1 "1" (some ⟨"4111", "12/30", "123"⟩)
      = (⟨200, .payment ⟨"PAID", "TXN-1-1793786400"⟩⟩, paidStore) ∧
    cancelledStore.orders = [⟨1, 1, some 1, 1793786400000000, "CANCELLED", 2000⟩] ∧
    paidStore.orders = [⟨1, 1, some 1, 1793786400000000, "PAID", 2000⟩] := by
  refine ⟨by decide, by decide, by decide⟩

/-- C12 (amended): after any call a stored order O is still there as it was, or
it is gone, which happens only to a `PENDING` order through `DeleteOrder` by
its owner or the expiry sweep, or it is there with status `PAID` and
otherwise as it was, which happens only through `PayOrder` by its owner,
whatever the status was; an order whose status is `PAID` is never changed. -/
theorem C12_status_changes (s : Store) (c : Call) (o : Order) (hkey : OrdersKeyed s)
    (hmem : o ∈ s.orders) :
    (o ∈ (step s c).orders ∨
      (o.status = "PENDING" ∧ (∀ x ∈ (step s c).orders, x.id ≠ o.id) ∧
        ((∃ f idParam, c = .deleteOrder f o.userID idParam) ∨
          ∃ f clk maxAgeMinutes, c = .deleteExpiredPending f clk maxAgeMinutes)) ∨
      ({ o with status := "PAID" } ∈ (step s c).orders ∧
        ∃ f clk idParam body, c = .payOrder f clk o.userID idParam body)) ∧
    (o.status = "PAID" → o ∈ (step s c).orders) := by
  have main : o ∈ (step s c).orders ∨
      (o.status = "PENDING" ∧ (∀ x ∈ (step s c).orders, x.id ≠ o.id) ∧
        ((∃ f idParam, c = .deleteOrder f o.userID idParam) ∨
          ∃ f clk maxAgeMinutes, c = .deleteExpiredPending f clk maxAgeMinutes)) ∨
      ({ o with status := "PAID" } ∈ (step s c).orders ∧
        ∃ f clk idParam body, c = .payOrder f clk o.userID idParam body) := by
    cases c with
    | createOrder f clk userID body =>
      left
      show o ∈ (Handlers.CreateOrder s f clk userID body).2.orders
      rcases CreateOrder_outcome s f clk userID body with
        ⟨m, h⟩ | ⟨s1, h, h1, _⟩ | ⟨req, route, s2, _, _, _, h, h1, _⟩ |
        ⟨req, seat, route, _, _, _, _, _, view, h⟩
      · rw [h]; exact hmem
      · rw [h]; show o ∈ s1.orders; rw [h1]; exact hmem
      · rw [h]; show o ∈ s2.orders; rw [h1]; exact List.mem_append_left _ hmem
      · rw [h]; exact List.mem_append_left _ hmem
    | deleteOrder f userID idParam =>
      show o ∈ (Handlers.DeleteOrder s f userID idParam).2.orders ∨ _
      rcases DeleteOrder_cases s f userID idParam with h | ⟨order, hid, hom, hown, hpend, h⟩
      · left; rw [h]; exact hmem
      · by_cases hoid : o.id = order.id
        · right; left
          have : o = order := hkey o hmem order hom hoid
          subst this
          refine ⟨hpend, ?_, Or.inl ⟨f, idParam, by rw [hown]⟩⟩
          show ∀ x ∈ (Handlers.DeleteOrder s f userID idParam).2.orders, x.id ≠ o.id
          rw [h]
          intro x hx
          simpa using (List.mem_filter.mp hx).2
        · left
          rw [h]
          exact List.mem_filter.mpr ⟨hmem, by simpa using hoid⟩
    | payOrder f clk userID idParam body =>
      show o ∈ (Handlers.PayOrder s f clk userID idParam body).2.orders ∨ _
      rcases PayOrder_cases s f clk userID idParam body with
        h | ⟨order, hid, hom, _, hown, h⟩
      · left; rw [h]; exact hmem
      · by_cases hoo : o = order
        · right; right
          subst hoo
          refine ⟨?_, f, clk, idParam, body, by rw [hown]⟩
          show _ ∈ (Handlers.PayOrder s f clk userID idParam body).2.orders
          rw [h, storeAfterPay_keyed hkey hom]
          exact List.mem_map.mpr ⟨o, hmem, by simp⟩
        · left
          rw [h, storeAfterPay_keyed hkey hom]
          exact List.mem_map.mpr ⟨o, hmem, by simp [hoo]⟩
    | deleteExpiredPending f clk maxAgeMinutes =>
      cases hf : f.orderDeleteExpiredPending with
      | true =>
        left
        show o ∈ (orderRepository.DeleteExpiredPending s f.orderDeleteExpiredPending clk.dbNow
          maxAgeMinutes).2.orders
        rw [hf]
        exact hmem
      | false =>
        have hst : (step s (.deleteExpiredPending f clk maxAgeMinutes)).orders
            = s.orders.filter
              (fun x => !orderRepository.expiredPending clk.dbNow maxAgeMinutes x) := by
          show (orderRepository.DeleteExpiredPending s f.orderDeleteExpiredPending clk.dbNow
            maxAgeMinutes).2.orders = _
          rw [hf]
          rfl
        rw [hst]
        by_cases hexp : orderRepository.expiredPending clk.dbNow maxAgeMinutes o = true
        · right; left
          have hp : o.status = "PENDING" := by
            unfold orderRepository.expiredPending at hexp
            simp only [Bool.and_eq_true, beq_iff_eq] at hexp
            exact hexp.1
          refine ⟨hp, ?_, Or.inr ⟨_, _, _, rfl⟩⟩
          intro x hx hxo
          obtain ⟨hxm, hxe⟩ := List.mem_filter.mp hx
          have : x = o := hkey x hxm o hmem hxo
          subst this
          simp [hexp] at hxe
        · left
          exact List.mem_filter.mpr ⟨hmem, by simpa using hexp⟩
  refine ⟨main, ?_⟩
  intro hpaid
  rcases main with h | ⟨hp, _⟩ | ⟨h, _⟩
  · exact h
  · rw [hpaid] at hp
    exact absurd hp (by decide)
  · have : ({ o with status := "PAID" } : Order) = o := by
      cases o
      simp only [Order.mk.injEq, true_and]
      simp at hpaid
      simp [hpaid]
    rw [this] at h
    exact h

/-- C12 (amended) at the sample data: paying the paid order 1 again leaves its
row as it was. -/
theorem C12_status_changes_witness :
    ({ id := 1, userID := 1, routeID := some 1, createdAt := 1793786400000000,
        status := "PAID", totalAmount := 2000 } : Order) ∈
      (step paidStore (.payOrder noFaults sampleClock 1 "1"
        (some ⟨"4111", "12/30", "123"⟩))).orders :=
  (C12_status_changes paidStore
    (.payOrder noFaults sampleClock 1 "1" (some ⟨"4111", "12/30", "123"⟩))
    ⟨1, 1, some 1, 1793786400000000, "PAID", 2000⟩ (by unfold OrdersKeyed; decide)
    (by decide)).2 rfl

/-! ### C13: payment -/

/-- C13: for a stored order O (in particular a `PENDING` one) whose stored total
is a value of its column, `PayOrder` by the owner with a request that binds,
when the lookup and the update do not fail, answers 200 and leaves the store
as it was except that the row of O has status `PAID`: owner, route, creation
timestamp and total of O, every other order and every ticket are unchanged. -/
theorem C13_pay_sets_paid (s : Store) (f : Faults) (clk : Clock) (userID : Int)
    (idParam : String) (o : Order) (pay : PaymentRequest)
    (hkey : OrdersKeyed s) (hmem : o ∈ s.orders) (hid : ParseInt idParam = some o.id)
    (hown : o.userID = userID) (hpay : bindPayment (some pay) = some pay)
    (hget : f.orderGetByID = false) (hupd : f.orderUpdate = false)
    (hfit : decimalFits o.totalAmount = true) :
    Handlers.PayOrder s f clk userID idParam (some pay)
      = (⟨200, .payment ⟨"PAID", "TXN-" ++ toString o.id ++ "-" ++ toString clk.unix⟩⟩,
        { s with orders := s.orders.map (fun x =>
            if x = o then { o with status := "PAID" } else x) }) ∧
    ({ o with status := "PAID" } : Order) ∈
      (Handlers.PayOrder s f clk userID idParam (some pay)).2.orders ∧
    (∀ x ∈ s.orders, x ≠ o →
      x ∈ (Handlers.PayOrder s f clk userID idParam (some pay)).2.orders) ∧
    (Handlers.PayOrder s f clk userID idParam (some pay)).2.tickets = s.tickets := by
  have heq : Handlers.PayOrder s f clk userID idParam (some pay)
      = (⟨200, .payment ⟨"PAID", "TXN-" ++ toString o.id ++ "-" ++ toString clk.unix⟩⟩,
        storeAfterPay s o) := by
    unfold Handlers.PayOrder
    rw [hid]
    dsimp only
    rw [hpay]
    dsimp only
    rw [hget, orderGetByID_of_mem hkey hmem]
    dsimp only
    have hv : varchar50 "PAID" = true := by decide
    simp only [hown, bne_self_eq_false, Bool.false_eq_true, if_false,
      orderRepository.Update, hupd, hv, hfit, Bool.and_self, if_true]
    rfl
  rw [heq, storeAfterPay_keyed hkey hmem]
  refine ⟨rfl, ?_, ?_, rfl⟩
  · exact List.mem_map.mpr ⟨o, hmem, by simp⟩
  · intro x hx hne
    exact List.mem_map.mpr ⟨x, hx, by simp [hne]⟩

/-- C13 at the sample data: user 1 pays the pending order 1. -/
theorem C13_pay_sets_paid_witness :
    Handlers.PayOrder heldStore noFaults sampleClock 1 "1" (some ⟨"4111", "12/30", "123"⟩)
      = (⟨200, .payment ⟨"PAID", "TXN-1-1793786400"⟩⟩, paidStore) :=
  (C13_pay_sets_paid heldStore noFaults sampleClock 1 "1"
    ⟨1, 1, some 1, 1793786400000000, "PENDING", 2000⟩ ⟨"4111", "12/30", "123"⟩
    (by unfold OrdersKeyed; decide) (by decide) (by decide) rfl (by decide) rfl rfl
    (by decide)).1.trans (by decide)

/-! ### C14: paying a paid order -/

/-- C14: for a stored order whose status is `PAID`, `PayOrder` with its id,
whoever calls, whatever the body and whichever statement fails, leaves the
store exactly as it was. -/
theorem C14_pay_paid_keeps_store (s : Store) (f : Faults) (clk : Clock) (userID : Int)
    (idParam : String) (body : Option PaymentRequest) (o : Order)
    (hkey : OrdersKeyed s) (hmem : o ∈ s.orders) (hid : ParseInt idParam = some o.id)
    (hpaid : o.status = "PAID") :
    (Handlers.PayOrder s f clk userID idParam body).2 = s := by
  rcases PayOrder_cases s f clk userID idParam body with h | ⟨order, hid2, hom, _, _, h⟩
  · exact h
  · rw [hid] at hid2
    simp only [Option.some.injEq] at hid2
    have : o = order := hkey o hmem order hom hid2
    subst this
    rw [h, storeAfterPay_keyed hkey hmem]
    have hsame : ({ o with status := "PAID" } : Order) = o := by
      cases o
      simp only [Order.mk.injEq, true_and]
      simp at hpaid
      simp [hpaid]
    rw [hsame]
    have hmap : s.orders.map (fun x => if x = o then o else x) = s.orders := by
      conv_rhs => rw [← List.map_id s.orders]
      apply List.map_congr_left
      intro x _
      by_cases hx : x = o
      · simp [hx]
      · simp [hx]
    rw [hmap]

/-- C14 at the sample data: user 1 pays the paid order 1 again. -/
theorem C14_pay_paid_keeps_store_witness :
    (Handlers.PayOrder paidStore noFaults sampleClock 1 "1"
      (some ⟨"4111", "12/30", "123"⟩)).2 = paidStore :=
  C14_pay_paid_keeps_store paidStore noFaults sampleClock 1 "1"
    (some ⟨"4111", "12/30", "123"⟩) ⟨1, 1, some 1, 1793786400000000, "PAID", 2000⟩
    (by unfold OrdersKeyed; decide) (by decide) (by decide) rfl

/-! ### C15: the availability oracle -/

/-- C15: `IsAvailable` answers true if and only if no stored ticket has the
seat, the departure date and status `ACTIVE`; a further ticket with another
status, another date or another seat, wherever it is stored, does not change
the answer. -/
theorem C15_IsAvailable_iff (s : Store) (seatID date : Int) :
    ∃ answer, seatRepository.IsAvailable s false seatID date = .ok answer ∧
      (answer = true ↔
        ∀ t ∈ s.tickets,
          ¬ (t.seatID = some seatID ∧ t.departureDate = date ∧ t.status = "ACTIVE")) ∧
      ∀ (t : Ticket) (before after : List Ticket),
        s.tickets = before ++ after →
        (t.status ≠ "ACTIVE" ∨ t.departureDate ≠ date ∨ t.seatID ≠ some seatID) →
        seatRepository.IsAvailable { s with tickets := before ++ t :: after } false seatID date
          = .ok answer := by
  refine ⟨_, rfl, ?_, ?_⟩
  · simp only [beq_iff_eq, List.length_eq_zero, List.filter_eq_nil_iff, Bool.and_eq_true,
      not_and]
    constructor
    · intro h t ht h1 h2
      exact fun h3 => h t ht ⟨h1, h2⟩ h3
    · intro h t ht h12
      exact h t ht h12.1 h12.2
  · intro t before after hsplit hother
    unfold seatRepository.IsAvailable
    simp only [Bool.false_eq_true, if_false, Except.ok.injEq]
    rw [hsplit]
    simp only [List.filter_append, List.filter_cons]
    have hnot : (t.seatID == some seatID && t.departureDate == date && t.status == "ACTIVE")
        = false := by
      rcases hother with h | h | h
      · simp [h]
      · simp [h]
      · simp [h]
    rw [hnot]
    simp

/-! ### C16: a seat or a route that does not exist -/

/-- C16: a `CreateOrder` whose request binds and names a seat id or a route id
that is not stored answers 400 ("Seat not found" or "Route not found") and
leaves the store as it was: no order row and no ticket row is added. -/
theorem C16_missing_seat_or_route (s : Store) (f : Faults) (clk : Clock) (userID : Int)
    (body : Option CreateOrderRequest) (req : CreateOrderRequest)
    (hbind : bindCreateOrder body = some req)
    (hmiss : (∀ x ∈ s.seats, x.id ≠ req.seatID) ∨ (∀ r ∈ s.routes, r.id ≠ req.routeID)) :
    (Handlers.CreateOrder s f clk userID body = (⟨400, .error "Seat not found"⟩, s) ∨
      Handlers.CreateOrder s f clk userID body = (⟨400, .error "Route not found"⟩, s)) ∧
    (Handlers.CreateOrder s f clk userID body).2.orders = s.orders ∧
    (Handlers.CreateOrder s f clk userID body).2.tickets = s.tickets := by
  have key : Handlers.CreateOrder s f clk userID body = (⟨400, .error "Seat not found"⟩, s) ∨
      Handlers.CreateOrder s f clk userID body = (⟨400, .error "Route not found"⟩, s) := by
    unfold Handlers.CreateOrder
    rw [hbind]
    dsimp only
    cases hs : seatRepository.GetByID s f.seatGetByID req.seatID with
    | error e => exact Or.inl rfl
    | ok so =>
      cases so with
      | none => exact Or.inl rfl
      | some seat =>
        dsimp only
        cases hr : routeRepository.GetByID s f.routeGetByID req.routeID with
        | error e => exact Or.inr rfl
        | ok ro =>
          cases ro with
          | none => exact Or.inr rfl
          | some route =>
            exfalso
            obtain ⟨_, hsm, hsid⟩ := seatGetByID_some hs
            obtain ⟨_, _, row, hrm, hrid, _, _⟩ := routeGetByID_some hr
            rcases hmiss with h | h
            · exact h seat hsm hsid
            · exact h row hrm hrid
  refine ⟨key, ?_, ?_⟩ <;> rcases key with h | h <;> rw [h]

/-- C16 at the sample data: a request for the missing seat 99. -/
theorem C16_missing_seat_or_route_witness :
    (Handlers.CreateOrder sampleStore noFaults sampleClock 1 (some ⟨1, 99, ⟨2000, 2⟩, none⟩)
        = (⟨400, .error "Seat not found"⟩, sampleStore) ∨
      Handlers.CreateOrder sampleStore noFaults sampleClock 1 (some ⟨1, 99, ⟨2000, 2⟩, none⟩)
        = (⟨400, .error "Route not found"⟩, sampleStore)) ∧
    (Handlers.CreateOrder sampleStore noFaults sampleClock 1
      (some ⟨1, 99, ⟨2000, 2⟩, none⟩)).2.orders = sampleStore.orders ∧
    (Handlers.CreateOrder sampleStore noFaults sampleClock 1
      (some ⟨1, 99, ⟨2000, 2⟩, none⟩)).2.tickets = sampleStore.tickets :=
  C16_missing_seat_or_route sampleStore noFaults sampleClock 1 (some ⟨1, 99, ⟨2000, 2⟩, none⟩)
    ⟨1, 99, ⟨2000, 2⟩, none⟩ (by decide) (Or.inl (by decide))

/-! ### C17: the rows of a successful `CreateOrder` -/

/-- An amount with at most two decimals is kept by a `DECIMAL(10, 2)` column
as it is. -/
theorem toHundredths_of_same {x : Float64} {h : Int}
    (hs : Float64.same x (Float64.ofHundredths h)) : x.toHundredths = h := by
  unfold Float64.same Float64.ofHundredths at hs
  simp only at hs
  unfold Float64.toHundredths
  have hd : 0 < 10 ^ x.scale := by positivity
  have hdi : (0 : Int) < 10 ^ x.scale := by positivity
  have habs : x.digits.natAbs * 100 = h.natAbs * 10 ^ x.scale := by
    have := congrArg Int.natAbs hs
    rw [Int.natAbs_mul, Int.natAbs_mul, Int.natAbs_pow, Int.natAbs_pow] at this
    simpa using this
  have hq : (2 * (x.digits.natAbs * 100) + 10 ^ x.scale) / (2 * 10 ^ x.scale) = h.natAbs := by
    rw [habs]
    have : 2 * (h.natAbs * 10 ^ x.scale) + 10 ^ x.scale = (2 * h.natAbs + 1) * 10 ^ x.scale := by
      ring
    rw [this, Nat.mul_div_mul_right _ _ hd]
    omega
  simp only [hq]
  by_cases hneg : x.digits < 0
  · have hh : h < 0 := by
      by_contra hge
      push_neg at hge
      have h1 : x.digits * 10 ^ 2 < 0 := by nlinarith
      have h2 : 0 ≤ h * 10 ^ x.scale := mul_nonneg hge hdi.le
      omega
    simp only [hneg, if_true]
    omega
  · have hh : 0 ≤ h := by
      by_contra hlt
      push_neg at hlt
      push_neg at hneg
      have h1 : 0 ≤ x.digits * 10 ^ 2 := by nlinarith
      have h2 : h * 10 ^ x.scale < 0 := mul_neg_of_neg_of_pos hlt hdi
      omega
    simp only [hneg, if_false]
    omega

/-- A value read from a `DECIMAL(10, 2)` column is written back as it is. -/
theorem toHundredths_ofHundredths (h : Int) : (Float64.ofHundredths h).toHundredths = h :=
  toHundredths_of_same rfl

/-- C17 (amended): after a `CreateOrder` that answers 201 the store is the
store before with one order and one ticket appended (and the two id sequences
moved on); the order has the caller as owner, the route of the request,
status `PENDING` and as total the price rounded to two decimals; the ticket
references the order and the seat, has the price rounded to two decimals and
status `ACTIVE`; the view answered carries the id of the order, status
`PENDING`, the price as sent as total and one entry, for that ticket, with
the price as sent; and when the price has at most two decimals the total of
the order and the price of the ticket are the price. -/
theorem C17_created_rows (s : Store) (f : Faults) (clk : Clock) (userID : Int)
    (req : CreateOrderRequest)
    (h : (Handlers.CreateOrder s f clk userID (some req)).1.status = 201) :
    ∃ order ticket view entry,
      (Handlers.CreateOrder s f clk userID (some req)).2
        = { s with
            orderSeq := s.orderSeq + 1
            ticketSeq := s.ticketSeq + 1
            orders := s.orders ++ [order]
            tickets := s.tickets ++ [ticket] } ∧
      order.userID = userID ∧ order.routeID = some req.routeID ∧ order.status = "PENDING" ∧
      order.totalAmount = req.price.toHundredths ∧
      ticket.orderID = order.id ∧ ticket.seatID = some req.seatID ∧
      ticket.price = req.price.toHundredths ∧
      ticket.status = "ACTIVE" ∧
      (Handlers.CreateOrder s f clk userID (some req)).1 = ⟨201, .order view⟩ ∧
      view.id = order.id ∧ view.userID = userID ∧ view.status = "PENDING" ∧
      view.totalAmount = req.price ∧
      view.tickets = [entry] ∧ entry.id = ticket.id ∧
      entry.ticketNumber = ticket.ticketNumber ∧ entry.price = req.price ∧
      (∀ hundredths : Int, Float64.same req.price (Float64.ofHundredths hundredths) →
        order.totalAmount = hundredths ∧ ticket.price = hundredths) := by
  obtain ⟨req', seat, route, hbody, _, _, _, _, _, _, _, _, _, heq⟩ := CreateOrder_created h
  simp only [Option.some.injEq] at hbody
  subst hbody
  rw [heq]
  exact ⟨createdOrder s clk userID req, createdTicket s f clk userID req, _, _, rfl, rfl, rfl,
    rfl, rfl, rfl, rfl, rfl, rfl, rfl, rfl, rfl, rfl, rfl, rfl, rfl, rfl, rfl,
    fun _ hs => ⟨toHundredths_of_same hs, toHundredths_of_same hs⟩⟩

/-- C17 (amended) at the sample data: user 1 reserves seat 1 on route 1 for
20.00. -/
theorem C17_created_rows_witness :
    ∃ order ticket view entry,
      (Handlers.CreateOrder sampleStore noFaults sampleClock 1
        (some ⟨1, 1, ⟨2000, 2⟩, none⟩)).2
        = { sampleStore with
            orderSeq := sampleStore.orderSeq + 1
            ticketSeq := sampleStore.ticketSeq + 1
            orders := sampleStore.orders ++ [order]
            tickets := sampleStore.tickets ++ [ticket] } ∧
      order.userID = 1 ∧ order.routeID = some 1 ∧ order.status = "PENDING" ∧
      order.totalAmount = 2000 ∧
      ticket.orderID = order.id ∧ ticket.seatID = some 1 ∧
      ticket.price = 2000 ∧
      ticket.status = "ACTIVE" ∧
      (Handlers.CreateOrder sampleStore noFaults sampleClock 1
        (some ⟨1, 1, ⟨2000, 2⟩, none⟩)).1 = ⟨201, .order view⟩ ∧
      view.id = order.id ∧ view.userID = 1 ∧ view.status = "PENDING" ∧
      view.totalAmount = ⟨2000, 2⟩ ∧
      view.tickets = [entry] ∧ entry.id = ticket.id ∧
      entry.ticketNumber = ticket.ticketNumber ∧ entry.price = ⟨2000, 2⟩ ∧
      (∀ hundredths : Int, Float64.same ⟨2000, 2⟩ (Float64.ofHundredths hundredths) →
        order.totalAmount = hundredths ∧ ticket.price = hundredths) :=
  C17_created_rows sampleStore noFaults sampleClock 1 ⟨1, 1, ⟨2000, 2⟩, none⟩ (by decide)

/-- C17 (counterexample): a reservation for the price 19.999 answers 201; the
order and the ticket written hold 20.00, which is not the price, and the view
answered shows 19.999. -/
theorem C17_price_rounded :
    (Handlers.CreateOrder sampleStore noFaults sampleClock 1
      (some ⟨1, 1, ⟨19999, 3⟩, none⟩)).1.status = 201 ∧
    (Handlers.CreateOrder sampleStore noFaults sampleClock 1
      (some ⟨1, 1, ⟨19999, 3⟩, none⟩)).2.orders
      = [⟨1, 1, some 1, 1793786400000000, "PENDING", 2000⟩] ∧
    (Handlers.CreateOrder sampleStore noFaults sampleClock 1
      (some ⟨1, 1, ⟨19999, 3⟩, none⟩)).2.tickets
      = [⟨1, 1, some 1, some 1, 20762, 2000, "TK-1-1793786400", "ACTIVE"⟩] ∧
    ¬ Float64.same ⟨19999, 3⟩ (Float64.ofHundredths 2000) ∧
    (∃ view, (Handlers.CreateOrder sampleStore noFaults sampleClock 1
      (some ⟨1, 1, ⟨19999, 3⟩, none⟩)).1.body = .order view ∧
      view.totalAmount = ⟨19999, 3⟩ ∧
      view.tickets.map (fun e => e.price) = [⟨19999, 3⟩]) := by
  exact ⟨by decide, by decide, by decide, by decide, _, rfl, by decide, by decide⟩

/-! ### C18: ticket numbers -/

/-- The digit character of `k` below ten denotes `k`. -/
theorem digitChar_value : ∀ k, k < 10 → (Nat.digitChar k).toNat - 48 = k := by decide

/-- No digit character is the minus sign. -/
theorem digitChar_ne_dash : ∀ k, k < 10 → Nat.digitChar k ≠ '-' := by decide

/-- With enough fuel, the digits printed for `n` before `ds` denote `n`
followed by `ds`. -/
theorem toDigitsCore_value (fuel : Nat) : ∀ (n : Nat) (ds : List Char), n < fuel →
    digitsValue (Nat.toDigitsCore 10 fuel n ds) 0 = digitsValue ds n := by
  induction fuel with
  | zero => intro n ds h; omega
  | succ fuel ih =>
    intro n ds h
    unfold Nat.toDigitsCore
    simp only
    have hd := digitChar_value (n % 10) (Nat.mod_lt _ (by decide))
    split
    · rename_i h0
      simp only [digitsValue, List.foldl_cons, hd]
      have : n % 10 = n := by omega
      simp [this]
    · rename_i h0
      rw [ih (n / 10) _ (by omega)]
      simp only [digitsValue, List.foldl_cons, hd]
      have : 10 * (n / 10) + n % 10 = n := by omega
      rw [this]

/-- The characters printed are those already there or not the minus sign. -/
theorem toDigitsCore_chars (fuel : Nat) : ∀ (n : Nat) (ds : List Char),
    ∀ c ∈ Nat.toDigitsCore 10 fuel n ds, c ∈ ds ∨ c ≠ '-' := by
  induction fuel with
  | zero => intro n ds c hc; exact Or.inl hc
  | succ fuel ih =>
    intro n ds c hc
    unfold Nat.toDigitsCore at hc
    simp only at hc
    have hd := digitChar_ne_dash (n % 10) (Nat.mod_lt _ (by decide))
    split at hc
    · rcases List.mem_cons.mp hc with h | h
      · exact Or.inr (h ▸ hd)
      · exact Or.inl h
    · rcases ih _ _ c hc with h | h
      · rcases List.mem_cons.mp h with h | h
        · exact Or.inr (h ▸ hd)
        · exact Or.inl h
      · exact Or.inr h

/-- With fuel, something is printed. -/
theorem toDigitsCore_ne_nil (fuel : Nat) : ∀ (n : Nat) (ds : List Char),
    Nat.toDigitsCore 10 (fuel + 1) n ds ≠ [] := by
  induction fuel with
  | zero =>
    intro n ds
    unfold Nat.toDigitsCore
    simp only
    split
    · simp
    · unfold Nat.toDigitsCore; simp
  | succ fuel ih =>
    intro n ds
    unfold Nat.toDigitsCore
    simp only
    split
    · simp
    · exact ih _ _

/-- The decimal digits of `n` denote `n`. -/
theorem toDigits_value (n : Nat) : digitsValue (Nat.toDigits 10 n) 0 = n := by
  unfold Nat.toDigits
  rw [toDigitsCore_value (n + 1) n [] (by omega)]
  rfl

/-- The decimal digits of a number hold no minus sign. -/
theorem toDigits_no_dash (n : Nat) : ∀ c ∈ Nat.toDigits 10 n, c ≠ '-' := by
  intro c hc
  rcases toDigitsCore_chars _ _ _ c hc with h | h
  · simp at h
  · exact h

/-- Every number has at least one digit. -/
theorem toDigits_ne_nil (n : Nat) : Nat.toDigits 10 n ≠ [] :=
  toDigitsCore_ne_nil n n []

/-- Numbers with the same digits are equal. -/
theorem toDigits_injective {m n : Nat} (h : Nat.toDigits 10 m = Nat.toDigits 10 n) : m = n := by
  have := congrArg (fun l => digitsValue l 0) h
  simpa [toDigits_value] using this

/-- The text of a natural number as an integer is its digits. -/
theorem intChars_ofNat (m : Nat) : (toString (Int.ofNat m)).data = Nat.toDigits 10 m := rfl

/-- The text of a negative integer is a minus sign and the digits of its
absolute value. -/
theorem intChars_negSucc (m : Nat) :
    (toString (Int.negSucc m)).data = '-' :: Nat.toDigits 10 (m + 1) := rfl

/-- Two texts that agree and are each split at their first minus sign are split
at the same place. -/
theorem split_at_dash : ∀ (d1 d2 t1 t2 : List Char),
    (∀ c ∈ d1, c ≠ '-') → (∀ c ∈ d2, c ≠ '-') →
    d1 ++ '-' :: t1 = d2 ++ '-' :: t2 → d1 = d2 ∧ t1 = t2 := by
  intro d1
  induction d1 with
  | nil =>
    intro d2 t1 t2 _ h2 h
    cases d2 with
    | nil => simpa using h
    | cons c rest =>
      simp only [List.nil_append, List.cons_append, List.cons.injEq] at h
      exact absurd h.1.symm (h2 c (List.mem_cons_self _ _))
  | cons c rest ih =>
    intro d2 t1 t2 h1 h2 h
    cases d2 with
    | nil =>
      simp only [List.nil_append, List.cons_append, List.cons.injEq] at h
      exact absurd h.1 (h1 c (List.mem_cons_self _ _))
    | cons c2 rest2 =>
      simp only [List.cons_append, List.cons.injEq] at h
      obtain ⟨hr, ht⟩ := ih rest2 t1 t2 (fun x hx => h1 x (List.mem_cons_of_mem _ hx))
        (fun x hx => h2 x (List.mem_cons_of_mem _ hx)) h.2
      exact ⟨by rw [h.1, hr], ht⟩

/-- An integer followed by a minus sign and a rest determines the integer and
the rest. -/
theorem intChars_split (a c : Int) (t1 t2 : List Char)
    (h : (toString a).data ++ '-' :: t1 = (toString c).data ++ '-' :: t2) :
    a = c ∧ t1 = t2 := by
  cases a with
  | ofNat m =>
    cases c with
    | ofNat n =>
      rw [intChars_ofNat, intChars_ofNat] at h
      obtain ⟨hd, ht⟩ := split_at_dash _ _ _ _ (toDigits_no_dash m) (toDigits_no_dash n) h
      exact ⟨by rw [toDigits_injective hd], ht⟩
    | negSucc n =>
      rw [intChars_ofNat, intChars_negSucc] at h
      exfalso
      cases hm : Nat.toDigits 10 m with
      | nil => exact toDigits_ne_nil m hm
      | cons x rest =>
        rw [hm] at h
        simp only [List.cons_append, List.cons.injEq] at h
        exact toDigits_no_dash m x (by rw [hm]; exact List.mem_cons_self _ _) h.1
  | negSucc m =>
    cases c with
    | ofNat n =>
      rw [intChars_ofNat, intChars_negSucc] at h
      exfalso
      cases hn : Nat.toDigits 10 n with
      | nil => exact toDigits_ne_nil n hn
      | cons x rest =>
        rw [hn] at h
        simp only [List.cons_append, List.cons.injEq] at h
        exact toDigits_no_dash n x (by rw [hn]; exact List.mem_cons_self _ _) h.1.symm
    | negSucc n =>
      rw [intChars_negSucc, intChars_negSucc] at h
      simp only [List.cons_append, List.cons.injEq, true_and] at h
      obtain ⟨hd, ht⟩ := split_at_dash _ _ _ _ (toDigits_no_dash _) (toDigits_no_dash _) h
      have := toDigits_injective hd
      exact ⟨by rw [Nat.add_right_cancel this], ht⟩

/-- Integers with the same text are equal. -/
theorem intChars_injective {b d : Int} (h : (toString b).data = (toString d).data) : b = d := by
  have := intChars_split b d [] [] (by rw [h])
  exact this.1

/-- The characters of a ticket number. -/
theorem ticketNumber_data (a b : Int) :
    (Handlers.ticketNumber a b).data = 'T' :: 'K' :: '-' :: ((toString a).data ++ '-' :: (toString b).data) := by
  unfold Handlers.ticketNumber
  simp only [String.data_append]
  simp

/-- Two ticket numbers are equal exactly when order id and timestamp are. -/
theorem ticketNumber_inj (a b c d : Int) :
    Handlers.ticketNumber a b = Handlers.ticketNumber c d ↔ a = c ∧ b = d := by
  constructor
  · intro h
    have h2 := congrArg String.data h
    rw [ticketNumber_data, ticketNumber_data] at h2
    simp only [List.cons.injEq, true_and] at h2
    obtain ⟨hac, ht⟩ := intChars_split a c _ _ h2
    exact ⟨hac, intChars_injective ht⟩
  · rintro ⟨rfl, rfl⟩
    rfl

/-- C18: the ticket number `TK-<order id>-<unix seconds>` is an injective
function of order id and timestamp over all integers, so tickets created for
different orders have different ticket numbers whatever their timestamps. -/
theorem C18_ticket_number_injective (a b c d : Int) :
    (Handlers.ticketNumber a b = Handlers.ticketNumber c d ↔ a = c ∧ b = d) ∧
    (a ≠ c → Handlers.ticketNumber a b ≠ Handlers.ticketNumber c d) := by
  have key := ticketNumber_inj a b c d
  exact ⟨key, fun hne h => hne (key.mp h).1⟩

/-! ### C19: the passenger of the ticket -/

/-- C19: after a `CreateOrder` that answers 201, when the passenger lookup did
not fail or no passenger has id 0, the ticket written carries the passenger
id of the request when there is one; otherwise it carries the id of the
passenger profile stored for the caller (the first one), and no passenger
exactly when the caller has no profile. -/
theorem C19_passenger_resolution (s : Store) (f : Faults) (clk : Clock) (userID : Int)
    (req : CreateOrderRequest)
    (h : (Handlers.CreateOrder s f clk userID (some req)).1.status = 201)
    (hz : f.passengerGetByUserID = false ∨ ∀ p ∈ s.passengers, p.id ≠ 0) :
    ∃ ticket,
      (Handlers.CreateOrder s f clk userID (some req)).2.tickets = s.tickets ++ [ticket] ∧
      (∀ pid, req.passengerID = some pid → ticket.passengerID = some pid) ∧
      (req.passengerID = none →
        ticket.passengerID
          = (s.passengers.find? (fun p => p.userID == userID)).map (fun p => p.id) ∧
        (ticket.passengerID = none ↔ ∀ p ∈ s.passengers, p.userID ≠ userID) ∧
        (∀ pid, ticket.passengerID = some pid →
          ∃ p ∈ s.passengers, p.userID = userID ∧ p.id = pid)) := by
  obtain ⟨req', seat, route, hbody, _, _, _, _, _, _, _, _, hacc, heq⟩ := CreateOrder_created h
  simp only [Option.some.injEq] at hbody
  subst hbody
  rw [heq]
  refine ⟨createdTicket s f clk userID req, rfl, ?_, ?_⟩
  · intro pid hp
    simp [createdTicket, Handlers.resolvePassenger, hp]
  · intro hnone
    have hres : (createdTicket s f clk userID req).passengerID
        = (s.passengers.find? (fun p => p.userID == userID)).map (fun p => p.id) := by
      rcases hz with hf | hzero
      · simp only [createdTicket, Handlers.resolvePassenger, hnone,
          passengerRepository.GetByUserID, hf, Bool.false_eq_true, if_false]
        cases s.passengers.find? (fun p => p.userID == userID) <;> rfl
      · cases hf : f.passengerGetByUserID with
        | false =>
          simp only [createdTicket, Handlers.resolvePassenger, hnone,
            passengerRepository.GetByUserID, hf, Bool.false_eq_true, if_false]
          cases s.passengers.find? (fun p => p.userID == userID) <;> rfl
        | true =>
          exfalso
          have hp : (createdTicket s f clk userID req).passengerID = some 0 := by
            simp [createdTicket, Handlers.resolvePassenger, hnone,
              passengerRepository.GetByUserID, hf]
          have hrefs : references (s.passengers.map (fun x => x.id))
              (createdTicket s f clk userID req).passengerID = true := by
            unfold ticketRepository.accepts at hacc
            simp only [Bool.and_eq_true] at hacc
            exact hacc.1.1.1.2
          rw [hp] at hrefs
          simp only [references, List.contains_eq_any_beq, List.any_eq_true, List.mem_map,
            beq_iff_eq] at hrefs
          obtain ⟨x, ⟨p, hpm, hpx⟩, hx0⟩ := hrefs
          exact hzero p hpm (by rw [hpx, hx0])
    refine ⟨hres, ?_, ?_⟩
    · rw [hres]
      cases hfind : s.passengers.find? (fun p => p.userID == userID) with
      | none =>
        simp only [Option.map_none', true_iff]
        intro p hp
        have := List.find?_eq_none.mp hfind p hp
        simpa using this
      | some p =>
        have hpu : p.userID = userID := by simpa using List.find?_some hfind
        constructor
        · intro hcontra
          simp at hcontra
        · intro hall
          exact absurd hpu (hall p (List.mem_of_find?_eq_some hfind))
    · intro pid hpid
      rw [hres] at hpid
      cases hfind : s.passengers.find? (fun p => p.userID == userID) with
      | none => rw [hfind] at hpid; simp at hpid
      | some p =>
        rw [hfind] at hpid
        simp only [Option.map_some', Option.some.injEq] at hpid
        exact ⟨p, List.mem_of_find?_eq_some hfind, by simpa using List.find?_some hfind, hpid⟩

/-- C19 at the sample data: user 2 reserves without naming a passenger. -/
theorem C19_passenger_resolution_witness :
    ∃ ticket,
      (Handlers.CreateOrder sampleStore noFaults sampleClock 2
        (some ⟨1, 1, ⟨2000, 2⟩, none⟩)).2.tickets = sampleStore.tickets ++ [ticket] ∧
      ticket.passengerID = some 2 := by
  obtain ⟨ticket, h1, _, h3⟩ := C19_passenger_resolution sampleStore noFaults sampleClock 2
    ⟨1, 1, ⟨2000, 2⟩, none⟩ (by decide) (Or.inl rfl)
  exact ⟨ticket, h1, (h3 rfl).1.trans (by decide)⟩

/-! ### C20: the parameters of the search -/

/-- C20: when `from_city`, `to_city` or `date` is missing or empty,
`SearchRoutes` answers 400 whatever the store and whichever statement would
fail; when all three are present and the search statement fails, it answers
500 with an error body and no route list. -/
theorem C20_search_parameters (s : Store) (f : Faults) (clk : Clock)
    (fromCity toCity date : String) :
    ((fromCity = "" ∨ toCity = "" ∨ date = "") →
      Handlers.SearchRoutes s f clk fromCity toCity date
        = ⟨400, .error "from_city, to_city, and date are required"⟩) ∧
    (fromCity ≠ "" → toCity ≠ "" → date ≠ "" → f.routeSearch = true →
      Handlers.SearchRoutes s f clk fromCity toCity date
        = ⟨500, .error "Failed to search routes"⟩) := by
  constructor
  · intro h
    unfold Handlers.SearchRoutes
    have hc : (fromCity == "" || toCity == "" || date == "") = true := by
      rcases h with h | h | h <;> simp [h]
    rw [if_pos hc]
  · intro h1 h2 h3 hf
    unfold Handlers.SearchRoutes routeRepository.Search
    have hc : (fromCity == "" || toCity == "" || date == "") = false := by
      simp [h1, h2, h3]
    rw [hc, hf]
    rfl

/-! ### C21: the seat count of a route summary -/

/-- Adding up a count over a list, from a starting value. -/
theorem foldl_add_length {α : Type} (g : α → Nat) (l : List α) (init : Nat) :
    l.foldl (fun acc x => acc + g x) init = init + (l.map g).sum := by
  induction l generalizing init with
  | nil => simp
  | cons x rest ih =>
    simp only [List.foldl_cons, List.map_cons, List.sum_cons]
    rw [ih]
    omega

/-- The seat count of a summary is the sum, over the carriages of the train of
the route, of the number of seats of the carriage. -/
theorem routeSummary_availableSeats (s : Store) (clk : Clock) (route : Route) :
    (Handlers.routeSummary s clk route).availableSeats
      = ((s.carriages.filter (fun c => c.trainID == route.trainID)).map
          (fun c => (s.seats.filter (fun x => x.carriageID == c.id)).length)).sum := by
  have h1 : (Handlers.routeSummary s clk route).availableSeats
      = (carriageRepository.GetByTrainID s route.trainID).foldl
          (fun acc carriage => acc + (seatRepository.GetByCarriageID s carriage.id).length) 0 :=
    rfl
  rw [h1, foldl_add_length, Nat.zero_add]
  have hlen : ∀ c : Carriage, (seatRepository.GetByCarriageID s c.id).length
      = (s.seats.filter (fun x => x.carriageID == c.id)).length := by
    intro c
    unfold seatRepository.GetByCarriageID
    exact List.length_insertionSort _ _
  simp only [hlen]
  unfold carriageRepository.GetByTrainID
  exact ((List.perm_insertionSort _ _).map _).sum_eq

/-- C21: for every route summary `SearchRoutes` returns, `availableSeats` is
the sum over the carriages of the train of the route of the number of seats
of each carriage, and the response is the same whatever orders and tickets
the store holds. -/
theorem C21_available_seats (s : Store) (f : Faults) (clk : Clock)
    (fromCity toCity date : String) (items : List RouteSearchResponse)
    (h : Handlers.SearchRoutes s f clk fromCity toCity date = ⟨200, .routes (some items)⟩) :
    (∀ item ∈ items, ∃ route ∈ s.routes, ∃ trainID, route.trainID = some trainID ∧
      item.routeID = route.id ∧
      item.availableSeats
        = ((s.carriages.filter (fun c => c.trainID == trainID)).map
            (fun c => (s.seats.filter (fun x => x.carriageID == c.id)).length)).sum) ∧
    (∀ (orders : List Order) (tickets : List Ticket),
      Handlers.SearchRoutes { s with orders := orders, tickets := tickets } f clk
        fromCity toCity date = ⟨200, .routes (some items)⟩) := by
  constructor
  · obtain ⟨htr, hitems⟩ := SearchRoutes_items h
    intro item hitem
    rw [hitems] at hitem
    obtain ⟨row, hrow, rfl⟩ := List.mem_map.mp hitem
    have hmem := hrow
    rw [List.mem_dedup, mem_searchRows] at hmem
    cases ht : row.trainID with
    | none => exact absurd ht (htr row hrow)
    | some trainID =>
      have hsc : routeRepository.scanned row
          = ⟨row.id, row.name, trainID, Float64.ofHundredths row.price⟩ := by
        unfold routeRepository.scanned
        rw [ht]
      refine ⟨row, hmem.1, trainID, ht, ?_, ?_⟩
      · rw [hsc]
        rfl
      · rw [hsc]
        exact routeSummary_availableSeats s clk _
  · intro orders tickets
    rw [← h]
    rfl

/-- C21 at the sample data: train 703Б has one carriage with two seats. -/
theorem C21_available_seats_witness :
    ∃ route ∈ sampleStore.routes, ∃ trainID, route.trainID = some trainID ∧
      (1 : Int) = route.id ∧
      (2 : Nat)
        = ((sampleStore.carriages.filter (fun c => c.trainID == trainID)).map
            (fun c => (sampleStore.seats.filter (fun x => x.carriageID == c.id)).length)).sum :=
  (C21_available_seats sampleStore noFaults sampleClock "Минск" "Брест" "2030-01-01"
    [⟨1, "703Б", "2026-11-04T08:00:00Z", "2026-11-04T12:30:00Z", ⟨2000, 2⟩, 2⟩] (by decide)).1
    ⟨1, "703Б", "2026-11-04T08:00:00Z", "2026-11-04T12:30:00Z", ⟨2000, 2⟩, 2⟩
    (List.mem_singleton.mpr rfl)

/-! ### C22: sweeping twice -/

/-- C22: running `DeleteExpiredPending` a second time with the same threshold
at the same store time reports no error and leaves the store the first run
produced. -/
theorem C22_sweep_idempotent (s : Store) (dbNow maxAgeMinutes : Int) :
    (orderRepository.DeleteExpiredPending
      (orderRepository.DeleteExpiredPending s false dbNow maxAgeMinutes).2 false dbNow
      maxAgeMinutes).1 = .ok () ∧
    (orderRepository.DeleteExpiredPending
      (orderRepository.DeleteExpiredPending s false dbNow maxAgeMinutes).2 false dbNow
      maxAgeMinutes).2
      = (orderRepository.DeleteExpiredPending s false dbNow maxAgeMinutes).2 := by
  refine ⟨rfl, ?_⟩
  unfold orderRepository.DeleteExpiredPending
  simp only [Bool.false_eq_true, if_false]
  have ho : (s.orders.filter
        (fun o => !orderRepository.expiredPending dbNow maxAgeMinutes o)).filter
        (fun o => !orderRepository.expiredPending dbNow maxAgeMinutes o)
      = s.orders.filter (fun o => !orderRepository.expiredPending dbNow maxAgeMinutes o) := by
    rw [List.filter_filter]
    congr 1
    funext o
    simp
  have hany : ∀ t : Ticket, (s.orders.filter
        (fun o => !orderRepository.expiredPending dbNow maxAgeMinutes o)).any
        (fun o => o.id == t.orderID && orderRepository.expiredPending dbNow maxAgeMinutes o)
      = false := by
    intro t
    rw [List.any_eq_false]
    intro o ho
    have := (List.mem_filter.mp ho).2
    simp only [Bool.not_eq_true', ] at this
    simp [this]
  simp only [ho, hany, Bool.not_false, List.filter_true]

/-! ### C23: no ticket without its order -/

/-- `CreateOrder` keeps every ticket with a stored order. -/
theorem CreateOrder_keeps_tickets_ordered (s : Store) (f : Faults) (clk : Clock) (userID : Int)
    (body : Option CreateOrderRequest) (hinv : TicketsHaveOrders s) :
    TicketsHaveOrders (Handlers.CreateOrder s f clk userID body).2 := by
  rcases CreateOrder_outcome s f clk userID body with
    ⟨m, h⟩ | ⟨s1, h, h1, h2⟩ | ⟨req, route, s2, _, _, _, h, h1, h2⟩ |
    ⟨req, seat, route, _, _, _, _, _, view, h⟩
  · rw [h]; exact hinv
  · rw [h]
    intro t ht
    rw [show (_, s1).2 = s1 from rfl, h2] at ht
    obtain ⟨o, ho, hid⟩ := hinv t ht
    exact ⟨o, by rw [show (_, s1).2 = s1 from rfl, h1]; exact ho, hid⟩
  · rw [h]
    intro t ht
    rw [show (_, s2).2 = s2 from rfl, h2] at ht
    obtain ⟨o, ho, hid⟩ := hinv t ht
    exact ⟨o, by
      rw [show (_, s2).2 = s2 from rfl, h1]
      exact List.mem_append_left _ ho, hid⟩
  · rw [h]
    intro t ht
    rcases List.mem_append.mp ht with ht | ht
    · obtain ⟨o, ho, hid⟩ := hinv t ht
      exact ⟨o, List.mem_append_left _ ho, hid⟩
    · rw [List.mem_singleton.mp ht]
      exact ⟨_, List.mem_append_right _ (List.mem_singleton.mpr rfl), rfl⟩

/-- `DeleteOrder` keeps every ticket with a stored order. -/
theorem DeleteOrder_keeps_tickets_ordered (s : Store) (f : Faults) (userID : Int)
    (idParam : String) (hinv : TicketsHaveOrders s) :
    TicketsHaveOrders (Handlers.DeleteOrder s f userID idParam).2 := by
  rcases DeleteOrder_cases s f userID idParam with h | ⟨order, _, _, _, _, h⟩
  · rw [h]; exact hinv
  · rw [h]
    intro t ht
    obtain ⟨htm, htid⟩ := List.mem_filter.mp ht
    obtain ⟨o, ho, hid⟩ := hinv t htm
    refine ⟨o, List.mem_filter.mpr ⟨ho, ?_⟩, hid⟩
    simp only [bne_iff_ne, ne_eq] at htid ⊢
    rw [hid]
    exact htid

/-- `PayOrder` keeps every ticket with a stored order. -/
theorem PayOrder_keeps_tickets_ordered (s : Store) (f : Faults) (clk : Clock) (userID : Int)
    (idParam : String) (body : Option PaymentRequest) (hinv : TicketsHaveOrders s) :
    TicketsHaveOrders (Handlers.PayOrder s f clk userID idParam body).2 := by
  rcases PayOrder_cases s f clk userID idParam body with h | ⟨order, _, _, _, _, h⟩
  · rw [h]; exact hinv
  · rw [h]
    intro t ht
    obtain ⟨o, ho, hid⟩ := hinv t ht
    refine ⟨_, List.mem_map.mpr ⟨o, ho, rfl⟩, ?_⟩
    by_cases hc : (o.id == order.id) = true
    · simp only [hc, if_true]
      exact hid
    · simp only [hc]
      exact hid

/-- The expiry sweep keeps every ticket with a stored order. -/
theorem sweep_keeps_tickets_ordered (s : Store) (fail : Bool) (dbNow maxAgeMinutes : Int)
    (hinv : TicketsHaveOrders s) :
    TicketsHaveOrders (orderRepository.DeleteExpiredPending s fail dbNow maxAgeMinutes).2 := by
  unfold orderRepository.DeleteExpiredPending
  cases fail with
  | true => exact hinv
  | false =>
    simp only [Bool.false_eq_true, if_false]
    intro t ht
    obtain ⟨htm, hkeep⟩ := List.mem_filter.mp ht
    obtain ⟨o, ho, hid⟩ := hinv t htm
    refine ⟨o, List.mem_filter.mpr ⟨ho, ?_⟩, hid⟩
    simp only [Bool.not_eq_true', List.any_eq_false, Bool.and_eq_true, beq_iff_eq,
      not_and, Bool.not_eq_true] at hkeep
    have := hkeep o ho hid
    simp [this]

/-- Every call keeps every ticket with a stored order. -/
theorem step_keeps_tickets_ordered (s : Store) (c : Call) (hinv : TicketsHaveOrders s) :
    TicketsHaveOrders (step s c) := by
  cases c with
  | createOrder f clk userID body => exact CreateOrder_keeps_tickets_ordered s f clk userID body hinv
  | deleteOrder f userID idParam => exact DeleteOrder_keeps_tickets_ordered s f userID idParam hinv
  | payOrder f clk userID idParam body =>
    exact PayOrder_keeps_tickets_ordered s f clk userID idParam body hinv
  | deleteExpiredPending f clk maxAgeMinutes =>
    exact sweep_keeps_tickets_ordered s _ _ _ hinv

/-- Every sequence of calls keeps every ticket with a stored order. -/
theorem run_keeps_tickets_ordered (calls : List Call) :
    ∀ s : Store, TicketsHaveOrders s → TicketsHaveOrders (run s calls) := by
  induction calls with
  | nil => intro s h; exact h
  | cons c rest ih =>
    intro s h
    exact ih (step s c) (step_keeps_tickets_ordered s c h)

/-- C23: from a store in which every ticket references a stored order, every
sequence of `CreateOrder`, `DeleteOrder`, `PayOrder` and `DeleteExpiredPending`
calls leads to a store in which every ticket references a stored order; the
sweep removes each order it selects together with all tickets of that order,
as `Delete` does for a cancelled order; and a seat and date whose `ACTIVE`
tickets all belong to swept orders is available after the sweep. -/
theorem C23_tickets_keep_their_orders (s : Store) (hinv : TicketsHaveOrders s) :
    (∀ calls : List Call, TicketsHaveOrders (run s calls)) ∧
    (∀ (dbNow maxAgeMinutes : Int) (o : Order), o ∈ s.orders →
      orderRepository.expiredPending dbNow maxAgeMinutes o = true →
      (∀ x ∈ (orderRepository.DeleteExpiredPending s false dbNow maxAgeMinutes).2.orders,
        x ≠ o) ∧
      (∀ t ∈ (orderRepository.DeleteExpiredPending s false dbNow maxAgeMinutes).2.tickets,
        t.orderID ≠ o.id) ∧
      (orderRepository.DeleteExpiredPending s false dbNow maxAgeMinutes).2.tickets.filter
          (fun t => t.orderID == o.id)
        = (orderRepository.Delete s false o.id).2.tickets.filter
          (fun t => t.orderID == o.id)) ∧
    (∀ (dbNow maxAgeMinutes seatID date : Int),
      (∀ t ∈ activeTickets s seatID date, ∃ o ∈ s.orders, o.id = t.orderID ∧
        orderRepository.expiredPending dbNow maxAgeMinutes o = true) →
      seatRepository.IsAvailable
        (orderRepository.DeleteExpiredPending s false dbNow maxAgeMinutes).2 false seatID date
        = .ok true) := by
  refine ⟨fun calls => run_keeps_tickets_ordered calls s hinv, ?_, ?_⟩
  · intro dbNow maxAgeMinutes o ho hexp
    have hgone : ∀ t ∈ (orderRepository.DeleteExpiredPending s false dbNow
        maxAgeMinutes).2.tickets, t.orderID ≠ o.id := by
      intro t ht hid
      have hkeep := (List.mem_filter.mp ht).2
      simp only [Bool.not_eq_true', List.any_eq_false, Bool.and_eq_true, beq_iff_eq,
        not_and, Bool.not_eq_true] at hkeep
      have := hkeep o ho hid.symm
      rw [hexp] at this
      exact absurd this (by decide)
    refine ⟨?_, hgone, ?_⟩
    · intro x hx hxo
      have := (List.mem_filter.mp hx).2
      rw [hxo, hexp] at this
      exact absurd this (by decide)
    · have h1 : (orderRepository.DeleteExpiredPending s false dbNow maxAgeMinutes).2.tickets.filter
          (fun t => t.orderID == o.id) = [] := by
        rw [List.filter_eq_nil_iff]
        intro t ht
        simpa using hgone t ht
      have h2 : (orderRepository.Delete s false o.id).2.tickets.filter
          (fun t => t.orderID == o.id) = [] := by
        rw [List.filter_eq_nil_iff]
        intro t ht
        have := (List.mem_filter.mp ht).2
        simpa using this
      rw [h1, h2]
  · intro dbNow maxAgeMinutes seatID date hall
    unfold seatRepository.IsAvailable
    simp only [Bool.false_eq_true, if_false, Except.ok.injEq, beq_iff_eq,
      List.length_eq_zero, List.filter_eq_nil_iff]
    intro t ht hact
    have htm := (List.mem_filter.mp ht).1
    have hkeep := (List.mem_filter.mp ht).2
    obtain ⟨o, ho, hid, hexp⟩ := hall t (List.mem_filter.mpr ⟨htm, hact⟩)
    simp only [Bool.not_eq_true', List.any_eq_false, Bool.and_eq_true, beq_iff_eq,
      not_and, Bool.not_eq_true] at hkeep
    have := hkeep o ho hid
    rw [hexp] at this
    exact absurd this (by decide)

/-- C23 at the sample data: a reservation, a sweep and a payment after the
held store. -/
theorem C23_tickets_keep_their_orders_witness :
    TicketsHaveOrders (run heldStore
      [.createOrder noFaults sampleClock 2 (some ⟨1, 2, ⟨2000, 2⟩, none⟩),
       .deleteExpiredPending noFaults sampleClock (-1),
       .payOrder noFaults sampleClock 1 "1" (some ⟨"4111", "12/30", "123"⟩)]) :=
  (C23_tickets_keep_their_orders heldStore (by unfold TicketsHaveOrders; decide)).1 _

/-! ### C24: the orders of the user -/

/-- A loop of `append` from a slice that is not `nil`. -/
theorem foldl_goAppend_some {α β : Type} (g : α → β) (l : List α) (acc : List β) :
    l.foldl (fun acc x => goAppend acc (g x)) (some acc) = some (acc ++ l.map g) := by
  induction l generalizing acc with
  | nil => simp
  | cons x rest ih =>
    rw [List.foldl_cons]
    have hstep : goAppend (some acc) (g x) = some (acc ++ [g x]) := rfl
    rw [hstep, ih]
    simp

/-- The responses of a listing: `nil` for no order, else the views in order. -/
theorem orderResponses_eq (s : Store) (orders : List Order) :
    orderResponses s orders
      = if orders = [] then none else some (orders.map (orderEntry s)) := by
  unfold orderResponses
  cases orders with
  | nil => rfl
  | cons o rest =>
    rw [List.foldl_cons]
    have hstep : goAppend (none : Option (List OrderResponse)) (orderEntry s o)
        = some [orderEntry s o] := rfl
    rw [hstep, foldl_goAppend_some]
    simp

/-- `ORDER BY created_at DESC` yields the orders from newest to oldest. -/
theorem orders_sorted_desc (l : List Order) :
    (l.insertionSort (fun a b => b.createdAt ≤ a.createdAt)).Sorted
      (fun a b => b.createdAt ≤ a.createdAt) :=
  @List.sorted_insertionSort Order (fun a b => b.createdAt ≤ a.createdAt) _
    ⟨fun a b => le_total b.createdAt a.createdAt⟩
    ⟨fun _ _ _ hab hbc => le_trans hbc hab⟩ l

/-- C24: when the listing statement does not fail, `GetOrders` answers 200 with
one view for each order of a list that is a rearrangement of the stored
orders owned by the caller, from newest to oldest by creation timestamp, so
no order of another user is listed; the body is `null` when the caller has
no order. -/
theorem C24_orders_of_the_user (s : Store) (f : Faults) (userID : Int)
    (hf : f.orderGetByUserID = false) :
    ∃ listed : List Order,
      listed.Perm (s.orders.filter (fun o => o.userID == userID)) ∧
      listed.Sorted (fun a b => b.createdAt ≤ a.createdAt) ∧
      (∀ o ∈ listed, o ∈ s.orders ∧ o.userID = userID) ∧
      (∀ o ∈ s.orders, o.userID = userID → o ∈ listed) ∧
      Handlers.GetOrders s f userID
        = (⟨200, .orders (if listed = [] then none else some (listed.map (orderEntry s)))⟩,
          s) := by
  have hp := List.perm_insertionSort (fun a b : Order => b.createdAt ≤ a.createdAt)
    (s.orders.filter (fun o => o.userID == userID))
  refine ⟨(s.orders.filter (fun o => o.userID == userID)).insertionSort
    (fun a b => b.createdAt ≤ a.createdAt), hp, orders_sorted_desc _, ?_, ?_, ?_⟩
  · intro o ho
    have := List.mem_filter.mp (hp.subset ho)
    exact ⟨this.1, by simpa using this.2⟩
  · intro o ho hu
    exact hp.symm.subset (List.mem_filter.mpr ⟨ho, by simpa using hu⟩)
  · unfold Handlers.GetOrders orderRepository.GetByUserID
    rw [hf]
    simp only [Bool.false_eq_true, if_false]
    rw [orderResponses_eq]

/-- C24 at the sample data: the orders of user 1 in the held store. -/
theorem C24_orders_of_the_user_witness :
    ∃ listed : List Order,
      listed.Perm (heldStore.orders.filter (fun o => o.userID == 1)) ∧
      listed.Sorted (fun a b => b.createdAt ≤ a.createdAt) ∧
      (∀ o ∈ listed, o ∈ heldStore.orders ∧ o.userID = 1) ∧
      (∀ o ∈ heldStore.orders, o.userID = 1 → o ∈ listed) ∧
      Handlers.GetOrders heldStore noFaults 1
        = (⟨200, .orders (if listed = [] then none
            else some (listed.map (orderEntry heldStore)))⟩, heldStore) :=
  C24_orders_of_the_user heldStore noFaults 1 rfl

/-! ### C25: the round trip of a token -/

/-- A `float64` holds every integer from -2^53 to 2^53 exactly. -/
theorem float64OfInt_exact (n : Int) (h : -(2 : Int) ^ 53 ≤ n ∧ n ≤ (2 : Int) ^ 53) :
    float64OfInt n = n := by
  by_cases hlt : n.natAbs < 2 ^ 53
  · unfold float64OfInt
    simp only [hlt, if_true]
  · have hcases : n = (2 : Int) ^ 53 ∨ n = -(2 : Int) ^ 53 := by omega
    rcases hcases with h1 | h1
    · rw [h1]; decide
    · rw [h1]; decide

/-- C25 (amended): for every user id and every role, `ValidateToken` applied
to the token `GenerateToken` made with the same secret, before the expiry the
token carries, succeeds and answers claims with that role; the claims carry
that user id when the id lies between -2^53 and 2^53. -/
theorem C25_token_round_trip (secret role : String) (issued validated userID : Int)
    (hnow : validated < float64OfInt (issued + 60 * 60 * 24 * 7)) :
    ∃ claims, AuthService.ValidateToken secret validated
        (AuthService.GenerateToken secret issued userID role) = .ok claims ∧
      claims.role = role ∧
      (-(2 : Int) ^ 53 ≤ userID ∧ userID ≤ (2 : Int) ^ 53 → claims.userID = userID) := by
  refine ⟨⟨int64OfFloat (float64OfInt userID), role⟩, ?_, rfl, ?_⟩
  · unfold AuthService.ValidateToken AuthService.GenerateToken
    simp only [beq_self_eq_true, Bool.true_or, Bool.not_true, Bool.false_eq_true, if_false,
      bne_self_eq_false, hnow, decide_True]
  · intro hid
    have h63 : -(2 : Int) ^ 63 ≤ userID ∧ userID < (2 : Int) ^ 63 := by
      constructor <;> omega
    simp only [float64OfInt_exact userID hid, int64OfFloat, h63, and_self, if_true]

/-- C25 (amended) at the data of the test: user 123, role `PASSENGER`. -/
theorem C25_token_round_trip_witness :
    ∃ claims, AuthService.ValidateToken "test-secret" 1793800000
        (AuthService.GenerateToken "test-secret" 1793786400 123 "PASSENGER") = .ok claims ∧
      claims.role = "PASSENGER" ∧ claims.userID = 123 :=
  (C25_token_round_trip "test-secret" "PASSENGER" 1793786400 1793800000 123 (by decide)).elim
    fun claims h => ⟨claims, h.1, h.2.1, h.2.2 (by decide)⟩

/-- C25 (counterexample): for the `int64` user id 9007199254740993 (2^53 + 1)
the claims answered carry the user id 9007199254740992: the id passes
through a `float64`. -/
theorem C25_large_id_altered :
    -(2 : Int) ^ 63 ≤ 9007199254740993 ∧ (9007199254740993 : Int) < 2 ^ 63 ∧
    AuthService.ValidateToken "test-secret" 1793800000
      (AuthService.GenerateToken "test-secret" 1793786400 9007199254740993 "PASSENGER")
      = .ok ⟨9007199254740992, "PASSENGER"⟩ := by
  refine ⟨by decide, by decide, ?_⟩
  rfl

/-! ### C26: the departure date -/

/-- C26: the ticket written by a `CreateOrder` that answers 201 has, as
departure date, the calendar date of the clock plus one day, whatever the
store and the request. -/
theorem C26_departure_tomorrow (s : Store) (f : Faults) (clk : Clock) (userID : Int)
    (req : CreateOrderRequest)
    (h : (Handlers.CreateOrder s f clk userID (some req)).1.status = 201) :
    ∃ ticket,
      (Handlers.CreateOrder s f clk userID (some req)).2.tickets = s.tickets ++ [ticket] ∧
      ticket.seatID = some req.seatID ∧
      ticket.departureDate = clk.dayNumber + 1 := by
  obtain ⟨req', seat, route, hbody, _, _, _, _, _, _, _, _, _, heq⟩ := CreateOrder_created h
  simp only [Option.some.injEq] at hbody
  subst hbody
  rw [heq]
  exact ⟨createdTicket s f clk userID req, rfl, rfl, rfl⟩

/-- C26 at the sample data: a reservation on 2026-11-04 is for 2026-11-05. -/
theorem C26_departure_tomorrow_witness :
    ∃ ticket,
      (Handlers.CreateOrder sampleStore noFaults sampleClock 1
        (some ⟨1, 1, ⟨2000, 2⟩, none⟩)).2.tickets = sampleStore.tickets ++ [ticket] ∧
      ticket.seatID = some 1 ∧
      ticket.departureDate = sampleClock.dayNumber + 1 :=
  C26_departure_tomorrow sampleStore noFaults sampleClock 1 ⟨1, 1, ⟨2000, 2⟩, none⟩ (by decide)

/-! ### C27: the travel date and the routes found -/

/-- C27: `Route.Search` answers the same for any two date strings, and so does
`SearchRoutes` for any two that are not empty. -/
theorem C27_search_ignores_date (s : Store) (f : Faults) (clk : Clock) (fail : Bool)
    (fromCity toCity d1 d2 : String) :
    routeRepository.Search s fail fromCity toCity d1
      = routeRepository.Search s fail fromCity toCity d2 ∧
    (d1 ≠ "" → d2 ≠ "" →
      Handlers.SearchRoutes s f clk fromCity toCity d1
        = Handlers.SearchRoutes s f clk fromCity toCity d2) := by
  refine ⟨rfl, ?_⟩
  intro h1 h2
  unfold Handlers.SearchRoutes
  have e1 : (d1 == "") = false := by simpa using h1
  have e2 : (d2 == "") = false := by simpa using h2
  rw [e1, e2]
  rfl

/-! ### C28: the three order views -/

/-- C28: for a stored order O of the caller, when the three reads do not fail,
`GetOrder` answers the view of O, and that view is in the list `GetOrders`
answers and in the list `GetAllOrders` answers, where it is the only entry
with the id of O. -/
theorem C28_views_agree (s : Store) (f : Faults) (userID : Int) (idParam : String)
    (o : Order) (hkey : OrdersKeyed s) (hmem : o ∈ s.orders) (hown : o.userID = userID)
    (hid : ParseInt idParam = some o.id) (hget : f.orderGetByID = false)
    (hlist : f.orderGetByUserID = false) (hall : f.orderGetAll = false) :
    Handlers.GetOrder s f userID idParam = (⟨200, .order (orderEntry s o)⟩, s) ∧
    (∃ items, Handlers.GetOrders s f userID = (⟨200, .orders (some items)⟩, s) ∧
      orderEntry s o ∈ items ∧ ∀ e ∈ items, e.id = o.id → e = orderEntry s o) ∧
    (∃ items, Handlers.GetAllOrders s f = (⟨200, .orders (some items)⟩, s) ∧
      orderEntry s o ∈ items ∧ ∀ e ∈ items, e.id = o.id → e = orderEntry s o) := by
  have hentry : ∀ (l : List Order), (∀ x ∈ l, x ∈ s.orders) → o ∈ l →
      orderResponses s l = some (l.map (orderEntry s)) ∧
      orderEntry s o ∈ l.map (orderEntry s) ∧
      ∀ e ∈ l.map (orderEntry s), e.id = o.id → e = orderEntry s o := by
    intro l hsub hol
    refine ⟨?_, List.mem_map.mpr ⟨o, hol, rfl⟩, ?_⟩
    · rw [orderResponses_eq, if_neg (List.ne_nil_of_mem hol)]
    · intro e he heid
      obtain ⟨x, hx, rfl⟩ := List.mem_map.mp he
      have hxo : x = o := hkey x (hsub x hx) o hmem heid
      rw [hxo]
  refine ⟨?_, ?_, ?_⟩
  · unfold Handlers.GetOrder
    rw [hid]
    dsimp only
    rw [hget, orderGetByID_of_mem hkey hmem]
    dsimp only
    simp only [hown, bne_self_eq_false, Bool.false_eq_true, if_false]
    rfl
  · have hp := List.perm_insertionSort (fun a b : Order => b.createdAt ≤ a.createdAt)
      (s.orders.filter (fun x => x.userID == userID))
    obtain ⟨h1, h2, h3⟩ := hentry _
      (fun x hx => (List.mem_filter.mp (hp.subset hx)).1)
      (hp.symm.subset (List.mem_filter.mpr ⟨hmem, by simpa using hown⟩))
    refine ⟨_, ?_, h2, h3⟩
    unfold Handlers.GetOrders orderRepository.GetByUserID
    rw [hlist]
    simp only [Bool.false_eq_true, if_false]
    rw [h1]
  · have hp := List.perm_insertionSort (fun a b : Order => b.createdAt ≤ a.createdAt) s.orders
    obtain ⟨h1, h2, h3⟩ := hentry _ (fun x hx => hp.subset hx) (hp.symm.subset hmem)
    refine ⟨_, ?_, h2, h3⟩
    unfold Handlers.GetAllOrders orderRepository.GetAll
    rw [hall]
    simp only [Bool.false_eq_true, if_false]
    rw [h1]

/-- C28 at the sample data: order 1 of user 1 in the held store. -/
theorem C28_views_agree_witness :
    Handlers.GetOrder heldStore noFaults 1 "1"
      = (⟨200, .order (orderEntry heldStore
          ⟨1, 1, some 1, 1793786400000000, "PENDING", 2000⟩)⟩, heldStore) ∧
    Handlers.GetOrders heldStore noFaults 1
      = (⟨200, .orders (some [orderEntry heldStore
          ⟨1, 1, some 1, 1793786400000000, "PENDING", 2000⟩])⟩, heldStore) ∧
    Handlers.GetAllOrders heldStore noFaults
      = (⟨200, .orders (some [orderEntry heldStore
          ⟨1, 1, some 1, 1793786400000000, "PENDING", 2000⟩])⟩, heldStore) :=
  ⟨(C28_views_agree heldStore noFaults 1 "1" ⟨1, 1, some 1, 1793786400000000, "PENDING", 2000⟩
      (by unfold OrdersKeyed; decide) (by decide) rfl (by decide) rfl rfl rfl).1,
    by decide, by decide⟩

/-! ### C29: the seat and the route -/

/-- C29: in the two-train store route 1 runs train 1 and seat 7 stands in a
carriage of train 2, yet `CreateOrder` for route 1 and seat 7 answers 201 and
writes an order for route 1 with an `ACTIVE` ticket for seat 7; in general
every admissible request is served, and being admissible asks for the seat
and the route to exist, not for them to belong together. -/
theorem C29_seat_of_another_train :
    (∃ route ∈ twoTrainStore.routes, ∃ seat ∈ twoTrainStore.seats,
      ∃ carriage ∈ twoTrainStore.carriages,
        route.id = 1 ∧ seat.id = 7 ∧ carriage.id = seat.carriageID ∧
        route.trainID = some 1 ∧ carriage.trainID = 2) ∧
    (Handlers.CreateOrder twoTrainStore noFaults sampleClock 1
      (some ⟨1, 7, ⟨2000, 2⟩, none⟩)).1.status = 201 ∧
    (Handlers.CreateOrder twoTrainStore noFaults sampleClock 1
      (some ⟨1, 7, ⟨2000, 2⟩, none⟩)).2.orders
      = [⟨1, 1, some 1, 1793786400000000, "PENDING", 2000⟩] ∧
    (Handlers.CreateOrder twoTrainStore noFaults sampleClock 1
      (some ⟨1, 7, ⟨2000, 2⟩, none⟩)).2.tickets
      = [⟨1, 1, some 7, some 1, 20762, 2000, "TK-1-1793786400", "ACTIVE"⟩] ∧
    (∀ (s : Store) (f : Faults) (clk : Clock) (userID : Int) (req : CreateOrderRequest),
      Admissible s f clk userID req →
      (Handlers.CreateOrder s f clk userID (some req)).1.status = 201) := by
  refine ⟨by decide, by decide, by decide, by decide, ?_⟩
  intro s f clk userID req hadm
  obtain ⟨view, h⟩ := CreateOrder_admissible hadm
  rw [h]

/-! ### C30: the failures of a login -/

/-- C30: for a login request that binds, `Login` answers 401 "Invalid email or
password", with no token and the store as it was, both when no user has the
email and when the user found has a password hash the password does not
match. -/
theorem C30_login_failures_alike (s : Store) (f : Faults) (clk : Clock) (lib : Library)
    (secret : String) (body : Option LoginRequest) (req : LoginRequest)
    (hbind : bindLogin lib body = some req) :
    ((∀ u ∈ s.users, u.email ≠ req.email) →
      Handlers.Login s f clk lib secret body
        = (⟨401, .error "Invalid email or password"⟩, s)) ∧
    (∀ u, s.users.find? (fun x => x.email == req.email) = some u →
      lib.passwordMatches u.passwordHash req.password = false →
      Handlers.Login s f clk lib secret body
        = (⟨401, .error "Invalid email or password"⟩, s)) := by
  constructor
  · intro hnone
    unfold Handlers.Login userRepository.GetByEmail
    rw [hbind]
    dsimp only
    have hfind : s.users.find? (fun x => x.email == req.email) = none := by
      rw [List.find?_eq_none]
      intro u hu
      simpa using hnone u hu
    cases f.userGetByEmail with
    | true => rfl
    | false =>
      simp only [Bool.false_eq_true, if_false, hfind]
  · intro u hfind hbad
    unfold Handlers.Login userRepository.GetByEmail
    rw [hbind]
    dsimp only
    cases f.userGetByEmail with
    | true => rfl
    | false =>
      simp only [Bool.false_eq_true, if_false, hfind, hbad, Bool.not_false, if_true]

/-- C30 at the sample data: an unknown email and a wrong password for a known
one. -/
theorem C30_login_failures_alike_witness :
    Handlers.Login sampleStore noFaults sampleClock sampleLibrary "test-secret"
        (some ⟨"nobody@example.org", "secret123"⟩)
      = (⟨401, .error "Invalid email or password"⟩, sampleStore) ∧
    Handlers.Login sampleStore noFaults sampleClock sampleLibrary "test-secret"
        (some ⟨"anna@example.org", "secret123"⟩)
      = (⟨401, .error "Invalid email or password"⟩, sampleStore) :=
  ⟨(C30_login_failures_alike sampleStore noFaults sampleClock sampleLibrary "test-secret"
      (some ⟨"nobody@example.org", "secret123"⟩) ⟨"nobody@example.org", "secret123"⟩
      (by decide)).1 (by decide),
    (C30_login_failures_alike sampleStore noFaults sampleClock sampleLibrary "test-secret"
      (some ⟨"anna@example.org", "secret123"⟩) ⟨"anna@example.org", "secret123"⟩
      (by decide)).2 ⟨1, "anna@example.org", "x", "PASSENGER"⟩ (by decide) (by decide)⟩

end Railway
